import Mathlib

/-!
# OpenIris: configuration store and command dispatcher

A shallow embedding of `ESP/lib/src/data/config/project_config.{hpp,cpp}` and
`ESP/lib/src/data/CommandManager/CommandManager.cpp`.

Conventions of the embedding.

* The whole device is one record `World`; every C++ method is a function
  `World → World` (state passing).  Everything a method does to a collaborator
  (a write to flash, a notification, a WiFi state change, a radio disconnect, a
  scheduled restart, a line on the serial port) is appended, in program order,
  to `World.trace`.
* `uint8_t` values are natural numbers below 256; a conversion to `uint8_t`
  is written `% 256` (`u8` for a conversion from `int`).  `int` values are
  integers.
* `std::string` values are Lean strings; `std::string::c_str()` followed by a
  conversion from `const char*` cuts the text at the first NUL character.
* `Preferences` (the arduino-esp32 wrapper of the NVS flash library, the base
  class of `ProjectConfig`) is modelled by the flag `_started` and the typed
  key-value content `nvs` of the namespace that the store opens:
  `begin` sets `_started`, `end` clears it, every `put*`/`get*`/`clear` does
  nothing (a `get*` answers its default) while `_started` is false, and an entry
  keeps the type it was written with, so that a `get*` of another type fails
  and answers its default.  Opening the flash is assumed to succeed.
* Logging macros (`log_i`, `log_d`, ...) are not modelled.
-/

namespace OpenIris

/-! ## Scalars and strings -/

/-- Conversion of an `int` to `uint8_t`. -/
def u8 (n : Int) : Nat := (n % 256).toNat

/-- The text that `s.c_str()` denotes as a C string: `s` up to its first NUL. -/
def c_str (s : String) : String :=
  ⟨s.data.takeWhile (fun c => c != Char.ofNat 0)⟩

/-- The function `strlen` on the C string of `s`. -/
def strlen (s : String) : Nat := (c_str s).length

/-- Modelled from the spec: `Helpers::itoa(i, buffer, 10)` (declared in
`data/utilities/helpers.hpp`, which is not among the sources) writes the
decimal representation of `i`. -/
def itoa (i : Nat) : String := Nat.repr i

/-! ## Data model (`project_config.hpp`) -/

/-- The scoped enumeration `DeviceMode`; a `static_cast<DeviceMode>` of any `int` is a
value of the type, so the embedding keeps the underlying integer. -/
structure DeviceMode where
  val : Int
deriving DecidableEq, Repr

namespace DeviceMode
def USB_MODE : DeviceMode := ⟨0⟩
def WIFI_MODE : DeviceMode := ⟨1⟩
def AP_MODE : DeviceMode := ⟨2⟩
def AUTO_MODE : DeviceMode := ⟨3⟩
end DeviceMode

structure DeviceConfig_t where
  OTALogin : String
  OTAPassword : String
  OTAPort : Int
deriving DecidableEq, Repr

structure MDNSConfig_t where
  hostname : String
  service : String
deriving DecidableEq, Repr

structure CameraConfig_t where
  vflip : Nat
  href : Nat
  framesize : Nat
  quality : Nat
  brightness : Nat
deriving DecidableEq, Repr

structure WiFiConfig_t where
  name : String
  ssid : String
  password : String
  channel : Nat
  power : Nat
  adhoc : Bool
deriving DecidableEq, Repr

structure AP_WiFiConfig_t where
  ssid : String
  password : String
  channel : Nat
  adhoc : Bool
deriving DecidableEq, Repr

structure WiFiTxPower_t where
  power : Nat
deriving DecidableEq, Repr

structure DeviceModeConfig_t where
  mode : DeviceMode
  hasWiFiCredentials : Bool
deriving DecidableEq, Repr

structure TrackerConfig_t where
  device : DeviceConfig_t
  camera : CameraConfig_t
  networks : List WiFiConfig_t
  ap_network : AP_WiFiConfig_t
  mdns : MDNSConfig_t
  txpower : WiFiTxPower_t
  deviceMode : DeviceModeConfig_t
deriving DecidableEq, Repr

/-- Notification topics, as used by `notifyAll` in `project_config.cpp`
(the enumeration itself is declared in `data/StateManager/StateManager.hpp`). -/
inductive ConfigState_e where
  | configLoaded
  | deviceConfigUpdated
  | mdnsConfigUpdated
  | cameraConfigUpdated
  | networksConfigUpdated
  | wifiTxPowerUpdated
  | deviceModeUpdated
deriving DecidableEq, Repr

/-- States of the WiFi link, as used in `project_config.cpp`, `CommandManager.cpp`
and `main.cpp`. -/
inductive WiFiState_e where
  | WiFiState_None
  | WiFiState_Disconnected
  | WiFiState_ADHOC
  | WiFiState_Connected
  | WiFiState_Connecting
  | WiFiState_Error
deriving DecidableEq, Repr

/-! ## Durable storage (`Preferences` over NVS) -/

/-- A stored entry with the type it was written with: `putInt` writes an `i32`,
`putUInt` a `u32`, `putBool` a `flag`, `putString` a `str`. -/
inductive NvsValue where
  | i32 (v : Int)
  | u32 (v : Nat)
  | flag (b : Bool)
  | str (s : String)
deriving DecidableEq, Repr

/-- Content of the namespace of the store: at most one entry for each key. -/
abbrev Nvs := List (String × NvsValue)

/-- Write of one entry, replacing the entry of the same key. -/
def Nvs.put (key : String) (v : NvsValue) (st : Nvs) : Nvs :=
  (key, v) :: st.filter (fun e => e.1 != key)

/-- Entry stored under a key. -/
def Nvs.get (key : String) (st : Nvs) : Option NvsValue :=
  List.lookup key st

/-! ## The Mode Manager -/

/-- Modelled from the spec: `DeviceModeManager` (`data/DeviceMode/DeviceMode.hpp`, not
among the sources) is the holder of the current mode and of the credentials
flag (spec 4.3). -/
structure DeviceModeManager where
  currentMode : DeviceMode
  hasWiFiCredentials : Bool
deriving DecidableEq, Repr

namespace DeviceModeManager

/-- Modelled from the spec: `getMode()` is a plain state accessor. -/
def getMode (m : DeviceModeManager) : DeviceMode := m.currentMode

/-- Modelled from the spec: `setMode(kind)` is a plain state accessor that does
not itself persist. -/
def setMode (kind : DeviceMode) (m : DeviceModeManager) : DeviceModeManager :=
  { m with currentMode := kind }

end DeviceModeManager

/-! ## The device -/

/-- Effects on collaborators, in the order in which the program issues them. -/
inductive Event where
  /-- an entry written to flash -/
  | nvsWrite (key : String) (v : NvsValue)
  /-- the flash erased by `clear()` -/
  | nvsClear
  /-- the flash handle closed by `end()` -/
  | nvsClose
  /-- a call of `notifyAll(e)` -/
  | notify (e : ConfigState_e)
  /-- a call of `wifiStateManager.setState(s)` -/
  | wifiSetState (s : WiFiState_e)
  /-- a call of `WiFi.disconnect(wifioff)` -/
  | wifiDisconnect (wifioff : Bool)
  /-- a call of `OpenIrisTasks::ScheduleRestart(ms)` -/
  | scheduleRestart (ms : Nat)
  /-- a call of `Serial.println(s)` -/
  | serialPrintln (s : String)
deriving DecidableEq, Repr

/-- State of the device: the members of the one `ProjectConfig`, its
`Preferences` base, the `DeviceModeManager` singleton (absent until
`createInstance()`), the global `wifiStateManager`, and the trace of effects. -/
structure World where
  /-- the member `ProjectConfig::config` -/
  config : TrackerConfig_t
  /-- the member `ProjectConfig::_name` -/
  _name : String
  /-- the member `ProjectConfig::_mdnsName` -/
  _mdnsName : String
  /-- the member `ProjectConfig::_already_loaded` -/
  _already_loaded : Bool
  /-- the member `Preferences::_started` -/
  _started : Bool
  /-- content of the flash namespace -/
  nvs : Nvs
  /-- the instance answered by `DeviceModeManager::getInstance()` -/
  deviceModeManager : Option DeviceModeManager
  /-- current state of `wifiStateManager` -/
  wifiState : WiFiState_e
  /-- effects issued so far -/
  trace : List Event
deriving DecidableEq, Repr

/-- Build-time constants used by `initConfig` (`OTA_LOGIN`, `OTA_PASSWORD`,
`CAM_RESOLUTION` are preprocessor macros set by the build). -/
structure BuildFlags where
  OTA_LOGIN : String
  OTA_PASSWORD : String
  CAM_RESOLUTION : Int
deriving DecidableEq, Repr

/-! ### Collaborators -/

def emit (e : Event) (w : World) : World :=
  { w with trace := w.trace ++ [e] }

/-- Embedding of `ISubject::notifyAll`. -/
def notifyAll (e : ConfigState_e) (w : World) : World :=
  emit (.notify e) w

/-- Embedding of `wifiStateManager.setState`. -/
def wifiStateManager_setState (s : WiFiState_e) (w : World) : World :=
  emit (.wifiSetState s) { w with wifiState := s }

/-- Embedding of `WiFi.disconnect`. -/
def WiFi_disconnect (wifioff : Bool) (w : World) : World :=
  emit (.wifiDisconnect wifioff) w

/-- Embedding of `OpenIrisTasks::ScheduleRestart`. -/
def ScheduleRestart (ms : Nat) (w : World) : World :=
  emit (.scheduleRestart ms) w

/-- Embedding of `Serial.println`. -/
def Serial_println (s : String) (w : World) : World :=
  emit (.serialPrintln s) w

/-! ### `Preferences` -/

namespace Preferences

/-- Embedding of `Preferences::begin(name)`: opens the namespace. -/
def begin (_name : String) (w : World) : World :=
  { w with _started := true }

/-- Embedding of `Preferences::end()`: closes the handle. -/
def end_ (w : World) : World :=
  if w._started then emit .nvsClose { w with _started := false } else w

/-- Common part of the `put*` methods. -/
def put (key : String) (v : NvsValue) (w : World) : World :=
  if w._started then
    emit (.nvsWrite key v) { w with nvs := Nvs.put key v w.nvs }
  else w

def putInt (key : String) (value : Int) (w : World) : World :=
  put key (.i32 value) w

def putUInt (key : String) (value : Nat) (w : World) : World :=
  put key (.u32 value) w

def putBool (key : String) (value : Bool) (w : World) : World :=
  put key (.flag value) w

def putString (key : String) (value : String) (w : World) : World :=
  put key (.str value) w

def getInt (key : String) (defaultValue : Int) (w : World) : Int :=
  if w._started then
    match Nvs.get key w.nvs with
    | some (.i32 v) => v
    | _ => defaultValue
  else defaultValue

def getUInt (key : String) (defaultValue : Nat) (w : World) : Nat :=
  if w._started then
    match Nvs.get key w.nvs with
    | some (.u32 v) => v
    | _ => defaultValue
  else defaultValue

def getBool (key : String) (defaultValue : Bool) (w : World) : Bool :=
  if w._started then
    match Nvs.get key w.nvs with
    | some (.flag b) => b
    | _ => defaultValue
  else defaultValue

def getString (key : String) (defaultValue : String) (w : World) : String :=
  if w._started then
    match Nvs.get key w.nvs with
    | some (.str s) => s
    | _ => defaultValue
  else defaultValue

/-- Embedding of `Preferences::clear()`: erases the namespace; the result tells whether it did. -/
def clear (w : World) : Bool × World :=
  if w._started then (true, emit .nvsClear { w with nvs := [] }) else (false, w)

end Preferences

open Preferences

/-! ## `ProjectConfig` -/

/-- The constructor `ProjectConfig(name, mdnsName)` over a given flash content: the
configuration is empty (the instance of `main.cpp` is a global, so its scalar
members start at zero) and nothing is loaded. -/
def ProjectConfig_new (name mdnsName : String) (nvs : Nvs) : World :=
  { config :=
      { device := ⟨"", "", 0⟩
        camera := ⟨0, 0, 0, 0, 0⟩
        networks := []
        ap_network := ⟨"", "", 0, false⟩
        mdns := ⟨"", ""⟩
        txpower := ⟨0⟩
        deviceMode := ⟨⟨0⟩, false⟩ }
    _name := name
    _mdnsName := mdnsName
    _already_loaded := false
    _started := false
    nvs := nvs
    deviceModeManager := none
    wifiState := .WiFiState_None
    trace := [] }

/-- Embedding of `ProjectConfig::initConfig`. -/
def initConfig (b : BuildFlags) (w : World) : World :=
  let w := if w._name = "" then { w with _name := "openiris" } else w
  let w := Preferences.begin (c_str w._name) w
  let w := { w with config := { w.config with device := ⟨b.OTA_LOGIN, b.OTA_PASSWORD, 3232⟩ } }
  let w := if w._mdnsName = "" then { w with _mdnsName := "openiristracker" } else w
  let w := { w with config := { w.config with mdns := ⟨w._mdnsName, "openiristracker"⟩ } }
  let w := { w with config := { w.config with ap_network := ⟨"", "", 1, false⟩ } }
  let w := { w with config := { w.config with
    camera := ⟨0, 0, u8 b.CAM_RESOLUTION, 7, 2⟩ } }
  { w with config := { w.config with deviceMode := ⟨DeviceMode.AUTO_MODE, false⟩ } }

/-- The five key strings that `wifiConfigSave` and `load` build up: declared once
before the loop, each loop round appends the decimal index to them. -/
structure NetKeys where
  name : String
  ssid : String
  password : String
  channel : String
  power : String
deriving DecidableEq, Repr

def NetKeys.init : NetKeys := ⟨"name", "ssid", "pass", "channel", "txpower"⟩

/-- The five `append(iter_str)` calls at the head of the loop body. -/
def NetKeys.append (k : NetKeys) (iter_str : String) : NetKeys :=
  ⟨k.name ++ iter_str, k.ssid ++ iter_str, k.password ++ iter_str,
   k.channel ++ iter_str, k.power ++ iter_str⟩

/-- The `for` loop of `wifiConfigSave`, at index `i` with the networks from `i` on
still to write (the loop body does not change `config.networks`). -/
def wifiConfigSaveLoop : Nat → NetKeys → List WiFiConfig_t → World → World
  | _, _, [], w => w
  | i, k, n :: rest, w =>
    let k := k.append (itoa i)
    let w := putString (c_str k.name) (c_str n.name) w
    let w := putString (c_str k.ssid) (c_str n.ssid) w
    let w := putString (c_str k.password) (c_str n.password) w
    let w := putUInt (c_str k.channel) n.channel w
    let w := putUInt (c_str k.power) n.power w
    wifiConfigSaveLoop (i + 1) k rest w

/-- Embedding of `ProjectConfig::wifiConfigSave`. -/
def wifiConfigSave (w : World) : World :=
  let w := putInt "networkCount" (w.config.networks.length : Int) w
  let w := wifiConfigSaveLoop 0 NetKeys.init w.config.networks w
  let w := putString "apSSID" (c_str w.config.ap_network.ssid) w
  let w := putString "apPass" (c_str w.config.ap_network.password) w
  putUInt "apChannel" w.config.ap_network.channel w

/-- Embedding of `ProjectConfig::deviceConfigSave`. -/
def deviceConfigSave (w : World) : World :=
  let w := putString "OTAPassword" (c_str w.config.device.OTAPassword) w
  let w := putString "OTALogin" (c_str w.config.device.OTALogin) w
  putInt "OTAPort" w.config.device.OTAPort w

/-- Embedding of `ProjectConfig::mdnsConfigSave`. -/
def mdnsConfigSave (w : World) : World :=
  let w := putString "hostname" (c_str w.config.mdns.hostname) w
  putString "service" (c_str w.config.mdns.service) w

/-- Embedding of `ProjectConfig::wifiTxPowerConfigSave`. -/
def wifiTxPowerConfigSave (w : World) : World :=
  putInt "txpower" (w.config.txpower.power : Int) w

/-- The members `MODE_KEY` and `HAS_WIFI_CREDS_KEY`. -/
def MODE_KEY : String := "mode"
def HAS_WIFI_CREDS_KEY : String := "has_wifi_creds"

/-- Embedding of `ProjectConfig::deviceModeConfigSave`. -/
def deviceModeConfigSave (w : World) : World :=
  let w := putInt MODE_KEY w.config.deviceMode.mode.val w
  putBool HAS_WIFI_CREDS_KEY w.config.deviceMode.hasWiFiCredentials w

/-- Embedding of `ProjectConfig::cameraConfigSave`. -/
def cameraConfigSave (w : World) : World :=
  let w := putInt "vflip" (w.config.camera.vflip : Int) w
  let w := putInt "href" (w.config.camera.href : Int) w
  let w := putInt "framesize" (w.config.camera.framesize : Int) w
  let w := putInt "quality" (w.config.camera.quality : Int) w
  putInt "brightness" (w.config.camera.brightness : Int) w

/-- Embedding of `ProjectConfig::save`. -/
def save (w : World) : World :=
  let w := deviceConfigSave w
  let w := mdnsConfigSave w
  let w := cameraConfigSave w
  let w := wifiConfigSave w
  let w := wifiTxPowerConfigSave w
  let w := deviceModeConfigSave w
  Preferences.end_ w

/-- Embedding of `ProjectConfig::reset`. -/
def reset (w : World) : Bool × World :=
  Preferences.clear w

/-- Embedding of `ProjectConfig::determineMode`. -/
def determineMode (w : World) : DeviceMode :=
  if w.config.deviceMode.hasWiFiCredentials then DeviceMode.WIFI_MODE else DeviceMode.AP_MODE

/-- The `for` loop of `load`, with `r` rounds left, at index `i`. -/
def loadNetworksLoop : Nat → Nat → NetKeys → World → World
  | 0, _, _, w => w
  | r + 1, i, k, w =>
    let k := k.append (itoa i)
    let temp_1 := c_str (getString (c_str k.name) "" w)
    let temp_2 := c_str (getString (c_str k.ssid) "" w)
    let temp_3 := c_str (getString (c_str k.password) "" w)
    let temp_4 := getUInt (c_str k.channel) 0 w % 256
    let temp_5 := getUInt (c_str k.power) 0 w % 256
    let w := { w with config := { w.config with
      networks := w.config.networks ++ [⟨temp_1, temp_2, temp_3, temp_4, temp_5, false⟩] } }
    loadNetworksLoop r (i + 1) k w

/-- Embedding of `ProjectConfig::load`. -/
def load (b : BuildFlags) (w : World) : World :=
  if w._already_loaded then w
  else
    let w := initConfig b w
    let w := { w with config := { w.config with device := { w.config.device with
      OTALogin := c_str (getString "OTALogin" "openiris" w) } } }
    let w := { w with config := { w.config with device := { w.config.device with
      OTAPassword := c_str (getString "OTAPassword" "12345678" w) } } }
    let w := { w with config := { w.config with device := { w.config.device with
      OTAPort := getInt "OTAPort" 3232 w } } }
    let w := { w with config := { w.config with mdns := { w.config.mdns with
      hostname := c_str (getString "hostname" (c_str w._mdnsName) w) } } }
    let w := { w with config := { w.config with mdns := { w.config.mdns with
      service := c_str (getString "service" "" w) } } }
    let w := { w with config := { w.config with txpower := ⟨getUInt "txpower" 52 w % 256⟩ } }
    let networkCount := getInt "networkCount" 0 w
    let w := loadNetworksLoop networkCount.toNat 0 NetKeys.init w
    let w := { w with config := { w.config with ap_network := { w.config.ap_network with
      ssid := c_str (getString "apSSID" "" w) } } }
    let w := { w with config := { w.config with ap_network := { w.config.ap_network with
      password := c_str (getString "apPass" "" w) } } }
    let w := { w with config := { w.config with ap_network := { w.config.ap_network with
      channel := getUInt "apChannel" 0 w % 256 } } }
    let w := { w with config := { w.config with camera := { w.config.camera with
      vflip := u8 (getInt "vflip" 0 w) } } }
    let w := { w with config := { w.config with camera := { w.config.camera with
      href := u8 (getInt "href" 0 w) } } }
    let w := { w with config := { w.config with camera := { w.config.camera with
      framesize := u8 (getInt "framesize" (u8 b.CAM_RESOLUTION) w) } } }
    let w := { w with config := { w.config with camera := { w.config.camera with
      quality := u8 (getInt "quality" 7 w) } } }
    let w := { w with config := { w.config with camera := { w.config.camera with
      brightness := u8 (getInt "brightness" 2 w) } } }
    let savedMode := getInt MODE_KEY DeviceMode.AUTO_MODE.val w
    let w := { w with config := { w.config with deviceMode := { w.config.deviceMode with
      mode := ⟨savedMode⟩ } } }
    let w := { w with config := { w.config with deviceMode := { w.config.deviceMode with
      hasWiFiCredentials := getBool HAS_WIFI_CREDS_KEY false w } } }
    let w :=
      if w.config.deviceMode.mode = DeviceMode.AUTO_MODE then
        { w with config := { w.config with deviceMode := { w.config.deviceMode with
          mode := determineMode w } } }
      else w
    let w := { w with _already_loaded := true }
    notifyAll .configLoaded w

/-- Embedding of `ProjectConfig::setDeviceConfig`. -/
def setDeviceConfig (OTALogin OTAPassword : String) (OTAPort : Int) (shouldNotify : Bool)
    (w : World) : World :=
  let w := { w with config := { w.config with device := ⟨OTALogin, OTAPassword, OTAPort⟩ } }
  if shouldNotify then notifyAll .deviceConfigUpdated w else w

/-- Embedding of `ProjectConfig::setMDNSConfig`. -/
def setMDNSConfig (hostname service : String) (shouldNotify : Bool) (w : World) : World :=
  let w := { w with config := { w.config with mdns := ⟨hostname, service⟩ } }
  if shouldNotify then notifyAll .mdnsConfigUpdated w else w

/-- Embedding of `ProjectConfig::setCameraConfig` (the parameters are `uint8_t`). -/
def setCameraConfig (vflip framesize href quality brightness : Nat) (shouldNotify : Bool)
    (w : World) : World :=
  let w := { w with config := { w.config with camera :=
    ⟨vflip % 256, href % 256, framesize % 256, quality % 256, brightness % 256⟩ } }
  if shouldNotify then notifyAll .cameraConfigUpdated w else w

/-- The `for` loop of `setWifiConfig`: the first entry named `networkName` is
overwritten and the function returns (`some` of the new sequence); `none` when
the loop runs to the end without a match. -/
def setWifiConfigLoop (networkName ssid password : String) (channel power : Nat) :
    List WiFiConfig_t → Option (List WiFiConfig_t)
  | [] => none
  | it :: rest =>
    if it.name = networkName then
      some (⟨networkName, ssid, password, channel, power, false⟩ :: rest)
    else
      (setWifiConfigLoop networkName ssid password channel power rest).map (fun l => it :: l)

/-- Embedding of `ProjectConfig::setWifiConfig` (`channel` and `power` are `uint8_t`). -/
def setWifiConfig (networkName ssid password : String) (channel power : Nat)
    (_adhoc shouldNotify : Bool) (w : World) : World :=
  let size := w.config.networks.length
  match setWifiConfigLoop networkName ssid password (channel % 256) (power % 256)
      w.config.networks with
  | some nets =>
    let w := { w with config := { w.config with networks := nets } }
    if shouldNotify then
      let w := wifiStateManager_setState .WiFiState_Disconnected w
      let w := wifiConfigSave w
      notifyAll .networksConfigUpdated w
    else w
  | none =>
    let w :=
      if size < 3 ∧ size > 0 then
        let w := Serial_println "We're adding a new network" w
        { w with config := { w.config with networks := w.config.networks ++
          [⟨networkName, ssid, password, channel % 256, power % 256, false⟩] } }
      else w
    let w :=
      if size = 0 then
        let w := Serial_println "No networks, We're adding a new network" w
        { w with config := { w.config with networks := w.config.networks ++
          [⟨networkName, ssid, password, channel % 256, power % 256, false⟩] } }
      else w
    if shouldNotify then
      let w := wifiStateManager_setState .WiFiState_None w
      let w := wifiConfigSave w
      notifyAll .networksConfigUpdated w
    else w

/-- The `for` loop of `deleteWifiConfig`: `erase` on a match, step otherwise. -/
def deleteWifiConfigLoop (networkName : String) : List WiFiConfig_t → List WiFiConfig_t
  | [] => []
  | it :: rest =>
    if it.name = networkName then deleteWifiConfigLoop networkName rest
    else it :: deleteWifiConfigLoop networkName rest

/-- Embedding of `ProjectConfig::deleteWifiConfig`. -/
def deleteWifiConfig (networkName : String) (shouldNotify : Bool) (w : World) : World :=
  let size := w.config.networks.length
  let w := if size = 0 then Serial_println "No networks, nothing to delete" w else w
  let w := { w with config := { w.config with
    networks := deleteWifiConfigLoop networkName w.config.networks } }
  if shouldNotify then
    let w := wifiConfigSave w
    notifyAll .networksConfigUpdated w
  else w

/-- Embedding of `ProjectConfig::setWiFiTxPower` (`power` is `uint8_t`). -/
def setWiFiTxPower (power : Nat) (shouldNotify : Bool) (w : World) : World :=
  let w := { w with config := { w.config with txpower := ⟨power % 256⟩ } }
  if shouldNotify then notifyAll .wifiTxPowerUpdated w else w

/-- Embedding of `ProjectConfig::setAPWifiConfig` (`channel` is `uint8_t`). -/
def setAPWifiConfig (ssid password : String) (channel : Nat) (adhoc shouldNotify : Bool)
    (w : World) : World :=
  let w := { w with config := { w.config with
    ap_network := ⟨ssid, password, channel % 256, adhoc⟩ } }
  if shouldNotify then
    let w := wifiStateManager_setState .WiFiState_None w
    let w := WiFi_disconnect false w
    let w := wifiConfigSave w
    notifyAll .networksConfigUpdated w
  else w

/-- Embedding of `ProjectConfig::setDeviceMode`. -/
def setDeviceMode (mode : DeviceMode) (shouldNotify : Bool) (w : World) : World :=
  let w := { w with config := { w.config with deviceMode := { w.config.deviceMode with
    mode := mode } } }
  let w := putInt MODE_KEY mode.val w
  if shouldNotify then notifyAll .deviceModeUpdated w else w

/-- Embedding of `ProjectConfig::setHasWiFiCredentials`. -/
def setHasWiFiCredentials (hasCredentials shouldNotify : Bool) (w : World) : World :=
  let w := { w with config := { w.config with deviceMode := { w.config.deviceMode with
    hasWiFiCredentials := hasCredentials } } }
  let w := putBool HAS_WIFI_CREDS_KEY hasCredentials w
  if shouldNotify then notifyAll .deviceModeUpdated w else w

/-- Modelled from the spec: `DeviceModeManager::setHasWiFiCredentials(bool)` is the
flag accessor, independently persisted (spec 4.3).  It records the flag in the instance
and writes it to durable storage under `has_wifi_creds`, the key of the flag in the
storage layout (spec 6); the write is the Mode Manager's own, so it does not depend on
the flash handle of the Config Store, and it leaves the configuration in memory alone.
The result is the instance and the device after the write. -/
def DeviceModeManager.setHasWiFiCredentials (b : Bool) (m : DeviceModeManager) (w : World) :
    DeviceModeManager × World :=
  ({ m with hasWiFiCredentials := b },
   emit (.nvsWrite HAS_WIFI_CREDS_KEY (.flag b))
     { w with nvs := Nvs.put HAS_WIFI_CREDS_KEY (.flag b) w.nvs })

/-! ## Command documents (ArduinoJson) -/

/-- A decoded JSON value.  Numbers with a fractional part are not represented. -/
inductive Json where
  | null
  | bool (b : Bool)
  | int (i : Int)
  | str (s : String)
  | arr (items : List Json)
  | obj (members : List (String × Json))

namespace Json

/-- The subscript `v[key]`: the first member of that key when `v` is an object, null
otherwise. -/
def get (v : Json) (key : String) : Json :=
  match v with
  | obj members => (List.lookup key members).getD null
  | _ => null

/-- The test `v.is<const char*>()`. -/
def isString : Json → Bool
  | str _ => true
  | _ => false

/-- The test `v.is<JsonObject>()`. -/
def isObject : Json → Bool
  | obj _ => true
  | _ => false

/-- The test `v.is<JsonArray>()`. -/
def isArray : Json → Bool
  | arr _ => true
  | _ => false

/-- The test `v.is<int>()`: an integer that fits the 32-bit `int`. -/
def isInt : Json → Bool
  | int i => decide (-2147483648 ≤ i ∧ i ≤ 2147483647)
  | _ => false

/-- Conversion of a variant to a string (`as<std::string>()`, or the implicit
conversion at a call): the text of a string, empty otherwise. -/
def asString : Json → String
  | str s => s
  | _ => ""

/-- Conversion of a variant to `int`. -/
def asInt : Json → Int
  | int i => i
  | _ => 0

/-- Conversion `v.as<JsonArray>()`, as the sequence of its elements. -/
def asArray : Json → List Json
  | arr items => items
  | _ => []

end Json

/-- The argument of `handleCommands`: a structure whose member `data` is the
decoded document. -/
structure CommandsPayload where
  data : Json

/-- Kinds of command (declared in `CommandManager.hpp`; the spec lists them). -/
inductive CommandType where
  | None
  | PING
  | SET_WIFI
  | SET_MDNS
  | SWITCH_MODE
  | WIPE_WIFI_CREDS
deriving DecidableEq, Repr

/-- The table `commandMap` (declared in `CommandManager.hpp`, not among the
sources) is a parameter of the dispatcher: `find` on a name answers a kind or
nothing. -/
abbrev CommandMap := String → Option CommandType

/-- Modelled from the spec: the contents of `commandMap` that the spec gives in 4.4,
each kind under its own name. -/
def specCommandMap : CommandMap := fun s =>
  if s = "SET_WIFI" then some .SET_WIFI
  else if s = "SET_MDNS" then some .SET_MDNS
  else if s = "PING" then some .PING
  else if s = "SWITCH_MODE" then some .SWITCH_MODE
  else if s = "WIPE_WIFI_CREDS" then some .WIPE_WIFI_CREDS
  else none

/-! ## `CommandManager` -/

/-- Embedding of `CommandManager::getCommandType`. -/
def getCommandType (commandMap : CommandMap) (command : Json) : CommandType :=
  if !(command.get "command").isString then CommandType.None
  else
    match commandMap (command.get "command").asString with
    | some search => search
    | none => CommandType.None

/-- Embedding of `CommandManager::hasDataField`. -/
def hasDataField (command : Json) : Bool :=
  (command.get "data").isObject

/-- Embedding of `CommandManager::handleCommand`. -/
def handleCommand (commandMap : CommandMap) (command : Json) (w : World) : World :=
  let command_type := getCommandType commandMap command
  match command_type with
  | .SET_WIFI =>
    if !hasDataField command then w
    else if !((command.get "data").get "ssid").isString ||
        !((command.get "data").get "password").isString then w
    else
      let customNetworkName :=
        if ((command.get "data").get "network_name").isString then
          ((command.get "data").get "network_name").asString
        else "main"
      let w := setWifiConfig customNetworkName ((command.get "data").get "ssid").asString
        ((command.get "data").get "password").asString 0 0 false false w
      match w.deviceModeManager with
      | some deviceModeManager =>
        let r := deviceModeManager.setHasWiFiCredentials true w
        let deviceModeManager := r.1.setMode DeviceMode.WIFI_MODE
        ScheduleRestart 2000 { r.2 with deviceModeManager := some deviceModeManager }
      | none => w
  | .SET_MDNS =>
    if !hasDataField command then w
    else if !((command.get "data").get "hostname").isString ||
        strlen ((command.get "data").get "hostname").asString = 0 then w
    else
      setMDNSConfig ((command.get "data").get "hostname").asString "openiristracker" false w
  | .PING => Serial_println "PONG \n\r" w
  | .SWITCH_MODE =>
    if !hasDataField command then w
    else if !((command.get "data").get "mode").isInt then w
    else
      let modeValue := ((command.get "data").get "mode").asInt
      let newMode : DeviceMode := ⟨modeValue⟩
      match w.deviceModeManager with
      | some deviceModeManager =>
        let currentMode := deviceModeManager.getMode
        let w :=
          if newMode = DeviceMode.USB_MODE ∧
              (currentMode = DeviceMode.WIFI_MODE ∨ currentMode = DeviceMode.AP_MODE) then
            WiFi_disconnect true w
          else w
        let w := { w with deviceModeManager := some (deviceModeManager.setMode newMode) }
        if ¬ (newMode = DeviceMode.USB_MODE ∧
            (currentMode = DeviceMode.WIFI_MODE ∨ currentMode = DeviceMode.AP_MODE) ∧
            w.wifiState = WiFiState_e.WiFiState_Connecting) then
          ScheduleRestart 2000 w
        else w
      | none => w
  | .WIPE_WIFI_CREDS =>
    let networks := w.config.networks
    let w := networks.foldl (fun w network => deleteWifiConfig network.name false w) w
    match w.deviceModeManager with
    | some deviceModeManager =>
      let r := deviceModeManager.setHasWiFiCredentials false w
      let deviceModeManager := r.1.setMode DeviceMode.USB_MODE
      ScheduleRestart 2000 { r.2 with deviceModeManager := some deviceModeManager }
    | none => w
  | .None => w

/-- The range `for` of `handleCommands` over the elements of the array. -/
def handleCommandsLoop (commandMap : CommandMap) : List Json → World → World
  | [], w => w
  | commandData :: rest, w =>
    handleCommandsLoop commandMap rest (handleCommand commandMap commandData w)

/-- Embedding of `CommandManager::handleCommands`. -/
def handleCommands (commandMap : CommandMap) (commandsPayload : CommandsPayload)
    (w : World) : World :=
  if !(commandsPayload.data.get "commands").isArray then w
  else
    let w := handleCommandsLoop commandMap (commandsPayload.data.get "commands").asArray w
    save w

/-! ## Vocabulary of the statements -/

/-- Names of a sequence of networks, in order. -/
def names (nets : List WiFiConfig_t) : List String := nets.map (fun n => n.name)

/-- One call of `setWifiConfig`, as its seven arguments. -/
structure WifiCall where
  networkName : String
  ssid : String
  password : String
  channel : Nat
  power : Nat
  adhoc : Bool
  shouldNotify : Bool
deriving DecidableEq, Repr

/-- The calls of a sequence, one after the other. -/
def setWifiConfigs (calls : List WifiCall) (w : World) : World :=
  calls.foldl (fun w c =>
    setWifiConfig c.networkName c.ssid c.password c.channel c.power c.adhoc c.shouldNotify w) w

/-- The entry that `setWifiConfig` stores. -/
def newEntry (networkName ssid password : String) (channel power : Nat) : WiFiConfig_t :=
  ⟨networkName, ssid, password, channel % 256, power % 256, false⟩

/-- The networks after `setWifiConfig`, as a function of the networks before. -/
def upsert (e : WiFiConfig_t) (nets : List WiFiConfig_t) : List WiFiConfig_t :=
  match setWifiConfigLoop e.name e.ssid e.password e.channel e.power nets with
  | some l => l
  | none => if nets.length < 3 then nets ++ [e] else nets

/-- The name under which a `SET_WIFI` command stores its network: `data.network_name`
when that is a string, `main` otherwise. -/
def networkNameOf (data : Json) : String :=
  match data.get "network_name" with
  | .str s => s
  | _ => "main"

/-- The delays of the restarts scheduled in a trace, in order. -/
def restarts (t : List Event) : List Nat :=
  t.filterMap (fun e => match e with
    | .scheduleRestart ms => some ms
    | _ => none)

/-- The topics of the notifications sent in a trace, in order. -/
def notifications (t : List Event) : List ConfigState_e :=
  t.filterMap (fun e => match e with
    | .notify k => some k
    | _ => none)

/-- The five key strings as they stand in round `i` of the loops of `wifiConfigSave`
and `load`, after the appends of rounds `0` to `i`. -/
def keysAt : Nat → NetKeys
  | 0 => NetKeys.init.append (itoa 0)
  | i + 1 => (keysAt i).append (itoa (i + 1))

/-- The key strings on entry to round `i`. -/
def keysBefore : Nat → NetKeys
  | 0 => NetKeys.init
  | i + 1 => keysAt i

/-- A string without NUL character, that is, one that a C string can carry. -/
def IsCString (s : String) : Prop := ∀ c ∈ s.data, (c != Char.ofNat 0) = true

instance (s : String) : Decidable (IsCString s) := by
  unfold IsCString; infer_instance

/-- A network whose members are values of their C++ types: C strings and bytes. -/
def WiFiConfig_t.WellTyped (n : WiFiConfig_t) : Prop :=
  IsCString n.name ∧ IsCString n.ssid ∧ IsCString n.password ∧ n.channel < 256 ∧ n.power < 256

instance (n : WiFiConfig_t) : Decidable n.WellTyped := by
  unfold WiFiConfig_t.WellTyped; infer_instance

/-- A configuration whose members are values of their C++ types: the strings are C
strings and the `uint8_t` members are bytes. -/
def TrackerConfig_t.WellTyped (c : TrackerConfig_t) : Prop :=
  IsCString c.device.OTALogin ∧ IsCString c.device.OTAPassword ∧
  c.camera.vflip < 256 ∧ c.camera.href < 256 ∧ c.camera.framesize < 256 ∧
  c.camera.quality < 256 ∧ c.camera.brightness < 256 ∧
  (∀ n ∈ c.networks, n.WellTyped) ∧
  IsCString c.ap_network.ssid ∧ IsCString c.ap_network.password ∧ c.ap_network.channel < 256 ∧
  IsCString c.mdns.hostname ∧ IsCString c.mdns.service ∧
  c.txpower.power < 256

instance (c : TrackerConfig_t) : Decidable c.WellTyped := by
  unfold TrackerConfig_t.WellTyped; infer_instance

/-- The flash holds network `n` under the keys `k`. -/
def HoldsNetwork (st : Nvs) (k : NetKeys) (n : WiFiConfig_t) : Prop :=
  Nvs.get (c_str k.name) st = some (.str (c_str n.name)) ∧
  Nvs.get (c_str k.ssid) st = some (.str (c_str n.ssid)) ∧
  Nvs.get (c_str k.password) st = some (.str (c_str n.password)) ∧
  Nvs.get (c_str k.channel) st = some (.u32 n.channel) ∧
  Nvs.get (c_str k.power) st = some (.u32 n.power)

/-- The flash holds the networks of a sequence, the first of them under the keys of
round `i`. -/
def HoldsNetworks (st : Nvs) : Nat → List WiFiConfig_t → Prop
  | _, [] => True
  | i, n :: rest => HoldsNetwork st (keysAt i) n ∧ HoldsNetworks st (i + 1) rest

/-- The flash holds the configuration `c`: every key that `save` writes is present with
the value of its member of `c`. -/
def Holds (st : Nvs) (c : TrackerConfig_t) : Prop :=
  Nvs.get "OTAPassword" st = some (.str (c_str c.device.OTAPassword)) ∧
  Nvs.get "OTALogin" st = some (.str (c_str c.device.OTALogin)) ∧
  Nvs.get "OTAPort" st = some (.i32 c.device.OTAPort) ∧
  Nvs.get "hostname" st = some (.str (c_str c.mdns.hostname)) ∧
  Nvs.get "service" st = some (.str (c_str c.mdns.service)) ∧
  Nvs.get "vflip" st = some (.i32 c.camera.vflip) ∧
  Nvs.get "href" st = some (.i32 c.camera.href) ∧
  Nvs.get "framesize" st = some (.i32 c.camera.framesize) ∧
  Nvs.get "quality" st = some (.i32 c.camera.quality) ∧
  Nvs.get "brightness" st = some (.i32 c.camera.brightness) ∧
  Nvs.get "networkCount" st = some (.i32 c.networks.length) ∧
  HoldsNetworks st 0 c.networks ∧
  Nvs.get "apSSID" st = some (.str (c_str c.ap_network.ssid)) ∧
  Nvs.get "apPass" st = some (.str (c_str c.ap_network.password)) ∧
  Nvs.get "apChannel" st = some (.u32 c.ap_network.channel) ∧
  Nvs.get "txpower" st = some (.i32 c.txpower.power) ∧
  Nvs.get MODE_KEY st = some (.i32 c.deviceMode.mode.val) ∧
  Nvs.get HAS_WIFI_CREDS_KEY st = some (.flag c.deviceMode.hasWiFiCredentials)

/-- The device that boots over the flash that `save` on `w` leaves: a new `ProjectConfig` of
the same name, then `load`. -/
def saveAndReload (b : BuildFlags) (mdnsName : String) (w : World) : World :=
  load b (ProjectConfig_new w._name mdnsName (save w).nvs)

/-- The configuration that `load` builds from a flash that holds `c`. -/
def reloaded (c : TrackerConfig_t) : TrackerConfig_t :=
  { device := c.device
    camera := c.camera
    networks := c.networks.map (fun n => { n with adhoc := false })
    ap_network := { c.ap_network with adhoc := false }
    mdns := c.mdns
    txpower := ⟨52⟩
    deviceMode :=
      ⟨if c.deviceMode.mode = DeviceMode.AUTO_MODE then
          (if c.deviceMode.hasWiFiCredentials then DeviceMode.WIFI_MODE else DeviceMode.AP_MODE)
        else c.deviceMode.mode, c.deviceMode.hasWiFiCredentials⟩ }

/-- The reads of `load` that precede its loop: device, mDNS and transmit power. -/
def loadHead (w : World) : World :=
  let w := { w with config := { w.config with device := { w.config.device with
    OTALogin := c_str (getString "OTALogin" "openiris" w) } } }
  let w := { w with config := { w.config with device := { w.config.device with
    OTAPassword := c_str (getString "OTAPassword" "12345678" w) } } }
  let w := { w with config := { w.config with device := { w.config.device with
    OTAPort := getInt "OTAPort" 3232 w } } }
  let w := { w with config := { w.config with mdns := { w.config.mdns with
    hostname := c_str (getString "hostname" (c_str w._mdnsName) w) } } }
  let w := { w with config := { w.config with mdns := { w.config.mdns with
    service := c_str (getString "service" "" w) } } }
  { w with config := { w.config with txpower := ⟨getUInt "txpower" 52 w % 256⟩ } }

/-- The reads of `load` that follow its loop: access point, camera and mode; then the
guard is set and `configLoaded` is sent. -/
def loadTail (b : BuildFlags) (w : World) : World :=
  let w := { w with config := { w.config with ap_network := { w.config.ap_network with
    ssid := c_str (getString "apSSID" "" w) } } }
  let w := { w with config := { w.config with ap_network := { w.config.ap_network with
    password := c_str (getString "apPass" "" w) } } }
  let w := { w with config := { w.config with ap_network := { w.config.ap_network with
    channel := getUInt "apChannel" 0 w % 256 } } }
  let w := { w with config := { w.config with camera := { w.config.camera with
    vflip := u8 (getInt "vflip" 0 w) } } }
  let w := { w with config := { w.config with camera := { w.config.camera with
    href := u8 (getInt "href" 0 w) } } }
  let w := { w with config := { w.config with camera := { w.config.camera with
    framesize := u8 (getInt "framesize" (u8 b.CAM_RESOLUTION) w) } } }
  let w := { w with config := { w.config with camera := { w.config.camera with
    quality := u8 (getInt "quality" 7 w) } } }
  let w := { w with config := { w.config with camera := { w.config.camera with
    brightness := u8 (getInt "brightness" 2 w) } } }
  let savedMode := getInt MODE_KEY DeviceMode.AUTO_MODE.val w
  let w := { w with config := { w.config with deviceMode := { w.config.deviceMode with
    mode := ⟨savedMode⟩ } } }
  let w := { w with config := { w.config with deviceMode := { w.config.deviceMode with
    hasWiFiCredentials := getBool HAS_WIFI_CREDS_KEY false w } } }
  let w :=
    if w.config.deviceMode.mode = DeviceMode.AUTO_MODE then
      { w with config := { w.config with deviceMode := { w.config.deviceMode with
        mode := determineMode w } } }
    else w
  let w := { w with _already_loaded := true }
  notifyAll .configLoaded w

/-- One call of a per-section setter of the Config Store, as its arguments. -/
inductive SetterCall where
  | deviceConfig (OTALogin OTAPassword : String) (OTAPort : Int) (shouldNotify : Bool)
  | mdnsConfig (hostname service : String) (shouldNotify : Bool)
  | cameraConfig (vflip framesize href quality brightness : Nat) (shouldNotify : Bool)
  | wifiConfig (networkName ssid password : String) (channel power : Nat)
      (adhoc shouldNotify : Bool)
  | apWifiConfig (ssid password : String) (channel : Nat) (adhoc shouldNotify : Bool)
  | wifiTxPower (power : Nat) (shouldNotify : Bool)
  | deleteWifi (networkName : String) (shouldNotify : Bool)
  | deviceMode (mode : DeviceMode) (shouldNotify : Bool)
  | hasWiFiCredentials (hasCredentials shouldNotify : Bool)
deriving DecidableEq, Repr

/-- The setter that a call names, applied to its arguments. -/
def SetterCall.run : SetterCall → World → World
  | .deviceConfig l p port sn => setDeviceConfig l p port sn
  | .mdnsConfig h s sn => setMDNSConfig h s sn
  | .cameraConfig v f h q b sn => setCameraConfig v f h q b sn
  | .wifiConfig n s p c pw a sn => setWifiConfig n s p c pw a sn
  | .apWifiConfig s p c a sn => setAPWifiConfig s p c a sn
  | .wifiTxPower p sn => setWiFiTxPower p sn
  | .deleteWifi n sn => deleteWifiConfig n sn
  | .deviceMode m sn => setDeviceMode m sn
  | .hasWiFiCredentials h sn => setHasWiFiCredentials h sn

/-- The setter calls of a sequence, one after the other. -/
def runSetters (calls : List SetterCall) (w : World) : World :=
  calls.foldl (fun w c => c.run w) w

/-- The flash holds the wifi section of `c`: every key that `wifiConfigSave` writes is
present with the value of its member of `c`. -/
def HoldsWifi (st : Nvs) (c : TrackerConfig_t) : Prop :=
  Nvs.get "networkCount" st = some (.i32 c.networks.length) ∧
  HoldsNetworks st 0 c.networks ∧
  Nvs.get "apSSID" st = some (.str (c_str c.ap_network.ssid)) ∧
  Nvs.get "apPass" st = some (.str (c_str c.ap_network.password)) ∧
  Nvs.get "apChannel" st = some (.u32 c.ap_network.channel)

/-- The flags of the radio disconnects issued in a trace, in order. -/
def disconnects (t : List Event) : List Bool :=
  t.filterMap (fun e => match e with
    | .wifiDisconnect wifioff => some wifioff
    | _ => none)

/-! ## Sample data -/

/-- Build constants of the samples. -/
def sampleFlags : BuildFlags := ⟨"openiris", "12345678", 4⟩

/-- The device of `main.cpp` before `setup()`, over an empty flash. -/
def sampleBlank : World := ProjectConfig_new "openiris" "openiristracker" []

/-- Five calls: three new names, a fourth new name, and the first name again. -/
def sampleCalls : List WifiCall :=
  [⟨"main", "home", "secret", 0, 0, false, false⟩,
   ⟨"office", "work", "pw1", 6, 52, true, true⟩,
   ⟨"phone", "hotspot", "pw2", 11, 300, false, false⟩,
   ⟨"fourth", "cafe", "pw3", 1, 8, false, true⟩,
   ⟨"main", "home2", "secret2", 3, 20, false, false⟩]

/-- A device holding two networks, the flash handle open, the Mode Manager created. -/
def sampleTwo : World :=
  { sampleBlank with
    config := { sampleBlank.config with
      networks := [⟨"office", "work", "pw1", 6, 52, false⟩, ⟨"main", "home", "secret", 0, 0, false⟩] }
    _started := true
    _already_loaded := true
    deviceModeManager := some ⟨DeviceMode.AP_MODE, false⟩ }

/-- A device holding three networks, none of them named `main`. -/
def sampleFull : World :=
  { sampleBlank with
    config := { sampleBlank.config with
      networks := [⟨"office", "work", "pw1", 6, 52, false⟩, ⟨"phone", "hotspot", "pw2", 11, 44, false⟩,
        ⟨"lab", "bench", "pw3", 1, 8, false⟩] }
    _started := true
    _already_loaded := true
    deviceModeManager := some ⟨DeviceMode.WIFI_MODE, true⟩ }

/-- A flash whose mode entry is AUTO and whose credentials flag is set. -/
def sampleFlashAuto : Nvs := [("mode", .i32 3), ("has_wifi_creds", .flag true)]

/-- A device after `load`, `setAPWifiConfig(.., adhoc = true, ..)` and `setWiFiTxPower(20)`. -/
def sampleAP : World :=
  setWiFiTxPower 20 false (setAPWifiConfig "iris" "password" 6 true false
    (setWifiConfig "main" "home" "secret" 0 0 false false (load sampleFlags sampleBlank)))

/-- A device after `setup()`: Mode Manager created, configuration loaded from an empty
flash. -/
def sampleBooted : World :=
  load sampleFlags { sampleBlank with deviceModeManager := some ⟨DeviceMode.AP_MODE, false⟩ }

/-- The batch of the spec: one `SET_WIFI` command with an ssid and a password. -/
def sampleSetWifiBatch (x y : String) : CommandsPayload :=
  ⟨.obj [("commands", .arr [.obj [("command", .str "SET_WIFI"),
    ("data", .obj [("ssid", .str x), ("password", .str y)])]])]⟩

/-- The command of the spec: `SET_MDNS` with an empty data object. -/
def sampleBadMdns : Json := .obj [("command", .str "SET_MDNS"), ("data", .obj [])]

/-- The batch that holds the malformed `SET_MDNS` command alone. -/
def sampleBadMdnsBatch : CommandsPayload := ⟨.obj [("commands", .arr [sampleBadMdns])]⟩

/-- A batch of one `PING` command. -/
def samplePingBatch : CommandsPayload :=
  ⟨.obj [("commands", .arr [.obj [("command", .str "PING")]])]⟩

/-- A batch of one `SET_MDNS` command with the hostname `tracker2`. -/
def sampleMdnsBatch : CommandsPayload :=
  ⟨.obj [("commands", .arr [.obj [("command", .str "SET_MDNS"),
    ("data", .obj [("hostname", .str "tracker2")])]])]⟩

/-- A device whose networks hold the name `main` twice. -/
def sampleDup : World :=
  { sampleBlank with
    config := { sampleBlank.config with
      networks := [⟨"main", "home", "secret", 0, 0, false⟩, ⟨"office", "work", "pw1", 6, 52, false⟩,
        ⟨"main", "home2", "secret2", 3, 20, false⟩] }
    _started := true
    _already_loaded := true
    deviceModeManager := some ⟨DeviceMode.WIFI_MODE, true⟩ }

/-- A `SWITCH_MODE` command that asks for the mode of integer `v`. -/
def sampleSwitchMode (v : Int) : Json :=
  .obj [("command", .str "SWITCH_MODE"), ("data", .obj [("mode", .int v)])]

/-- A `WIPE_WIFI_CREDS` command. -/
def sampleWipe : Json := .obj [("command", .str "WIPE_WIFI_CREDS")]

/-- The batch that holds one `WIPE_WIFI_CREDS` command. -/
def sampleWipeBatch : CommandsPayload := ⟨.obj [("commands", .arr [sampleWipe])]⟩

/-- A flash laid out with the decimal index alone in the keys of the second network. -/
def sampleFlashIndexed : Nvs :=
  [("networkCount", .i32 2),
   ("name0", .str "office"), ("ssid0", .str "work"), ("pass0", .str "pw1"),
   ("channel0", .u32 6), ("txpower0", .u32 52),
   ("name1", .str "main"), ("ssid1", .str "home"), ("pass1", .str "secret"),
   ("channel1", .u32 1), ("txpower1", .u32 8)]

/-- A flash whose mode entry is the integer 7. -/
def sampleFlashMode7 : Nvs := [("mode", .i32 7), ("has_wifi_creds", .flag true)]

/-- A batch of one `SWITCH_MODE` command that asks for USB. -/
def sampleSwitchUsbBatch : CommandsPayload := ⟨.obj [("commands", .arr [sampleSwitchMode 0])]⟩

/-- A well-formed `SET_MDNS` command with the hostname `tracker2`. -/
def sampleSetMdns : Json :=
  .obj [("command", .str "SET_MDNS"), ("data", .obj [("hostname", .str "tracker2")])]

/-- A well-formed `SET_WIFI` command for the default name `main`. -/
def sampleSetWifi : Json :=
  .obj [("command", .str "SET_WIFI"), ("data", .obj [("ssid", .str "x"), ("password", .str "y")])]

/-- A `SET_WIFI` command without password. -/
def sampleBadSetWifi : Json :=
  .obj [("command", .str "SET_WIFI"), ("data", .obj [("ssid", .str "x")])]

/-- A `SWITCH_MODE` command whose mode is a string. -/
def sampleBadSwitchMode : Json :=
  .obj [("command", .str "SWITCH_MODE"), ("data", .obj [("mode", .str "usb")])]

/-- The booted device after the hostname was set to `tracker2`. -/
def sampleRenamed : World := setMDNSConfig "tracker2" "openiristracker" false sampleBooted

/-- The five keys of one network, in the order in which the loops use them. -/
def NetKeys.list (k : NetKeys) : List String :=
  [c_str k.name, c_str k.ssid, c_str k.password, c_str k.channel, c_str k.power]

/-- The keys of `r` networks from round `i` on. -/
def networkKeysFrom : Nat → Nat → List String
  | _, 0 => []
  | i, r + 1 => (keysAt i).list ++ networkKeysFrom (i + 1) r

/-- The per-network keys of a sequence of `n` networks. -/
def networkKeys (n : Nat) : List String := networkKeysFrom 0 n

/-- The keys of the other sections of the flash layout. -/
def sectionKeys : List String :=
  ["OTALogin", "OTAPassword", "OTAPort", "hostname", "service", "txpower", "networkCount",
   "apSSID", "apPass", "apChannel", "vflip", "href", "framesize", "quality", "brightness",
   "mode", "has_wifi_creds"]

/-- The five entries of network `n` under the keys `k`. -/
def netRecord (k : NetKeys) (n : WiFiConfig_t) : List (String × NvsValue) :=
  [(c_str k.name, .str (c_str n.name)), (c_str k.ssid, .str (c_str n.ssid)),
   (c_str k.password, .str (c_str n.password)), (c_str k.channel, .u32 n.channel),
   (c_str k.power, .u32 n.power)]

/-- The entries of a sequence of networks, the first of them in round `i`. -/
def netRecords : Nat → List WiFiConfig_t → List (String × NvsValue)
  | _, [] => []
  | i, n :: rest => netRecord (keysAt i) n ++ netRecords (i + 1) rest

/-- The entries of the wifi section of `c`, in the order of `wifiConfigSave`. -/
def wifiRecords (c : TrackerConfig_t) : List (String × NvsValue) :=
  ("networkCount", .i32 c.networks.length) :: netRecords 0 c.networks ++
    [("apSSID", .str (c_str c.ap_network.ssid)), ("apPass", .str (c_str c.ap_network.password)),
     ("apChannel", .u32 c.ap_network.channel)]

/-- The entries of `c`, in the order of `save`. -/
def saveRecords (c : TrackerConfig_t) : List (String × NvsValue) :=
  [("OTAPassword", .str (c_str c.device.OTAPassword)),
   ("OTALogin", .str (c_str c.device.OTALogin)), ("OTAPort", .i32 c.device.OTAPort),
   ("hostname", .str (c_str c.mdns.hostname)), ("service", .str (c_str c.mdns.service)),
   ("vflip", .i32 c.camera.vflip), ("href", .i32 c.camera.href),
   ("framesize", .i32 c.camera.framesize), ("quality", .i32 c.camera.quality),
   ("brightness", .i32 c.camera.brightness)] ++
  wifiRecords c ++
  [("txpower", .i32 c.txpower.power), (MODE_KEY, .i32 c.deviceMode.mode.val),
   (HAS_WIFI_CREDS_KEY, .flag c.deviceMode.hasWiFiCredentials)]

/-- The write events of a list of entries. -/
def writeEvents (rs : List (String × NvsValue)) : List Event :=
  rs.map (fun r => Event.nvsWrite r.1 r.2)

/-- The network that one round of the loop of `load` reads under the keys `k`. -/
def readNetwork (k : NetKeys) (w : World) : WiFiConfig_t :=
  ⟨c_str (getString (c_str k.name) "" w), c_str (getString (c_str k.ssid) "" w),
   c_str (getString (c_str k.password) "" w), getUInt (c_str k.channel) 0 w % 256,
   getUInt (c_str k.power) 0 w % 256, false⟩

/-- The networks that `r` rounds of the loop of `load` read, from round `i` on. -/
def readNetworksFrom : Nat → Nat → World → List WiFiConfig_t
  | _, 0, _ => []
  | i, r + 1, w => readNetwork (keysAt i) w :: readNetworksFrom (i + 1) r w

/-- Two calls after the first load: the network `lab` is set with the adhoc argument
true, then the network `old` is deleted. -/
def sampleAdhocCalls : List SetterCall :=
  [.wifiConfig "lab" "bench" "pw3" 1 8 true false, .deleteWifi "old" false]

/-! # Theorems -/

/-! ## Frame lemmas: what the collaborators and the flash writes leave alone -/

@[simp] theorem emit_config (e : Event) (w : World) : (emit e w).config = w.config := rfl

@[simp] theorem put_config (key : String) (v : NvsValue) (w : World) :
    (Preferences.put key v w).config = w.config := by
  unfold Preferences.put; split <;> rfl

@[simp] theorem wifiConfigSaveLoop_config (i : Nat) (k : NetKeys) (l : List WiFiConfig_t)
    (w : World) : (wifiConfigSaveLoop i k l w).config = w.config := by
  induction l generalizing i k w with
  | nil => rfl
  | cons n rest ih =>
    simp [wifiConfigSaveLoop, ih, putString, putUInt]

@[simp] theorem wifiConfigSave_config (w : World) : (wifiConfigSave w).config = w.config := by
  simp [wifiConfigSave, putString, putUInt, putInt]

@[simp] theorem names_nil : names [] = [] := rfl

@[simp] theorem names_cons (a : WiFiConfig_t) (l : List WiFiConfig_t) :
    names (a :: l) = a.name :: names l := rfl

@[simp] theorem names_append (l₁ l₂ : List WiFiConfig_t) :
    names (l₁ ++ l₂) = names l₁ ++ names l₂ := by simp [names]

theorem mem_names {n : String} {l : List WiFiConfig_t} :
    n ∈ names l ↔ ∃ x ∈ l, x.name = n := by simp [names]

theorem setWifiConfig_networks (networkName ssid password : String) (channel power : Nat)
    (adhoc shouldNotify : Bool) (w : World) :
    (setWifiConfig networkName ssid password channel power adhoc shouldNotify w).config.networks
      = upsert (newEntry networkName ssid password channel power) w.config.networks := by
  unfold setWifiConfig upsert newEntry
  simp only
  cases hl : setWifiConfigLoop networkName ssid password (channel % 256) (power % 256)
      w.config.networks with
  | some l =>
    cases shouldNotify <;> simp [notifyAll, wifiStateManager_setState]
  | none =>
    have h0 : ∀ l : List WiFiConfig_t, (l.length < 3 ∧ l.length > 0) ∨ l.length = 0 ↔ l.length < 3 := by
      intro l; omega
    rcases Nat.eq_zero_or_pos w.config.networks.length with hz | hp
    · cases shouldNotify <;>
        simp [notifyAll, wifiStateManager_setState, Serial_println, hz]
    · have hne : w.config.networks.length ≠ 0 := by omega
      by_cases h3 : w.config.networks.length < 3
      · cases shouldNotify <;>
          simp [notifyAll, wifiStateManager_setState, Serial_println, hne, h3, hp]
      · cases shouldNotify <;>
          simp [notifyAll, wifiStateManager_setState, Serial_println, hne, h3]

theorem setWifiConfigLoop_none_iff (n s p : String) (c pw : Nat) (l : List WiFiConfig_t) :
    setWifiConfigLoop n s p c pw l = none ↔ n ∉ names l := by
  induction l with
  | nil => simp [setWifiConfigLoop]
  | cons it rest ih =>
    unfold setWifiConfigLoop
    by_cases h : it.name = n
    · simp [h]
    · simp only [h, if_false, Option.map_eq_none', ih]
      simp [Ne.symm h]

theorem setWifiConfigLoop_some (n s p : String) (c pw : Nat) (l l' : List WiFiConfig_t)
    (h : setWifiConfigLoop n s p c pw l = some l') :
    names l' = names l ∧
    l'.filter (fun x => !decide (x.name = n)) = l.filter (fun x => !decide (x.name = n)) ∧
    ((names l).Nodup → l'.filter (fun x => decide (x.name = n)) = [⟨n, s, p, c, pw, false⟩]) := by
  induction l generalizing l' with
  | nil => simp [setWifiConfigLoop] at h
  | cons it rest ih =>
    unfold setWifiConfigLoop at h
    by_cases hn : it.name = n
    · simp only [hn, if_true, Option.some.injEq] at h
      subst h
      refine ⟨by simp [hn], by simp [hn], ?_⟩
      intro hnd
      rw [names_cons, List.nodup_cons] at hnd
      have hnot : n ∉ names rest := by simpa [hn] using hnd.1
      have : rest.filter (fun x => decide (x.name = n)) = [] := by
        simp only [List.filter_eq_nil_iff, decide_eq_true_eq]
        intro x hx hxn
        exact hnot (mem_names.mpr ⟨x, hx, hxn⟩)
      simp [this]
    · simp only [hn, if_false, Option.map_eq_some'] at h
      obtain ⟨l0, hl0, rfl⟩ := h
      obtain ⟨h1, h2, h3⟩ := ih l0 hl0
      refine ⟨by simp [h1], by simp [hn, h2], ?_⟩
      intro hnd
      rw [names_cons, List.nodup_cons] at hnd
      simp [hn, h3 hnd.2]

theorem upsert_length_le (e : WiFiConfig_t) (l : List WiFiConfig_t) (h : l.length ≤ 3) :
    (upsert e l).length ≤ 3 := by
  unfold upsert
  cases hl : setWifiConfigLoop e.name e.ssid e.password e.channel e.power l with
  | some l' =>
    have := congrArg List.length (setWifiConfigLoop_some _ _ _ _ _ _ _ hl).1
    simp only [names, List.length_map] at this
    simpa [this] using h
  | none =>
    simp only
    split
    · simp; omega
    · exact h

theorem upsert_nodup (e : WiFiConfig_t) (l : List WiFiConfig_t) (h : (names l).Nodup) :
    (names (upsert e l)).Nodup := by
  unfold upsert
  cases hl : setWifiConfigLoop e.name e.ssid e.password e.channel e.power l with
  | some l' =>
    simpa [(setWifiConfigLoop_some _ _ _ _ _ _ _ hl).1] using h
  | none =>
    have hn := (setWifiConfigLoop_none_iff _ _ _ _ _ _).mp hl
    simp only
    split
    · rw [names_append]
      exact List.Nodup.append h (by simp) (by simpa using hn)
    · exact h

theorem setWifiConfigs_invariant (calls : List WifiCall) (w : World)
    (hlen : w.config.networks.length ≤ 3) (hnd : (names w.config.networks).Nodup) :
    (setWifiConfigs calls w).config.networks.length ≤ 3 ∧
      (names (setWifiConfigs calls w).config.networks).Nodup := by
  induction calls generalizing w with
  | nil => exact ⟨hlen, hnd⟩
  | cons c rest ih =>
    have := ih (setWifiConfig c.networkName c.ssid c.password c.channel c.power c.adhoc
      c.shouldNotify w)
      (by rw [setWifiConfig_networks]; exact upsert_length_le _ _ hlen)
      (by rw [setWifiConfig_networks]; exact upsert_nodup _ _ hnd)
    simpa [setWifiConfigs] using this

/-- C1: starting from an empty networks sequence, after every finite sequence of
`setWifiConfig` calls, whatever their arguments, the networks sequence has at most
three entries and no two entries share a name. -/
theorem C1_setWifiConfig_capacity_and_unique_names (w : World) (calls : List WifiCall)
    (hempty : w.config.networks = []) :
    (setWifiConfigs calls w).config.networks.length ≤ 3 ∧
      (names (setWifiConfigs calls w).config.networks).Nodup :=
  setWifiConfigs_invariant calls w (by simp [hempty]) (by simp [hempty])

/-- Witness of C1: the five sample calls on the blank device. -/
theorem C1_witness :
    sampleBlank.config.networks = [] ∧
      (setWifiConfigs sampleCalls sampleBlank).config.networks.length ≤ 3 ∧
      (names (setWifiConfigs sampleCalls sampleBlank).config.networks).Nodup :=
  ⟨rfl, C1_setWifiConfig_capacity_and_unique_names sampleBlank sampleCalls rfl⟩

/-- C2: on a sequence with unique names that has room or already holds the name `n`, two
successive `setWifiConfig` calls with name `n` leave exactly one entry named `n`, which
holds the second ssid, password, channel and power; the other entries, and the order
of the names, are those of the start (a new name comes last). -/
theorem C2_setWifiConfig_twice_is_one_entry (w : World)
    (n ssid1 password1 ssid2 password2 : String)
    (channel1 power1 channel2 power2 : Nat) (adhoc1 notify1 adhoc2 notify2 : Bool)
    (hchannel : channel2 < 256) (hpower : power2 < 256)
    (huniq : (names w.config.networks).Nodup)
    (hroom : w.config.networks.length < 3 ∨ n ∈ names w.config.networks) :
    (setWifiConfig n ssid2 password2 channel2 power2 adhoc2 notify2
        (setWifiConfig n ssid1 password1 channel1 power1 adhoc1 notify1 w)).config.networks.filter
        (fun x => decide (x.name = n)) = [⟨n, ssid2, password2, channel2, power2, false⟩] ∧
    (setWifiConfig n ssid2 password2 channel2 power2 adhoc2 notify2
        (setWifiConfig n ssid1 password1 channel1 power1 adhoc1 notify1 w)).config.networks.filter
        (fun x => !decide (x.name = n)) =
      w.config.networks.filter (fun x => !decide (x.name = n)) ∧
    names (setWifiConfig n ssid2 password2 channel2 power2 adhoc2 notify2
        (setWifiConfig n ssid1 password1 channel1 power1 adhoc1 notify1 w)).config.networks =
      (if n ∈ names w.config.networks then names w.config.networks
       else names w.config.networks ++ [n]) := by
  simp only [setWifiConfig_networks]
  generalize w.config.networks = l at huniq hroom
  have hc2 : channel2 % 256 = channel2 := Nat.mod_eq_of_lt hchannel
  have hp2 : power2 % 256 = power2 := Nat.mod_eq_of_lt hpower
  -- the sequence after the first call still has unique names and holds `n`
  have key : ∀ l1 : List WiFiConfig_t, (names l1).Nodup → n ∈ names l1 →
      (upsert (newEntry n ssid2 password2 channel2 power2) l1).filter
          (fun x => decide (x.name = n)) = [⟨n, ssid2, password2, channel2, power2, false⟩] ∧
      (upsert (newEntry n ssid2 password2 channel2 power2) l1).filter
          (fun x => !decide (x.name = n)) = l1.filter (fun x => !decide (x.name = n)) ∧
      names (upsert (newEntry n ssid2 password2 channel2 power2) l1) = names l1 := by
    intro l1 hnd hmem
    unfold upsert
    cases hl : setWifiConfigLoop (newEntry n ssid2 password2 channel2 power2).name
        (newEntry n ssid2 password2 channel2 power2).ssid
        (newEntry n ssid2 password2 channel2 power2).password
        (newEntry n ssid2 password2 channel2 power2).channel
        (newEntry n ssid2 password2 channel2 power2).power l1 with
    | none => exact absurd hmem ((setWifiConfigLoop_none_iff _ _ _ _ _ _).mp hl)
    | some l2 =>
      obtain ⟨h1, h2, h3⟩ := setWifiConfigLoop_some _ _ _ _ _ _ _ hl
      refine ⟨?_, h2, h1⟩
      have := h3 hnd
      simpa [newEntry, hc2, hp2] using this
  by_cases hmem : n ∈ names l
  · -- the first call overwrites in place
    have h1 : ∃ l1, setWifiConfigLoop n ssid1 password1 (channel1 % 256) (power1 % 256) l
        = some l1 := by
      cases hl : setWifiConfigLoop n ssid1 password1 (channel1 % 256) (power1 % 256) l with
      | none => exact absurd hmem ((setWifiConfigLoop_none_iff _ _ _ _ _ _).mp hl)
      | some l1 => exact ⟨l1, rfl⟩
    obtain ⟨l1, hl1⟩ := h1
    obtain ⟨g1, g2, _⟩ := setWifiConfigLoop_some _ _ _ _ _ _ _ hl1
    have hu : upsert (newEntry n ssid1 password1 channel1 power1) l = l1 := by
      simp [upsert, newEntry, hl1]
    rw [hu]
    obtain ⟨k1, k2, k3⟩ := key l1 (by rw [g1]; exact huniq) (by rw [g1]; exact hmem)
    exact ⟨k1, by rw [k2, g2], by rw [k3, g1, if_pos hmem]⟩
  · -- the first call appends
    have hlen : l.length < 3 := by
      rcases hroom with h | h
      · exact h
      · exact absurd h hmem
    have hnone : setWifiConfigLoop n ssid1 password1 (channel1 % 256) (power1 % 256) l
        = none := (setWifiConfigLoop_none_iff _ _ _ _ _ _).mpr hmem
    have hu : upsert (newEntry n ssid1 password1 channel1 power1) l =
        l ++ [newEntry n ssid1 password1 channel1 power1] := by
      simp [upsert, newEntry, hnone, hlen]
    rw [hu]
    obtain ⟨k1, k2, k3⟩ := key (l ++ [newEntry n ssid1 password1 channel1 power1])
      (by rw [names_append]
          exact List.Nodup.append huniq (by simp [newEntry]) (by simpa [newEntry] using hmem))
      (by simp [newEntry])
    refine ⟨k1, ?_, ?_⟩
    · rw [k2]; simp [newEntry]
    · rw [k3, if_neg hmem]; simp [newEntry]

/-- Witness of C2: the name `main` set twice on the device with two networks. -/
theorem C2_witness :
    (setWifiConfig "main" "x2" "y2" 3 20 false true
        (setWifiConfig "main" "x1" "y1" 1 8 true false sampleTwo)).config.networks.filter
        (fun x => decide (x.name = "main")) = [⟨"main", "x2", "y2", 3, 20, false⟩] ∧
    (setWifiConfig "main" "x2" "y2" 3 20 false true
        (setWifiConfig "main" "x1" "y1" 1 8 true false sampleTwo)).config.networks.filter
        (fun x => !decide (x.name = "main")) =
      sampleTwo.config.networks.filter (fun x => !decide (x.name = "main")) ∧
    names (setWifiConfig "main" "x2" "y2" 3 20 false true
        (setWifiConfig "main" "x1" "y1" 1 8 true false sampleTwo)).config.networks =
      (if "main" ∈ names sampleTwo.config.networks then names sampleTwo.config.networks
       else names sampleTwo.config.networks ++ ["main"]) :=
  C2_setWifiConfig_twice_is_one_entry sampleTwo "main" "x1" "y1" "x2" "y2" 1 8 3 20
    true false false true (by decide) (by decide) (by decide) (Or.inl (by decide))

/-- C3: on a sequence of exactly three entries none of which is named `n`,
`setWifiConfig(n, ...)` returns and leaves the networks sequence as it was; called
without notification it changes nothing at all. -/
theorem C3_setWifiConfig_full_is_no_op (w : World) (n ssid password : String)
    (channel power : Nat) (adhoc shouldNotify : Bool)
    (hfull : w.config.networks.length = 3) (hnew : n ∉ names w.config.networks) :
    (setWifiConfig n ssid password channel power adhoc shouldNotify w).config.networks
        = w.config.networks ∧
      setWifiConfig n ssid password channel power adhoc false w = w := by
  have hnone := (setWifiConfigLoop_none_iff n ssid password (channel % 256) (power % 256)
    w.config.networks).mpr hnew
  constructor
  · rw [setWifiConfig_networks]
    simp [upsert, newEntry, hnone, hfull]
  · simp [setWifiConfig, hnone, hfull]

/-- Witness of C3: a fourth name on the device with three networks. -/
theorem C3_witness :
    sampleFull.config.networks.length = 3 ∧ "fourth" ∉ names sampleFull.config.networks ∧
      (setWifiConfig "fourth" "cafe" "pw" 1 8 false true sampleFull).config.networks
        = sampleFull.config.networks ∧
      setWifiConfig "fourth" "cafe" "pw" 1 8 false false sampleFull = sampleFull :=
  ⟨rfl, by decide,
    C3_setWifiConfig_full_is_no_op sampleFull "fourth" "cafe" "pw" 1 8 false true rfl (by decide)⟩

/-! ## The flash as a map: `save` and `load` -/

theorem lookup_filter_ne (k k' : String) (st : Nvs) (h : k' ≠ k) :
    List.lookup k' (st.filter (fun e => e.1 != k)) = List.lookup k' st := by
  induction st with
  | nil => rfl
  | cons e rest ih =>
    obtain ⟨a, v⟩ := e
    by_cases ha : a = k
    · subst ha
      have : (k' == a) = false := by simpa using h
      simp [List.filter, List.lookup, this, ih]
    · have hb : (a != k) = true := by simpa using ha
      simp only [List.filter, hb, List.lookup]
      rw [ih]

@[simp] theorem Nvs.get_put (k k' : String) (v : NvsValue) (st : Nvs) :
    Nvs.get k' (Nvs.put k v st) = if k' = k then some v else Nvs.get k' st := by
  unfold Nvs.get Nvs.put
  by_cases h : k' = k
  · subst h; simp [List.lookup]
  · have : (k' == k) = false := by simpa using h
    simp [List.lookup, this, h, lookup_filter_ne k k' st h]

@[simp] theorem emit_started (e : Event) (w : World) : (emit e w)._started = w._started := rfl
@[simp] theorem emit_nvs (e : Event) (w : World) : (emit e w).nvs = w.nvs := rfl
@[simp] theorem emit_already_loaded (e : Event) (w : World) :
    (emit e w)._already_loaded = w._already_loaded := rfl
@[simp] theorem emit_deviceModeManager (e : Event) (w : World) :
    (emit e w).deviceModeManager = w.deviceModeManager := rfl
@[simp] theorem emit_wifiState (e : Event) (w : World) : (emit e w).wifiState = w.wifiState := rfl
@[simp] theorem emit_trace (e : Event) (w : World) : (emit e w).trace = w.trace ++ [e] := rfl

@[simp] theorem loadNetworksLoop_started (r i : Nat) (k : NetKeys) (w : World) :
    (loadNetworksLoop r i k w)._started = w._started := by
  induction r generalizing i k w with
  | zero => rfl
  | succ r ih => simp [loadNetworksLoop, ih]

@[simp] theorem loadNetworksLoop_nvs (r i : Nat) (k : NetKeys) (w : World) :
    (loadNetworksLoop r i k w).nvs = w.nvs := by
  induction r generalizing i k w with
  | zero => rfl
  | succ r ih => simp [loadNetworksLoop, ih]

@[simp] theorem initConfig_started (b : BuildFlags) (w : World) :
    (initConfig b w)._started = true := by
  unfold initConfig Preferences.begin
  simp only
  split <;> split <;> rfl

@[simp] theorem initConfig_nvs (b : BuildFlags) (w : World) :
    (initConfig b w).nvs = w.nvs := by
  unfold initConfig Preferences.begin
  simp only
  split <;> split <;> rfl

/-- The mode and the flag that `load` leaves, in terms of the flash. -/
theorem load_deviceMode (b : BuildFlags) (w : World) (hfirst : w._already_loaded = false) :
    (load b w).config.deviceMode =
      (let flag := getBool HAS_WIFI_CREDS_KEY false { w with _started := true }
       let saved : DeviceMode := ⟨getInt MODE_KEY 3 { w with _started := true }⟩
       ⟨if saved = DeviceMode.AUTO_MODE then
          (if flag then DeviceMode.WIFI_MODE else DeviceMode.AP_MODE) else saved, flag⟩) := by
  unfold load
  simp only [hfirst, Bool.false_eq_true, if_false, notifyAll, emit_config]
  simp only [getBool, getInt, determineMode, loadNetworksLoop_started, loadNetworksLoop_nvs,
    initConfig_started, initConfig_nvs, if_true, DeviceMode.AUTO_MODE]
  split <;> simp_all

@[simp] theorem put_started (key : String) (v : NvsValue) (w : World) :
    (Preferences.put key v w)._started = w._started := by
  unfold Preferences.put; split <;> simp_all

theorem put_nvs_of_started (key : String) (v : NvsValue) (w : World) (h : w._started = true) :
    (Preferences.put key v w).nvs = Nvs.put key v w.nvs := by
  unfold Preferences.put; simp [h]

@[simp] theorem keysAt_zero :
    keysAt 0 = ⟨"name0", "ssid0", "pass0", "channel0", "txpower0"⟩ := by decide

@[simp] theorem keysAt_one :
    keysAt 1 = ⟨"name01", "ssid01", "pass01", "channel01", "txpower01"⟩ := by decide

@[simp] theorem keysAt_two :
    keysAt 2 = ⟨"name012", "ssid012", "pass012", "channel012", "txpower012"⟩ := by decide

@[simp] theorem keys_round_zero :
    NetKeys.init.append (itoa 0) = ⟨"name0", "ssid0", "pass0", "channel0", "txpower0"⟩ := by
  decide

@[simp] theorem keys_round_one :
    NetKeys.append ⟨"name0", "ssid0", "pass0", "channel0", "txpower0"⟩ (itoa 1) =
      ⟨"name01", "ssid01", "pass01", "channel01", "txpower01"⟩ := by decide

@[simp] theorem keys_round_two :
    NetKeys.append ⟨"name01", "ssid01", "pass01", "channel01", "txpower01"⟩ (itoa 2) =
      ⟨"name012", "ssid012", "pass012", "channel012", "txpower012"⟩ := by decide

@[simp] theorem c_str_name0 : c_str "name0" = "name0" := by decide
@[simp] theorem c_str_ssid0 : c_str "ssid0" = "ssid0" := by decide
@[simp] theorem c_str_pass0 : c_str "pass0" = "pass0" := by decide
@[simp] theorem c_str_channel0 : c_str "channel0" = "channel0" := by decide
@[simp] theorem c_str_txpower0 : c_str "txpower0" = "txpower0" := by decide
@[simp] theorem c_str_name01 : c_str "name01" = "name01" := by decide
@[simp] theorem c_str_ssid01 : c_str "ssid01" = "ssid01" := by decide
@[simp] theorem c_str_pass01 : c_str "pass01" = "pass01" := by decide
@[simp] theorem c_str_channel01 : c_str "channel01" = "channel01" := by decide
@[simp] theorem c_str_txpower01 : c_str "txpower01" = "txpower01" := by decide
@[simp] theorem c_str_name012 : c_str "name012" = "name012" := by decide
@[simp] theorem c_str_ssid012 : c_str "ssid012" = "ssid012" := by decide
@[simp] theorem c_str_pass012 : c_str "pass012" = "pass012" := by decide
@[simp] theorem c_str_channel012 : c_str "channel012" = "channel012" := by decide
@[simp] theorem c_str_txpower012 : c_str "txpower012" = "txpower012" := by decide

theorem c_str_of_isCString {s : String} (h : IsCString s) : c_str s = s := by
  unfold c_str
  have : s.data.takeWhile (fun c => c != Char.ofNat 0) = s.data :=
    List.takeWhile_eq_self_iff.mpr h
  rw [this]

theorem save_holds (w : World) (h : w._started = true) (hsize : w.config.networks.length ≤ 3) :
    Holds (save w).nvs w.config := by
  unfold Holds
  match hl : w.config.networks, hsize with
  | [], _ =>
    simp [save, deviceConfigSave, mdnsConfigSave, cameraConfigSave, wifiConfigSave,
      wifiTxPowerConfigSave, deviceModeConfigSave, Preferences.end_, putString, putInt, putUInt,
      putBool, put_nvs_of_started, h, hl, wifiConfigSaveLoop, HoldsNetworks, HoldsNetwork,
      MODE_KEY, HAS_WIFI_CREDS_KEY]
  | [a], _ =>
    simp [save, deviceConfigSave, mdnsConfigSave, cameraConfigSave, wifiConfigSave,
      wifiTxPowerConfigSave, deviceModeConfigSave, Preferences.end_, putString, putInt, putUInt,
      putBool, put_nvs_of_started, h, hl, wifiConfigSaveLoop, HoldsNetworks, HoldsNetwork,
      MODE_KEY, HAS_WIFI_CREDS_KEY]
  | [a, b], _ =>
    simp [save, deviceConfigSave, mdnsConfigSave, cameraConfigSave, wifiConfigSave,
      wifiTxPowerConfigSave, deviceModeConfigSave, Preferences.end_, putString, putInt, putUInt,
      putBool, put_nvs_of_started, h, hl, wifiConfigSaveLoop, HoldsNetworks, HoldsNetwork,
      MODE_KEY, HAS_WIFI_CREDS_KEY]
  | [a, b, c], _ =>
    simp [save, deviceConfigSave, mdnsConfigSave, cameraConfigSave, wifiConfigSave,
      wifiTxPowerConfigSave, deviceModeConfigSave, Preferences.end_, putString, putInt, putUInt,
      putBool, put_nvs_of_started, h, hl, wifiConfigSaveLoop, HoldsNetworks, HoldsNetwork,
      MODE_KEY, HAS_WIFI_CREDS_KEY]
  | _ :: _ :: _ :: _ :: _, hsize => simp at hsize

theorem u8_natCast {n : Nat} (h : n < 256) : u8 (n : Int) = n := by
  unfold u8; omega

@[simp] theorem initConfig_networks (b : BuildFlags) (w : World) :
    (initConfig b w).config.networks = w.config.networks := by
  unfold initConfig Preferences.begin
  simp only
  split <;> split <;> rfl

@[simp] theorem initConfig_ap_adhoc (b : BuildFlags) (w : World) :
    (initConfig b w).config.ap_network.adhoc = false := by
  unfold initConfig Preferences.begin
  simp

@[simp] theorem DeviceMode.mk_val (m : DeviceMode) : (⟨m.val⟩ : DeviceMode) = m := rfl

/-- The loop of `load` changes nothing but the networks sequence. -/
theorem loadNetworksLoop_frame (r i : Nat) (k : NetKeys) (w : World) :
    loadNetworksLoop r i k w =
      { w with config := { w.config with
        networks := (loadNetworksLoop r i k w).config.networks } } := by
  induction r generalizing i k w with
  | zero => rfl
  | succ r ih =>
    simp only [loadNetworksLoop]
    rw [ih]

theorem keysBefore_append (i : Nat) : (keysBefore i).append (itoa i) = keysAt i := by
  cases i <;> rfl

/-- The loop of `load` reads back the networks that the flash holds. -/
theorem loadNetworksLoop_networks (l : List WiFiConfig_t) (i : Nat) (w : World)
    (hopen : w._started = true) (hholds : HoldsNetworks w.nvs i l)
    (htyped : ∀ n ∈ l, n.WellTyped) :
    (loadNetworksLoop l.length i (keysBefore i) w).config.networks =
      w.config.networks ++ l.map (fun n => { n with adhoc := false }) := by
  induction l generalizing i w with
  | nil => simp [loadNetworksLoop]
  | cons n rest ih =>
    obtain ⟨⟨a1, a2, a3, a4, a5⟩, hrest⟩ := hholds
    obtain ⟨x1, x2, x3, x4, x5⟩ := htyped n (by simp)
    simp only [List.length_cons, loadNetworksLoop, keysBefore_append]
    have hk : keysAt i = keysBefore (i + 1) := rfl
    rw [hk, ih (i + 1) _ (by simpa using hopen) (by simpa using hrest)
      (fun m hm => htyped m (by simp [hm]))]
    simp [getString, getUInt, hopen, ← hk, a1, a2, a3, a4, a5, c_str_of_isCString, x1, x2,
      x3, Nat.mod_eq_of_lt, x4, x5]

/-- The function `load` is its three phases in sequence, after `initConfig`. -/
theorem load_eq_phases (b : BuildFlags) (w : World) :
    load b w =
      if w._already_loaded then w
      else
        loadTail b (loadNetworksLoop
          (getInt "networkCount" 0 (loadHead (initConfig b w))).toNat 0 NetKeys.init
          (loadHead (initConfig b w))) := rfl

@[simp] theorem loadHead_started (w : World) : (loadHead w)._started = w._started := rfl
@[simp] theorem loadHead_nvs (w : World) : (loadHead w).nvs = w.nvs := rfl
@[simp] theorem loadHead_networks (w : World) :
    (loadHead w).config.networks = w.config.networks := rfl
@[simp] theorem loadHead_ap_adhoc (w : World) :
    (loadHead w).config.ap_network.adhoc = w.config.ap_network.adhoc := rfl

theorem load_of_holds (b : BuildFlags) (w : World) (c : TrackerConfig_t)
    (hfirst : w._already_loaded = false) (hempty : w.config.networks = [])
    (hholds : Holds w.nvs c) (htyped : c.WellTyped) :
    (load b w).config = reloaded c := by
  obtain ⟨h1, h2, h3, h4, h5, h6, h7, h8, h9, h10, h11, h12, h13, h14, h15, h16, h17, h18⟩ :=
    hholds
  obtain ⟨t1, t2, t3, t4, t5, t6, t7, t8, t9, t10, t11, t12, t13, t14⟩ := htyped
  simp only [HAS_WIFI_CREDS_KEY, MODE_KEY] at h17 h18
  rw [load_eq_phases]
  simp only [hfirst, Bool.false_eq_true, if_false]
  have hcount : (getInt "networkCount" 0 (loadHead (initConfig b w))).toNat
      = c.networks.length := by
    simp [getInt, h11]
  have hk : NetKeys.init = keysBefore 0 := rfl
  have hnets := loadNetworksLoop_networks c.networks 0 (loadHead (initConfig b w)) (by simp)
    (by simpa using h12) t8
  rw [hcount, hk, loadNetworksLoop_frame, hnets]
  simp [loadTail, loadHead, notifyAll, getString, getInt, getUInt, getBool, determineMode,
    reloaded, h1, h2, h3, h4, h5, h6, h7, h8, h9, h10, h13, h14, h15, h16, h17, h18,
    hempty, HAS_WIFI_CREDS_KEY, MODE_KEY,
    c_str_of_isCString, t1, t2, t9, t10, t12, t13,
    u8_natCast, t3, t4, t5, t6, t7, Nat.mod_eq_of_lt, t11]
  split <;> simp_all

/-- C4 (as amended): on a store whose flash handle is open and whose configuration `c`
has at most three networks and well-typed members, `save()` followed by `load()` on a
new store over the same flash gives back `c.device`, `c.camera`, `c.mdns`, the networks
in order with their name, ssid, password, channel and power (the adhoc flag is
loaded as false, so the sequence is given back whole when its flags are false, as
`setWifiConfig` and `load` leave them), the access point ssid, password and channel (its adhoc flag is
loaded as false), the credentials flag, and the mode, where a saved AUTO is loaded as
WIFI when the flag is set and as AP otherwise.  The transmit power is left out. -/
theorem C4_save_then_load_round_trip (b : BuildFlags) (mdnsName : String) (w : World)
    (hopen : w._started = true) (hsize : w.config.networks.length ≤ 3)
    (htyped : w.config.WellTyped) :
    (saveAndReload b mdnsName w).config.device = w.config.device ∧
    (saveAndReload b mdnsName w).config.camera = w.config.camera ∧
    (saveAndReload b mdnsName w).config.networks =
      w.config.networks.map (fun n => { n with adhoc := false }) ∧
    ((∀ n ∈ w.config.networks, n.adhoc = false) →
      (saveAndReload b mdnsName w).config.networks = w.config.networks) ∧
    (saveAndReload b mdnsName w).config.ap_network =
      { w.config.ap_network with adhoc := false } ∧
    (saveAndReload b mdnsName w).config.mdns = w.config.mdns ∧
    (saveAndReload b mdnsName w).config.deviceMode.hasWiFiCredentials =
      w.config.deviceMode.hasWiFiCredentials ∧
    (saveAndReload b mdnsName w).config.deviceMode.mode =
      (if w.config.deviceMode.mode = DeviceMode.AUTO_MODE then
        (if w.config.deviceMode.hasWiFiCredentials then DeviceMode.WIFI_MODE
         else DeviceMode.AP_MODE)
       else w.config.deviceMode.mode) := by
  have h := load_of_holds b (ProjectConfig_new w._name mdnsName (save w).nvs) w.config rfl rfl
    (save_holds w hopen hsize) htyped
  have hmap : (∀ n ∈ w.config.networks, n.adhoc = false) →
      w.config.networks.map (fun n => { n with adhoc := false }) = w.config.networks := by
    intro hflags
    conv_rhs => rw [← List.map_id w.config.networks]
    apply List.map_congr_left
    intro n hn
    have := hflags n hn
    cases n
    simp_all
  unfold saveAndReload
  rw [h]
  refine ⟨rfl, rfl, rfl, ?_, rfl, rfl, rfl, rfl⟩
  intro hflags
  exact hmap hflags

/-- Witness of C4: the sample device. -/
theorem C4_witness :
    (saveAndReload sampleFlags "openiristracker" sampleAP).config.device = sampleAP.config.device ∧
    (saveAndReload sampleFlags "openiristracker" sampleAP).config.camera = sampleAP.config.camera ∧
    (saveAndReload sampleFlags "openiristracker" sampleAP).config.networks =
      sampleAP.config.networks.map (fun n => { n with adhoc := false }) ∧
    ((∀ n ∈ sampleAP.config.networks, n.adhoc = false) →
      (saveAndReload sampleFlags "openiristracker" sampleAP).config.networks =
        sampleAP.config.networks) ∧
    (saveAndReload sampleFlags "openiristracker" sampleAP).config.ap_network =
      { sampleAP.config.ap_network with adhoc := false } ∧
    (saveAndReload sampleFlags "openiristracker" sampleAP).config.mdns = sampleAP.config.mdns ∧
    (saveAndReload sampleFlags "openiristracker" sampleAP).config.deviceMode.hasWiFiCredentials =
      sampleAP.config.deviceMode.hasWiFiCredentials ∧
    (saveAndReload sampleFlags "openiristracker" sampleAP).config.deviceMode.mode =
      (if sampleAP.config.deviceMode.mode = DeviceMode.AUTO_MODE then
        (if sampleAP.config.deviceMode.hasWiFiCredentials then DeviceMode.WIFI_MODE
         else DeviceMode.AP_MODE)
       else sampleAP.config.deviceMode.mode) :=
  C4_save_then_load_round_trip sampleFlags "openiristracker" sampleAP (by decide) (by decide)
    (by decide)

/-- Counterexample to C4 as stated: the sample device is valid (one network), its access
point has the adhoc flag set and its transmit power is 20; after `save()` and
`load()` on a new store the adhoc flag is false and the transmit power is 52. -/
theorem C4_counterexample :
    sampleAP._started = true ∧
    sampleAP.config.networks.length ≤ 3 ∧ (names sampleAP.config.networks).Nodup ∧
    sampleAP.config.ap_network.adhoc = true ∧
    (saveAndReload sampleFlags "openiristracker" sampleAP).config.ap_network.adhoc = false ∧
    sampleAP.config.txpower.power = 20 ∧
    (saveAndReload sampleFlags "openiristracker" sampleAP).config.txpower.power = 52 := by
  decide

/-- C5: on the first `load()`, when the mode entry of the flash is AUTO or absent, the
mode is WIFI if the stored credentials flag is true, and AP if it is false or
absent. -/
theorem C5_load_resolves_auto_mode (b : BuildFlags) (w : World)
    (hfirst : w._already_loaded = false)
    (hmode : Nvs.get MODE_KEY w.nvs = none ∨
      Nvs.get MODE_KEY w.nvs = some (.i32 DeviceMode.AUTO_MODE.val)) :
    (Nvs.get HAS_WIFI_CREDS_KEY w.nvs = some (.flag true) →
      (load b w).config.deviceMode.mode = DeviceMode.WIFI_MODE) ∧
    (Nvs.get HAS_WIFI_CREDS_KEY w.nvs = some (.flag false) ∨
        Nvs.get HAS_WIFI_CREDS_KEY w.nvs = none →
      (load b w).config.deviceMode.mode = DeviceMode.AP_MODE) := by
  rw [load_deviceMode b w hfirst]
  simp only [getBool, getInt, if_true]
  constructor
  · intro hflag
    rcases hmode with hm | hm <;> simp [hm, hflag, DeviceMode.AUTO_MODE]
  · intro hflag
    rcases hmode with hm | hm <;> rcases hflag with hf | hf <;>
      simp [hm, hf, DeviceMode.AUTO_MODE]

/-- Witness of C5: a flash with mode AUTO and the flag set, and an empty flash. -/
theorem C5_witness :
    (load sampleFlags (ProjectConfig_new "openiris" "openiristracker" sampleFlashAuto)
        ).config.deviceMode.mode = DeviceMode.WIFI_MODE ∧
    (load sampleFlags (ProjectConfig_new "openiris" "openiristracker" [])
        ).config.deviceMode.mode = DeviceMode.AP_MODE :=
  ⟨(C5_load_resolves_auto_mode sampleFlags
      (ProjectConfig_new "openiris" "openiristracker" sampleFlashAuto) rfl (Or.inr rfl)).1 rfl,
   (C5_load_resolves_auto_mode sampleFlags
      (ProjectConfig_new "openiris" "openiristracker" []) rfl (Or.inl rfl)).2 (Or.inr rfl)⟩

/-! ## Frame lemmas for the saves -/

@[simp] theorem restarts_append (t₁ t₂ : List Event) :
    restarts (t₁ ++ t₂) = restarts t₁ ++ restarts t₂ := by simp [restarts]

@[simp] theorem restarts_nil : restarts [] = [] := rfl

@[simp] theorem restarts_cons (e : Event) (t : List Event) :
    restarts (e :: t) = (match e with
      | .scheduleRestart ms => ms :: restarts t
      | _ => restarts t) := by
  cases e <;> rfl

@[simp] theorem restarts_emit (e : Event) (w : World) :
    restarts (emit e w).trace = restarts w.trace ++ restarts [e] := by
  simp only [emit_trace, restarts_append]

@[simp] theorem put_deviceModeManager (key : String) (v : NvsValue) (w : World) :
    (Preferences.put key v w).deviceModeManager = w.deviceModeManager := by
  unfold Preferences.put; split <;> rfl

@[simp] theorem put_wifiState (key : String) (v : NvsValue) (w : World) :
    (Preferences.put key v w).wifiState = w.wifiState := by
  unfold Preferences.put; split <;> rfl

@[simp] theorem put_restarts (key : String) (v : NvsValue) (w : World) :
    restarts (Preferences.put key v w).trace = restarts w.trace := by
  unfold Preferences.put; split <;> simp [restarts]

@[simp] theorem wifiConfigSaveLoop_started (i : Nat) (k : NetKeys) (l : List WiFiConfig_t)
    (w : World) : (wifiConfigSaveLoop i k l w)._started = w._started := by
  induction l generalizing i k w with
  | nil => rfl
  | cons n rest ih => simp [wifiConfigSaveLoop, ih, putString, putUInt]

@[simp] theorem wifiConfigSaveLoop_deviceModeManager (i : Nat) (k : NetKeys)
    (l : List WiFiConfig_t) (w : World) :
    (wifiConfigSaveLoop i k l w).deviceModeManager = w.deviceModeManager := by
  induction l generalizing i k w with
  | nil => rfl
  | cons n rest ih => simp [wifiConfigSaveLoop, ih, putString, putUInt]

@[simp] theorem wifiConfigSaveLoop_restarts (i : Nat) (k : NetKeys) (l : List WiFiConfig_t)
    (w : World) : restarts (wifiConfigSaveLoop i k l w).trace = restarts w.trace := by
  induction l generalizing i k w with
  | nil => rfl
  | cons n rest ih => simp [wifiConfigSaveLoop, ih, putString, putUInt]

@[simp] theorem wifiConfigSave_started (w : World) :
    (wifiConfigSave w)._started = w._started := by
  simp [wifiConfigSave, putString, putUInt, putInt]

@[simp] theorem wifiConfigSave_deviceModeManager (w : World) :
    (wifiConfigSave w).deviceModeManager = w.deviceModeManager := by
  simp [wifiConfigSave, putString, putUInt, putInt]

@[simp] theorem wifiConfigSave_restarts (w : World) :
    restarts (wifiConfigSave w).trace = restarts w.trace := by
  simp [wifiConfigSave, putString, putUInt, putInt]

@[simp] theorem save_config (w : World) : (save w).config = w.config := by
  simp only [save, Preferences.end_]
  split <;>
    simp [deviceConfigSave, mdnsConfigSave, cameraConfigSave, wifiTxPowerConfigSave,
      deviceModeConfigSave, putString, putInt, putBool]

@[simp] theorem save_deviceModeManager (w : World) :
    (save w).deviceModeManager = w.deviceModeManager := by
  simp only [save, Preferences.end_]
  split <;>
    simp [deviceConfigSave, mdnsConfigSave, cameraConfigSave, wifiTxPowerConfigSave,
      deviceModeConfigSave, putString, putInt, putBool]

@[simp] theorem save_restarts (w : World) : restarts (save w).trace = restarts w.trace := by
  simp only [save, Preferences.end_]
  split
  · simp [deviceConfigSave, mdnsConfigSave, cameraConfigSave, wifiTxPowerConfigSave,
      deviceModeConfigSave, putString, putInt, putBool]
  · simp [deviceConfigSave, mdnsConfigSave, cameraConfigSave, wifiTxPowerConfigSave,
      deviceModeConfigSave, putString, putInt, putBool]

@[simp] theorem notifications_nil : notifications [] = [] := rfl

@[simp] theorem notifications_cons (e : Event) (t : List Event) :
    notifications (e :: t) = (match e with
      | .notify k => k :: notifications t
      | _ => notifications t) := by
  cases e <;> rfl

@[simp] theorem notifications_append (t₁ t₂ : List Event) :
    notifications (t₁ ++ t₂) = notifications t₁ ++ notifications t₂ := by
  simp [notifications]

@[simp] theorem notifications_emit (e : Event) (w : World) :
    notifications (emit e w).trace = notifications w.trace ++ notifications [e] := by
  simp only [emit_trace, notifications_append]

@[simp] theorem put_notifications (key : String) (v : NvsValue) (w : World) :
    notifications (Preferences.put key v w).trace = notifications w.trace := by
  unfold Preferences.put; split <;> simp

@[simp] theorem wifiConfigSaveLoop_notifications (i : Nat) (k : NetKeys)
    (l : List WiFiConfig_t) (w : World) :
    notifications (wifiConfigSaveLoop i k l w).trace = notifications w.trace := by
  induction l generalizing i k w with
  | nil => rfl
  | cons n rest ih => simp [wifiConfigSaveLoop, ih, putString, putUInt]

@[simp] theorem wifiConfigSave_notifications (w : World) :
    notifications (wifiConfigSave w).trace = notifications w.trace := by
  simp [wifiConfigSave, putString, putUInt, putInt]

@[simp] theorem save_notifications (w : World) :
    notifications (save w).trace = notifications w.trace := by
  simp only [save, Preferences.end_]
  split <;>
    simp [deviceConfigSave, mdnsConfigSave, cameraConfigSave, wifiTxPowerConfigSave,
      deviceModeConfigSave, putString, putInt, putBool]

/-! ## Frame lemmas for `setWifiConfig` and `deleteWifiConfig` -/

@[simp] theorem setWifiConfig_deviceModeManager (n s p : String) (c pw : Nat) (a sn : Bool)
    (w : World) :
    (setWifiConfig n s p c pw a sn w).deviceModeManager = w.deviceModeManager := by
  unfold setWifiConfig
  simp only
  split <;> cases sn <;>
    simp [notifyAll, wifiStateManager_setState, Serial_println] <;>
    (try split_ifs) <;> (try simp)

@[simp] theorem setWifiConfig_started (n s p : String) (c pw : Nat) (a sn : Bool)
    (w : World) :
    (setWifiConfig n s p c pw a sn w)._started = w._started := by
  unfold setWifiConfig
  simp only
  split <;> cases sn <;>
    simp [notifyAll, wifiStateManager_setState, Serial_println] <;>
    (try split_ifs) <;> (try simp)

@[simp] theorem setWifiConfig_restarts (n s p : String) (c pw : Nat) (a sn : Bool)
    (w : World) :
    restarts (setWifiConfig n s p c pw a sn w).trace = restarts w.trace := by
  unfold setWifiConfig
  simp only
  split <;> cases sn <;>
    simp [notifyAll, wifiStateManager_setState, Serial_println] <;>
    (try split_ifs) <;> (try simp)

/-! ## The dispatcher -/

theorem getCommandType_of_map (commandMap : CommandMap) (command : Json) (cmdName : String)
    (t : CommandType) (hcmd : command.get "command" = .str cmdName)
    (hmap : commandMap cmdName = some t) : getCommandType commandMap command = t := by
  simp [getCommandType, hcmd, Json.isString, Json.asString, hmap]

theorem mem_setWifiConfigLoop (n s p : String) (c pw : Nat) (l l' : List WiFiConfig_t)
    (h : setWifiConfigLoop n s p c pw l = some l') : ⟨n, s, p, c, pw, false⟩ ∈ l' := by
  induction l generalizing l' with
  | nil => simp [setWifiConfigLoop] at h
  | cons it rest ih =>
    unfold setWifiConfigLoop at h
    by_cases hn : it.name = n
    · simp only [hn, if_true, Option.some.injEq] at h
      subst h; simp
    · simp only [hn, if_false, Option.map_eq_some'] at h
      obtain ⟨l0, hl0, rfl⟩ := h
      exact List.mem_cons_of_mem _ (ih l0 hl0)

theorem mem_upsert (n s p : String) (c pw : Nat) (l : List WiFiConfig_t)
    (hroom : l.length < 3 ∨ n ∈ names l) :
    newEntry n s p c pw ∈ upsert (newEntry n s p c pw) l := by
  unfold upsert
  cases hl : setWifiConfigLoop (newEntry n s p c pw).name (newEntry n s p c pw).ssid
      (newEntry n s p c pw).password (newEntry n s p c pw).channel
      (newEntry n s p c pw).power l with
  | some l' => exact mem_setWifiConfigLoop _ _ _ _ _ _ _ hl
  | none =>
    have hn : n ∉ names l := (setWifiConfigLoop_none_iff _ _ _ _ _ _).mp hl
    have hlen : l.length < 3 := by
      rcases hroom with h | h
      · exact h
      · exact absurd h hn
    simp [hlen]

/-! ### The flag write of the Mode Manager -/

@[simp] theorem DeviceModeManager.setHasWiFiCredentials_fst (b : Bool) (m : DeviceModeManager)
    (w : World) : (m.setHasWiFiCredentials b w).1 = ⟨m.currentMode, b⟩ := rfl

@[simp] theorem DeviceModeManager.setHasWiFiCredentials_config (b : Bool)
    (m : DeviceModeManager) (w : World) : (m.setHasWiFiCredentials b w).2.config = w.config :=
  rfl

@[simp] theorem DeviceModeManager.setHasWiFiCredentials_started (b : Bool)
    (m : DeviceModeManager) (w : World) :
    (m.setHasWiFiCredentials b w).2._started = w._started := rfl

@[simp] theorem DeviceModeManager.setHasWiFiCredentials_nvs (b : Bool) (m : DeviceModeManager)
    (w : World) :
    (m.setHasWiFiCredentials b w).2.nvs = Nvs.put HAS_WIFI_CREDS_KEY (.flag b) w.nvs := rfl

@[simp] theorem DeviceModeManager.setHasWiFiCredentials_trace (b : Bool)
    (m : DeviceModeManager) (w : World) :
    (m.setHasWiFiCredentials b w).2.trace =
      w.trace ++ [.nvsWrite HAS_WIFI_CREDS_KEY (.flag b)] := rfl

/-- What `handleCommand` does with a well-formed `SET_WIFI` command. -/
theorem handleCommand_set_wifi (commandMap : CommandMap) (command : Json) (cmdName x y : String)
    (w : World) (hcmd : command.get "command" = .str cmdName)
    (hmap : commandMap cmdName = some .SET_WIFI)
    (hobj : (command.get "data").isObject = true)
    (hssid : (command.get "data").get "ssid" = .str x)
    (hpass : (command.get "data").get "password" = .str y) :
    handleCommand commandMap command w =
      (match w.deviceModeManager with
       | some m =>
         ScheduleRestart 2000
           { (m.setHasWiFiCredentials true
               (setWifiConfig (networkNameOf (command.get "data")) x y 0 0 false false w)).2 with
             deviceModeManager := some ⟨DeviceMode.WIFI_MODE, true⟩ }
       | none => setWifiConfig (networkNameOf (command.get "data")) x y 0 0 false false w) := by
  have hname : (if ((command.get "data").get "network_name").isString then
      ((command.get "data").get "network_name").asString else "main")
      = networkNameOf (command.get "data") := by
    unfold networkNameOf
    cases (command.get "data").get "network_name" <;> simp [Json.isString, Json.asString]
  unfold handleCommand
  simp only [getCommandType_of_map commandMap command cmdName _ hcmd hmap, hasDataField, hobj,
    hssid, hpass, hname, setWifiConfig_deviceModeManager]
  cases hm : w.deviceModeManager with
  | none => simp [Json.isString, Json.asString]
  | some m =>
    simp [Json.isString, Json.asString, DeviceModeManager.setMode]

theorem handleCommandsLoop_eq_foldl (commandMap : CommandMap) (cmds : List Json) (w : World) :
    handleCommandsLoop commandMap cmds w =
      cmds.foldl (fun w c => handleCommand commandMap c w) w := by
  induction cmds generalizing w with
  | nil => rfl
  | cons c rest ih => simp [handleCommandsLoop, ih]

/-- What `handleCommands` does with a payload whose `commands` member is an array. -/
theorem handleCommands_array (commandMap : CommandMap) (payload : CommandsPayload)
    (cmds : List Json) (w : World) (hcmds : payload.data.get "commands" = .arr cmds) :
    handleCommands commandMap payload w =
      save (cmds.foldl (fun w c => handleCommand commandMap c w) w) := by
  simp [handleCommands, hcmds, Json.isArray, Json.asArray, handleCommandsLoop_eq_foldl]

/-- C6: a batch of one well-formed `SET_WIFI` command (ssid `x`, password `y`), on a
device whose Mode Manager exists and whose networks sequence has room or already holds
the name, leaves a network of that name (`main` unless `data.network_name` is a string)
with ssid `x`, password `y`, channel 0 and power 0; the Mode Manager has the credentials
flag set and the mode WIFI; exactly one restart, of 2000 ms, was scheduled. -/
theorem C6_set_wifi_batch (commandMap : CommandMap) (payload : CommandsPayload)
    (command : Json) (cmdName x y : String) (w : World) (m : DeviceModeManager)
    (hbatch : payload.data.get "commands" = .arr [command])
    (hcmd : command.get "command" = .str cmdName)
    (hmap : commandMap cmdName = some .SET_WIFI)
    (hobj : (command.get "data").isObject = true)
    (hssid : (command.get "data").get "ssid" = .str x)
    (hpass : (command.get "data").get "password" = .str y)
    (hmgr : w.deviceModeManager = some m)
    (hroom : w.config.networks.length < 3 ∨
      networkNameOf (command.get "data") ∈ names w.config.networks) :
    (⟨networkNameOf (command.get "data"), x, y, 0, 0, false⟩ : WiFiConfig_t) ∈
        (handleCommands commandMap payload w).config.networks ∧
      (handleCommands commandMap payload w).deviceModeManager =
        some ⟨DeviceMode.WIFI_MODE, true⟩ ∧
      restarts (handleCommands commandMap payload w).trace = restarts w.trace ++ [2000] := by
  rw [handleCommands_array commandMap payload [command] w hbatch]
  simp only [List.foldl_cons, List.foldl_nil, save_config, save_deviceModeManager,
    save_restarts]
  rw [handleCommand_set_wifi commandMap command cmdName x y w hcmd hmap hobj hssid hpass, hmgr]
  refine ⟨?_, ?_, ?_⟩
  · simp only [ScheduleRestart, emit_config, setWifiConfig_networks,
      DeviceModeManager.setHasWiFiCredentials_config]
    exact mem_upsert _ x y 0 0 _ hroom
  · simp [ScheduleRestart]
  · simp [ScheduleRestart]

/-- Witness of C6: the batch of the spec on the device with two networks. -/
theorem C6_witness :
    (⟨"main", "x", "y", 0, 0, false⟩ : WiFiConfig_t) ∈
        (handleCommands specCommandMap (sampleSetWifiBatch "x" "y") sampleTwo).config.networks ∧
      (handleCommands specCommandMap (sampleSetWifiBatch "x" "y") sampleTwo).deviceModeManager =
        some ⟨DeviceMode.WIFI_MODE, true⟩ ∧
      restarts (handleCommands specCommandMap (sampleSetWifiBatch "x" "y") sampleTwo).trace =
        restarts sampleTwo.trace ++ [2000] :=
  C6_set_wifi_batch specCommandMap (sampleSetWifiBatch "x" "y")
    (.obj [("command", .str "SET_WIFI"), ("data", .obj [("ssid", .str "x"), ("password", .str "y")])])
    "SET_WIFI" "x" "y" sampleTwo ⟨DeviceMode.AP_MODE, false⟩ rfl rfl rfl rfl rfl rfl rfl
    (Or.inl (by decide))

/-! ### `WIPE_WIFI_CREDS` -/

theorem deleteWifiConfigLoop_eq_filter (n : String) (l : List WiFiConfig_t) :
    deleteWifiConfigLoop n l = l.filter (fun x => !decide (x.name = n)) := by
  induction l with
  | nil => rfl
  | cons it rest ih =>
    unfold deleteWifiConfigLoop
    by_cases h : it.name = n <;> simp [h, ih]

theorem deleteWifiConfig_quiet (n : String) (w : World) :
    (deleteWifiConfig n false w).config.networks = deleteWifiConfigLoop n w.config.networks ∧
    (deleteWifiConfig n false w).deviceModeManager = w.deviceModeManager ∧
    restarts (deleteWifiConfig n false w).trace = restarts w.trace := by
  unfold deleteWifiConfig
  simp only [Bool.false_eq_true, if_false]
  split <;> simp [Serial_println]

/-- The loop of `WIPE_WIFI_CREDS` over the copy `l` of the networks. -/
theorem wipe_loop (l : List WiFiConfig_t) (w : World) :
    (l.foldl (fun w network => deleteWifiConfig network.name false w) w).config.networks =
        w.config.networks.filter (fun x => decide (x.name ∉ names l)) ∧
    (l.foldl (fun w network => deleteWifiConfig network.name false w) w).deviceModeManager =
        w.deviceModeManager ∧
    restarts (l.foldl (fun w network => deleteWifiConfig network.name false w) w).trace =
        restarts w.trace := by
  induction l generalizing w with
  | nil => simp
  | cons a rest ih =>
    obtain ⟨h1, h2, h3⟩ := deleteWifiConfig_quiet a.name w
    obtain ⟨g1, g2, g3⟩ := ih (deleteWifiConfig a.name false w)
    simp only [List.foldl_cons]
    refine ⟨?_, by rw [g2, h2], by rw [g3, h3]⟩
    rw [g1, h1, deleteWifiConfigLoop_eq_filter, List.filter_filter]
    congr 1
    funext x
    by_cases hx : x.name = a.name <;> simp [hx, eq_comm]

/-- C7: with the Mode Manager in place, a `WIPE_WIFI_CREDS` command, whatever the stored
networks (duplicate names included), leaves the networks sequence empty, the
credentials flag of the Mode Manager false and its mode USB, and schedules exactly one
restart. -/
theorem C7_wipe_wifi_creds (commandMap : CommandMap) (command : Json) (cmdName : String)
    (w : World) (m : DeviceModeManager)
    (hcmd : command.get "command" = .str cmdName)
    (hmap : commandMap cmdName = some .WIPE_WIFI_CREDS)
    (hmgr : w.deviceModeManager = some m) :
    (handleCommand commandMap command w).config.networks = [] ∧
      (handleCommand commandMap command w).deviceModeManager =
        some ⟨DeviceMode.USB_MODE, false⟩ ∧
      restarts (handleCommand commandMap command w).trace = restarts w.trace ++ [2000] := by
  obtain ⟨h1, h2, h3⟩ := wipe_loop w.config.networks w
  have hempty : w.config.networks.filter (fun x => decide (x.name ∉ names w.config.networks))
      = [] := by
    simp only [List.filter_eq_nil_iff, decide_eq_true_eq, not_not]
    intro x hx
    exact mem_names.mpr ⟨x, hx, rfl⟩
  unfold handleCommand
  simp only [getCommandType_of_map commandMap command cmdName _ hcmd hmap, h2, hmgr]
  refine ⟨?_, ?_, ?_⟩
  · simp only [ScheduleRestart, emit_config, DeviceModeManager.setHasWiFiCredentials_config]
    exact h1.trans hempty
  · simp [ScheduleRestart, DeviceModeManager.setMode]
  · simp [ScheduleRestart, h3]

/-- Witness of C7: the device with three networks. -/
theorem C7_witness :
    (handleCommand specCommandMap (.obj [("command", .str "WIPE_WIFI_CREDS")])
        sampleFull).config.networks = [] ∧
      (handleCommand specCommandMap (.obj [("command", .str "WIPE_WIFI_CREDS")])
        sampleFull).deviceModeManager = some ⟨DeviceMode.USB_MODE, false⟩ ∧
      restarts (handleCommand specCommandMap (.obj [("command", .str "WIPE_WIFI_CREDS")])
        sampleFull).trace = restarts sampleFull.trace ++ [2000] :=
  C7_wipe_wifi_creds specCommandMap (.obj [("command", .str "WIPE_WIFI_CREDS")])
    "WIPE_WIFI_CREDS" sampleFull ⟨DeviceMode.WIFI_MODE, true⟩ rfl rfl rfl

/-- C8: `handleCommand` on a `SET_MDNS` command whose `data.hostname` is absent, not a
string, or the empty string returns the device as it was: the mDNS configuration is
unchanged, the flash is unchanged and the trace gains no event, so there is no write to
flash and no notification.  A batch that holds this command alone is therefore nothing
but the `save()` with which `handleCommands` closes every batch; it leaves the
configuration and the notifications as they were. -/
theorem C8_set_mdns_malformed (commandMap : CommandMap) (command : Json) (cmdName : String)
    (w : World)
    (hcmd : command.get "command" = .str cmdName)
    (hmap : commandMap cmdName = some .SET_MDNS)
    (hbad : ((command.get "data").get "hostname").isString = false ∨
      (command.get "data").get "hostname" = .str "") :
    handleCommand commandMap command w = w ∧
    (handleCommand commandMap command w).config.mdns = w.config.mdns ∧
    (handleCommand commandMap command w).nvs = w.nvs ∧
    (handleCommand commandMap command w).trace = w.trace ∧
    ∀ payload : CommandsPayload, payload.data.get "commands" = .arr [command] →
      handleCommands commandMap payload w = save w ∧
      (handleCommands commandMap payload w).config = w.config ∧
      notifications (handleCommands commandMap payload w).trace = notifications w.trace := by
  have h1 : handleCommand commandMap command w = w := by
    unfold handleCommand
    simp only [getCommandType_of_map commandMap command cmdName _ hcmd hmap]
    rcases hbad with h | h
    · simp [h]
    · have : strlen "" = 0 := by decide
      simp [h, Json.isString, Json.asString, this]
  refine ⟨h1, by rw [h1], by rw [h1], by rw [h1], fun payload hp => ?_⟩
  have h2 : handleCommands commandMap payload w = save w := by
    rw [handleCommands_array commandMap payload [command] w hp]
    simp [h1]
  exact ⟨h2, by rw [h2, save_config], by rw [h2, save_notifications]⟩

/-- Witness of C8: the command of the spec, with an empty data object. -/
theorem C8_witness :
    handleCommand specCommandMap sampleBadMdns sampleBooted = sampleBooted ∧
      (handleCommand specCommandMap sampleBadMdns sampleBooted).config.mdns =
        sampleBooted.config.mdns ∧
      (handleCommand specCommandMap sampleBadMdns sampleBooted).nvs = sampleBooted.nvs ∧
      (handleCommand specCommandMap sampleBadMdns sampleBooted).trace = sampleBooted.trace ∧
      handleCommands specCommandMap sampleBadMdnsBatch sampleBooted = save sampleBooted ∧
      (handleCommands specCommandMap sampleBadMdnsBatch sampleBooted).config
        = sampleBooted.config ∧
      notifications (handleCommands specCommandMap sampleBadMdnsBatch sampleBooted).trace
        = notifications sampleBooted.trace :=
  have h := C8_set_mdns_malformed specCommandMap sampleBadMdns "SET_MDNS" sampleBooted rfl rfl
    (Or.inl rfl)
  ⟨h.1, h.2.1, h.2.2.1, h.2.2.2.1, h.2.2.2.2 sampleBadMdnsBatch rfl⟩

/-- C9: when the `commands` member of the payload is absent or is not an array,
`handleCommands` returns the device as it was: configuration, Mode Manager, flash and
trace (so no save, no notification, no restart) are unchanged. -/
theorem C9_no_commands_array (commandMap : CommandMap) (payload : CommandsPayload) (w : World)
    (hbad : (payload.data.get "commands").isArray = false) :
    handleCommands commandMap payload w = w := by
  simp [handleCommands, hbad]

/-- Witness of C9: a payload without `commands`, and one whose `commands` is a string. -/
theorem C9_witness :
    handleCommands specCommandMap ⟨.obj [("command", .str "PING")]⟩ sampleBooted = sampleBooted ∧
      handleCommands specCommandMap ⟨.obj [("commands", .str "PING")]⟩ sampleBooted
        = sampleBooted :=
  ⟨C9_no_commands_array specCommandMap ⟨.obj [("command", .str "PING")]⟩ sampleBooted rfl,
   C9_no_commands_array specCommandMap ⟨.obj [("commands", .str "PING")]⟩ sampleBooted rfl⟩

/-! ### Batches and the flash -/

theorem deleteWifiConfig_quiet_started (n : String) (w : World) :
    (deleteWifiConfig n false w)._started = w._started := by
  unfold deleteWifiConfig
  simp only [Bool.false_eq_true, if_false]
  split <;> simp [Serial_println]

theorem wipe_loop_started (l : List WiFiConfig_t) (w : World) :
    (l.foldl (fun w network => deleteWifiConfig network.name false w) w)._started =
      w._started := by
  induction l generalizing w with
  | nil => rfl
  | cons a rest ih => simp only [List.foldl_cons, ih, deleteWifiConfig_quiet_started]

theorem set_wifi_tail_started_and_size (n s p : String) (w : World) :
    (match (setWifiConfig n s p 0 0 false false w).deviceModeManager with
      | some deviceModeManager =>
        ScheduleRestart 2000
          { (deviceModeManager.setHasWiFiCredentials true
              (setWifiConfig n s p 0 0 false false w)).2 with
            deviceModeManager := some (DeviceModeManager.setMode DeviceMode.WIFI_MODE
              (deviceModeManager.setHasWiFiCredentials true
                (setWifiConfig n s p 0 0 false false w)).1) }
      | none => setWifiConfig n s p 0 0 false false w)._started = w._started ∧
    (w.config.networks.length ≤ 3 →
      (match (setWifiConfig n s p 0 0 false false w).deviceModeManager with
        | some deviceModeManager =>
          ScheduleRestart 2000
            { (deviceModeManager.setHasWiFiCredentials true
                (setWifiConfig n s p 0 0 false false w)).2 with
              deviceModeManager := some (DeviceModeManager.setMode DeviceMode.WIFI_MODE
                (deviceModeManager.setHasWiFiCredentials true
                  (setWifiConfig n s p 0 0 false false w)).1) }
        | none => setWifiConfig n s p 0 0 false false w).config.networks.length ≤ 3) := by
  simp only [setWifiConfig_deviceModeManager]
  cases w.deviceModeManager with
  | none =>
    simp only [setWifiConfig_started, setWifiConfig_networks, true_and]
    exact upsert_length_le _ _
  | some m =>
    simp only [ScheduleRestart, emit_started, emit_config, setWifiConfig_started,
      setWifiConfig_networks, DeviceModeManager.setHasWiFiCredentials_started,
      DeviceModeManager.setHasWiFiCredentials_config, true_and]
    exact upsert_length_le _ _

/-- A command neither opens nor closes the flash handle, and keeps the networks within
the capacity of three. -/
theorem handleCommand_started_and_size (commandMap : CommandMap) (command : Json) (w : World) :
    (handleCommand commandMap command w)._started = w._started ∧
    (w.config.networks.length ≤ 3 →
      (handleCommand commandMap command w).config.networks.length ≤ 3) := by
  unfold handleCommand
  cases getCommandType commandMap command with
  | None => simp
  | PING => simp [Serial_println]
  | SET_MDNS =>
    simp only
    split_ifs <;> simp [setMDNSConfig]
  | SET_WIFI =>
    simp only
    split_ifs
    · simp
    · simp
    · exact set_wifi_tail_started_and_size _ _ _ w
    · exact set_wifi_tail_started_and_size _ _ _ w
  | SWITCH_MODE =>
    simp only
    split_ifs
    · simp
    · simp
    · cases w.deviceModeManager with
      | none => simp
      | some m =>
        simp only [ScheduleRestart, WiFi_disconnect]
        split_ifs <;> simp
  | WIPE_WIFI_CREDS =>
    obtain ⟨h1, h2, _⟩ := wipe_loop w.config.networks w
    simp only [h2]
    cases w.deviceModeManager with
    | none =>
      simp only [wipe_loop_started, h1, true_and]
      intro h
      exact le_trans (List.length_filter_le _ _) h
    | some m =>
      simp only [ScheduleRestart, emit_started, emit_config, wipe_loop_started, h1,
        DeviceModeManager.setHasWiFiCredentials_started,
        DeviceModeManager.setHasWiFiCredentials_config, true_and]
      intro h
      exact le_trans (List.length_filter_le _ _) h

theorem foldl_handleCommand_started_and_size (commandMap : CommandMap) (cmds : List Json)
    (w : World) :
    (cmds.foldl (fun w c => handleCommand commandMap c w) w)._started = w._started ∧
    (w.config.networks.length ≤ 3 →
      (cmds.foldl (fun w c => handleCommand commandMap c w) w).config.networks.length ≤ 3) := by
  induction cmds generalizing w with
  | nil => simp
  | cons c rest ih =>
    obtain ⟨h1, h2⟩ := handleCommand_started_and_size commandMap c w
    obtain ⟨g1, g2⟩ := ih (handleCommand commandMap c w)
    simp only [List.foldl_cons]
    exact ⟨by rw [g1, h1], fun h => g2 (h2 h)⟩

/-- While the flash handle is open, a batch leaves the final configuration in flash. -/
theorem handleCommands_persists_of_open (commandMap : CommandMap) (payload : CommandsPayload)
    (cmds : List Json) (w : World) (hcmds : payload.data.get "commands" = .arr cmds)
    (hopen : w._started = true) (hsize : w.config.networks.length ≤ 3) :
    Holds (handleCommands commandMap payload w).nvs
      (handleCommands commandMap payload w).config := by
  obtain ⟨h1, h2⟩ := foldl_handleCommand_started_and_size commandMap cmds w
  rw [handleCommands_array commandMap payload cmds w hcmds]
  have := save_holds (cmds.foldl (fun w c => handleCommand commandMap c w) w)
    (by rw [h1, hopen]) (h2 hsize)
  simpa using this

theorem put_closed (key : String) (v : NvsValue) (w : World) (hclosed : w._started = false) :
    Preferences.put key v w = w := by
  simp [Preferences.put, hclosed]

theorem wifiConfigSaveLoop_closed (i : Nat) (k : NetKeys) (l : List WiFiConfig_t) (w : World)
    (hclosed : w._started = false) : wifiConfigSaveLoop i k l w = w := by
  induction l generalizing i k with
  | nil => rfl
  | cons n rest ih =>
    simp [wifiConfigSaveLoop, putString, putUInt, put_closed, hclosed, ih]

/-- A `save` on a closed flash handle does nothing at all. -/
theorem save_closed (w : World) (hclosed : w._started = false) : save w = w := by
  simp [save, deviceConfigSave, mdnsConfigSave, cameraConfigSave, wifiConfigSave,
    wifiTxPowerConfigSave, deviceModeConfigSave, Preferences.end_, putString, putInt, putUInt,
    putBool, put_closed, wifiConfigSaveLoop_closed, hclosed]

/-- C10 (failing input): on the booted device, the batch `PING` and then the batch
`SET_MDNS` with hostname `tracker2`.  Both batches run their commands and one `save()`;
the `save()` of the first closes the flash handle, the `save()` of the second writes
nothing: the configuration holds `tracker2`, the flash still holds `openiristracker`. -/
theorem C10_second_batch_is_not_saved :
    (handleCommands specCommandMap samplePingBatch sampleBooted)._started = false ∧
    (handleCommands specCommandMap sampleMdnsBatch
      (handleCommands specCommandMap samplePingBatch sampleBooted)).config.mdns.hostname
      = "tracker2" ∧
    Nvs.get "hostname" (handleCommands specCommandMap sampleMdnsBatch
      (handleCommands specCommandMap samplePingBatch sampleBooted)).nvs
      = some (.str "openiristracker") ∧
    (handleCommands specCommandMap sampleMdnsBatch
      (handleCommands specCommandMap samplePingBatch sampleBooted)).nvs
      = (handleCommands specCommandMap samplePingBatch sampleBooted).nvs := by
  decide
/-! ## The load guard -/

@[simp] theorem put_already_loaded (key : String) (v : NvsValue) (w : World) :
    (Preferences.put key v w)._already_loaded = w._already_loaded := by
  unfold Preferences.put; split <;> rfl

@[simp] theorem wifiConfigSaveLoop_already_loaded (i : Nat) (k : NetKeys)
    (l : List WiFiConfig_t) (w : World) :
    (wifiConfigSaveLoop i k l w)._already_loaded = w._already_loaded := by
  induction l generalizing i k w with
  | nil => rfl
  | cons n rest ih => simp [wifiConfigSaveLoop, ih, putString, putUInt]

@[simp] theorem wifiConfigSave_already_loaded (w : World) :
    (wifiConfigSave w)._already_loaded = w._already_loaded := by
  simp [wifiConfigSave, putString, putUInt, putInt]

theorem setWifiConfig_already_loaded (n s p : String) (c pw : Nat) (a sn : Bool)
    (w : World) :
    (setWifiConfig n s p c pw a sn w)._already_loaded = w._already_loaded := by
  unfold setWifiConfig
  simp only
  split <;> cases sn <;>
    simp [notifyAll, wifiStateManager_setState, Serial_println] <;>
    (try split_ifs) <;> (try simp)

/-- No setter touches the guard of `load`. -/
theorem SetterCall.run_already_loaded (c : SetterCall) (w : World) :
    (c.run w)._already_loaded = w._already_loaded := by
  cases c with
  | deviceConfig l p port sn => cases sn <;> simp [SetterCall.run, setDeviceConfig, notifyAll]
  | mdnsConfig h s sn => cases sn <;> simp [SetterCall.run, setMDNSConfig, notifyAll]
  | cameraConfig v f h q b sn => cases sn <;> simp [SetterCall.run, setCameraConfig, notifyAll]
  | wifiConfig n s p c pw a sn => exact setWifiConfig_already_loaded n s p c pw a sn w
  | apWifiConfig s p c a sn =>
    cases sn <;>
      simp [SetterCall.run, setAPWifiConfig, notifyAll, wifiStateManager_setState,
        WiFi_disconnect]
  | wifiTxPower p sn => cases sn <;> simp [SetterCall.run, setWiFiTxPower, notifyAll]
  | deleteWifi n sn =>
    cases sn <;> simp only [SetterCall.run, deleteWifiConfig] <;> split_ifs <;>
      simp [notifyAll, Serial_println]
  | deviceMode m sn => cases sn <;> simp [SetterCall.run, setDeviceMode, notifyAll, putInt]
  | hasWiFiCredentials h sn =>
    cases sn <;> simp [SetterCall.run, setHasWiFiCredentials, notifyAll, putBool]

theorem runSetters_already_loaded (calls : List SetterCall) (w : World) :
    (runSetters calls w)._already_loaded = w._already_loaded := by
  induction calls generalizing w with
  | nil => rfl
  | cons c rest ih =>
    simp only [runSetters, List.foldl_cons] at ih ⊢
    rw [ih, SetterCall.run_already_loaded]

/-- Once `load` has run, the guard is set. -/
theorem load_already_loaded (b : BuildFlags) (w : World) :
    (load b w)._already_loaded = true := by
  rw [load_eq_phases]
  cases h : w._already_loaded with
  | true => simpa using h
  | false => simp [loadTail, notifyAll]

/-- With the guard set, `load` returns at once. -/
theorem load_of_already_loaded (b : BuildFlags) (w : World) (h : w._already_loaded = true) :
    load b w = w := by
  simp [load, h]

/-- C11: on a store on which `load()` has completed, and whatever setters were called
since, a further `load()` returns the device as it is: the configuration, the flash
and the trace (so no notification) are unchanged. -/
theorem C11_second_load_is_no_op (b : BuildFlags) (w : World) (calls : List SetterCall) :
    load b (runSetters calls (load b w)) = runSetters calls (load b w) :=
  load_of_already_loaded b _ (by rw [runSetters_already_loaded, load_already_loaded])

/-! ## `deleteWifiConfig` -/

theorem deleteWifiConfig_networks (n : String) (sn : Bool) (w : World) :
    (deleteWifiConfig n sn w).config.networks = deleteWifiConfigLoop n w.config.networks := by
  unfold deleteWifiConfig
  cases sn <;> simp only <;> split_ifs <;> simp [notifyAll, Serial_println]

/-- C12: `deleteWifiConfig(n, notify)` leaves exactly the entries whose name differs from
`n`, in their order and as they were; when no entry is named `n` the sequence is
unchanged. -/
theorem C12_deleteWifiConfig_removes_all_named (n : String) (shouldNotify : Bool) (w : World) :
    (deleteWifiConfig n shouldNotify w).config.networks =
        w.config.networks.filter (fun x => !decide (x.name = n)) ∧
      (n ∉ names w.config.networks →
        (deleteWifiConfig n shouldNotify w).config.networks = w.config.networks) := by
  rw [deleteWifiConfig_networks, deleteWifiConfigLoop_eq_filter]
  refine ⟨rfl, fun hn => ?_⟩
  rw [List.filter_eq_self]
  intro x hx
  have : x.name ≠ n := fun h => hn (mem_names.mpr ⟨x, hx, h⟩)
  simpa using this


/-- Witness of C12: a sequence with the name `main` twice, and a name that is absent. -/
theorem C12_witness :
    (deleteWifiConfig "main" true sampleDup).config.networks =
        sampleDup.config.networks.filter (fun x => !decide (x.name = "main")) ∧
      (deleteWifiConfig "lab" false sampleDup).config.networks = sampleDup.config.networks :=
  ⟨(C12_deleteWifiConfig_removes_all_named "main" true sampleDup).1,
   (C12_deleteWifiConfig_removes_all_named "lab" false sampleDup).2 (by decide)⟩

/-! ## Setters with notification -/

theorem wifiConfigSave_holds (w : World) (h : w._started = true)
    (hsize : w.config.networks.length ≤ 3) :
    HoldsWifi (wifiConfigSave w).nvs w.config := by
  unfold HoldsWifi
  match hl : w.config.networks, hsize with
  | [], _ =>
    simp [wifiConfigSave, putString, putInt, putUInt, put_nvs_of_started, h, hl,
      wifiConfigSaveLoop, HoldsNetworks, HoldsNetwork]
  | [a], _ =>
    simp [wifiConfigSave, putString, putInt, putUInt, put_nvs_of_started, h, hl,
      wifiConfigSaveLoop, HoldsNetworks, HoldsNetwork]
  | [a, b], _ =>
    simp [wifiConfigSave, putString, putInt, putUInt, put_nvs_of_started, h, hl,
      wifiConfigSaveLoop, HoldsNetworks, HoldsNetwork]
  | [a, b, c], _ =>
    simp [wifiConfigSave, putString, putInt, putUInt, put_nvs_of_started, h, hl,
      wifiConfigSaveLoop, HoldsNetworks, HoldsNetwork]
  | _ :: _ :: _ :: _ :: _, hsize => simp at hsize

/-- The shape of `setWifiConfig` with notification: the networks are set, the WiFi state
is reset, the wifi section is saved, the notification is sent. -/
theorem setWifiConfig_notify_shape (n s p : String) (c pw : Nat) (a : Bool) (w : World) :
    ∃ (st : WiFiState_e) (w1 : World),
      setWifiConfig n s p c pw a true w =
        notifyAll .networksConfigUpdated (wifiConfigSave (wifiStateManager_setState st w1)) ∧
      w1._started = w._started ∧
      w1.config.networks = upsert (newEntry n s p c pw) w.config.networks ∧
      notifications w1.trace = notifications w.trace := by
  have hnets := setWifiConfig_networks n s p c pw a true w
  unfold setWifiConfig at hnets ⊢
  simp only [if_true] at hnets ⊢
  split at hnets
  · rename_i nets hl
    refine ⟨.WiFiState_Disconnected, _, rfl, rfl, ?_, rfl⟩
    simpa [notifyAll, wifiStateManager_setState] using hnets
  · refine ⟨.WiFiState_None, _, rfl, ?_, ?_, ?_⟩
    · split_ifs <;> simp [Serial_println]
    · simpa [notifyAll, wifiStateManager_setState] using hnets
    · split_ifs <;> simp [Serial_println]

theorem holdsWifi_after_save (x : World) (hopen : x._started = true)
    (hsize : x.config.networks.length ≤ 3) :
    HoldsWifi (notifyAll .networksConfigUpdated (wifiConfigSave x)).nvs
      (notifyAll .networksConfigUpdated (wifiConfigSave x)).config := by
  have := wifiConfigSave_holds x hopen hsize
  simpa [notifyAll] using this

theorem deleteWifiConfigLoop_length_le (n : String) (l : List WiFiConfig_t) :
    (deleteWifiConfigLoop n l).length ≤ l.length := by
  rw [deleteWifiConfigLoop_eq_filter]
  exact List.length_filter_le _ _

/-! ## Mode switches -/

@[simp] theorem disconnects_nil : disconnects [] = [] := rfl

@[simp] theorem disconnects_cons (e : Event) (t : List Event) :
    disconnects (e :: t) = (match e with
      | .wifiDisconnect wifioff => wifioff :: disconnects t
      | _ => disconnects t) := by
  cases e <;> rfl

@[simp] theorem disconnects_append (t₁ t₂ : List Event) :
    disconnects (t₁ ++ t₂) = disconnects t₁ ++ disconnects t₂ := by
  simp [disconnects]

@[simp] theorem disconnects_emit (e : Event) (w : World) :
    disconnects (emit e w).trace = disconnects w.trace ++ disconnects [e] := by
  simp only [emit_trace, disconnects_append]

/-- C14: with the Mode Manager in place, a `SWITCH_MODE` command whose `data.mode` is the
integer `v` sets the mode of the Mode Manager to the mode of `v`; it issues one forced
radio disconnect exactly when that mode is USB and the mode before was WIFI or AP;
and it schedules one restart (2000 ms) except when, in that same case, the WiFi
link is in state Connecting, where it schedules none. -/
theorem C14_switch_mode (commandMap : CommandMap) (command : Json) (cmdName : String)
    (v : Int) (w : World) (m : DeviceModeManager)
    (hcmd : command.get "command" = .str cmdName)
    (hmap : commandMap cmdName = some .SWITCH_MODE)
    (hobj : (command.get "data").isObject = true)
    (hmode : (command.get "data").get "mode" = .int v)
    (hint : -2147483648 ≤ v ∧ v ≤ 2147483647)
    (hmgr : w.deviceModeManager = some m) :
    (handleCommand commandMap command w).deviceModeManager =
        some { m with currentMode := ⟨v⟩ } ∧
      disconnects (handleCommand commandMap command w).trace =
        disconnects w.trace ++
          (if (⟨v⟩ : DeviceMode) = DeviceMode.USB_MODE ∧
              (m.currentMode = DeviceMode.WIFI_MODE ∨ m.currentMode = DeviceMode.AP_MODE)
           then [true] else []) ∧
      restarts (handleCommand commandMap command w).trace =
        restarts w.trace ++
          (if (⟨v⟩ : DeviceMode) = DeviceMode.USB_MODE ∧
              (m.currentMode = DeviceMode.WIFI_MODE ∨ m.currentMode = DeviceMode.AP_MODE) ∧
              w.wifiState = WiFiState_e.WiFiState_Connecting
           then [] else [2000]) := by
  unfold handleCommand
  simp only [getCommandType_of_map commandMap command cmdName _ hcmd hmap, hasDataField, hobj,
    hmode, Json.isInt, Json.asInt, hmgr, DeviceModeManager.getMode, DeviceModeManager.setMode]
  have hdec : decide (-2147483648 ≤ v ∧ v ≤ 2147483647) = true := by simpa using hint
  simp only [hdec]
  by_cases h1 : (⟨v⟩ : DeviceMode) = DeviceMode.USB_MODE ∧
      (m.currentMode = DeviceMode.WIFI_MODE ∨ m.currentMode = DeviceMode.AP_MODE)
  · by_cases h2 : w.wifiState = WiFiState_e.WiFiState_Connecting
    · simp [h1, h2, WiFi_disconnect, ScheduleRestart]
    · simp [h1, h2, WiFi_disconnect, ScheduleRestart]
  · have h3 : ¬ ((⟨v⟩ : DeviceMode) = DeviceMode.USB_MODE ∧
        (m.currentMode = DeviceMode.WIFI_MODE ∨ m.currentMode = DeviceMode.AP_MODE) ∧
        w.wifiState = WiFiState_e.WiFiState_Connecting) := fun h => h1 ⟨h.1, h.2.1⟩
    simp [h1, h3, WiFi_disconnect, ScheduleRestart]

/-- Witness of C14: a switch to USB on the device in WIFI mode. -/
theorem C14_witness :
    (handleCommand specCommandMap (sampleSwitchMode 0) sampleFull).deviceModeManager =
        some ⟨DeviceMode.USB_MODE, true⟩ ∧
      disconnects (handleCommand specCommandMap (sampleSwitchMode 0) sampleFull).trace = [true] ∧
      restarts (handleCommand specCommandMap (sampleSwitchMode 0) sampleFull).trace = [2000] :=
  C14_switch_mode specCommandMap (sampleSwitchMode 0) "SWITCH_MODE" 0 sampleFull
    ⟨DeviceMode.WIFI_MODE, true⟩ rfl rfl rfl rfl (by decide) rfl

/-- C15 (failing input): on the device whose Mode Manager is in WIFI mode, a
`WIPE_WIFI_CREDS` command leaves the Mode Manager in USB mode and issues no radio
disconnect; a `SWITCH_MODE` to USB on the same device issues the forced disconnect. -/
theorem C15_wipe_issues_no_disconnect :
    sampleFull.deviceModeManager = some ⟨DeviceMode.WIFI_MODE, true⟩ ∧
    (handleCommand specCommandMap sampleWipe sampleFull).deviceModeManager =
      some ⟨DeviceMode.USB_MODE, false⟩ ∧
    disconnects (handleCommand specCommandMap sampleWipe sampleFull).trace = [] ∧
    disconnects (handleCommand specCommandMap (sampleSwitchMode 0) sampleFull).trace
      = [true] := by
  decide

/-- C16 (failing input): `wifiConfigSave` on the device with two networks writes the count
2 and the first network under `name0`, `ssid0`, `pass0`, `channel0`, `txpower0`, but the
second under `name01`, `ssid01`, `pass01`, `channel01`, `txpower01`; nothing is written
under `name1`.  And `load` over a flash that holds the second network under `name1`,
`ssid1`, `pass1`, `channel1`, `txpower1` does not read it. -/
theorem C16_second_network_key_is_name01 :
    sampleTwo._started = true ∧ names sampleTwo.config.networks = ["office", "main"] ∧
    Nvs.get "networkCount" (wifiConfigSave sampleTwo).nvs = some (.i32 2) ∧
    Nvs.get "name0" (wifiConfigSave sampleTwo).nvs = some (.str "office") ∧
    Nvs.get "name1" (wifiConfigSave sampleTwo).nvs = none ∧
    Nvs.get "name01" (wifiConfigSave sampleTwo).nvs = some (.str "main") ∧
    Nvs.get "ssid01" (wifiConfigSave sampleTwo).nvs = some (.str "home") ∧
    Nvs.get "pass01" (wifiConfigSave sampleTwo).nvs = some (.str "secret") ∧
    Nvs.get "channel01" (wifiConfigSave sampleTwo).nvs = some (.u32 0) ∧
    Nvs.get "txpower01" (wifiConfigSave sampleTwo).nvs = some (.u32 0) ∧
    (load sampleFlags (ProjectConfig_new "openiris" "openiristracker" sampleFlashIndexed)
      ).config.networks = [⟨"office", "work", "pw1", 6, 52, false⟩, ⟨"", "", "", 0, 0, false⟩] := by
  decide


/-! ## What a command leaves alone -/

theorem setWifiConfig_quiet (n s p : String) (c pw : Nat) (a : Bool) (w : World) :
    (setWifiConfig n s p c pw a false w).config =
        { w.config with networks := (setWifiConfig n s p c pw a false w).config.networks } ∧
    (setWifiConfig n s p c pw a false w).nvs = w.nvs ∧
    notifications (setWifiConfig n s p c pw a false w).trace = notifications w.trace ∧
    disconnects (setWifiConfig n s p c pw a false w).trace = disconnects w.trace := by
  unfold setWifiConfig
  simp only [Bool.false_eq_true, if_false]
  split
  · simp
  · split_ifs <;> simp [Serial_println]

theorem deleteWifiConfig_quiet_frame (n : String) (w : World) :
    (deleteWifiConfig n false w).config =
        { w.config with networks := (deleteWifiConfig n false w).config.networks } ∧
    (deleteWifiConfig n false w).nvs = w.nvs ∧
    notifications (deleteWifiConfig n false w).trace = notifications w.trace ∧
    disconnects (deleteWifiConfig n false w).trace = disconnects w.trace := by
  unfold deleteWifiConfig
  simp only [Bool.false_eq_true, if_false]
  split_ifs <;> simp [Serial_println]

theorem wipe_loop_frame (l : List WiFiConfig_t) (w : World) :
    (l.foldl (fun w network => deleteWifiConfig network.name false w) w).config.deviceMode =
        w.config.deviceMode ∧
    (l.foldl (fun w network => deleteWifiConfig network.name false w) w).nvs = w.nvs ∧
    notifications (l.foldl (fun w network => deleteWifiConfig network.name false w) w).trace =
        notifications w.trace := by
  induction l generalizing w with
  | nil => simp
  | cons a rest ih =>
    obtain ⟨h1, h2, h3, _⟩ := deleteWifiConfig_quiet_frame a.name w
    obtain ⟨g1, g2, g3⟩ := ih (deleteWifiConfig a.name false w)
    simp only [List.foldl_cons]
    refine ⟨?_, by rw [g2, h2], by rw [g3, h3]⟩
    rw [g1, h1]

theorem mode_key_after_flag_write (b : Bool) (st : Nvs) :
    Nvs.get MODE_KEY (Nvs.put HAS_WIFI_CREDS_KEY (.flag b) st) = Nvs.get MODE_KEY st := by
  have h : MODE_KEY ≠ HAS_WIFI_CREDS_KEY := by decide
  rw [Nvs.get_put, if_neg h]

/-- No command changes the mode section of the configuration, writes under the mode key
of the flash or sends a notification. -/
theorem handleCommand_frame (commandMap : CommandMap) (command : Json) (w : World) :
    (handleCommand commandMap command w).config.deviceMode = w.config.deviceMode ∧
    Nvs.get MODE_KEY (handleCommand commandMap command w).nvs = Nvs.get MODE_KEY w.nvs ∧
    notifications (handleCommand commandMap command w).trace = notifications w.trace := by
  unfold handleCommand
  cases getCommandType commandMap command with
  | None => simp
  | PING => simp [Serial_println]
  | SET_MDNS =>
    simp only
    split_ifs <;> simp [setMDNSConfig]
  | SET_WIFI =>
    simp only [setWifiConfig_deviceModeManager]
    split_ifs
    · simp
    · simp
    all_goals
      rename_i h1 h2 h3
      cases w.deviceModeManager with
      | none =>
        obtain ⟨g1, g2, g3, _⟩ := setWifiConfig_quiet
          ((command.get "data").get "network_name").asString
          ((command.get "data").get "ssid").asString
          ((command.get "data").get "password").asString 0 0 false w
        obtain ⟨k1, k2, k3, _⟩ := setWifiConfig_quiet "main"
          ((command.get "data").get "ssid").asString
          ((command.get "data").get "password").asString 0 0 false w
        first
          | exact ⟨by rw [g1], by rw [g2], g3⟩
          | exact ⟨by rw [k1], by rw [k2], k3⟩
      | some m =>
        obtain ⟨g1, g2, g3, _⟩ := setWifiConfig_quiet
          ((command.get "data").get "network_name").asString
          ((command.get "data").get "ssid").asString
          ((command.get "data").get "password").asString 0 0 false w
        obtain ⟨k1, k2, k3, _⟩ := setWifiConfig_quiet "main"
          ((command.get "data").get "ssid").asString
          ((command.get "data").get "password").asString 0 0 false w
        simp only [ScheduleRestart, emit_config, emit_nvs, notifications_emit,
          notifications_cons, notifications_nil, notifications_append, List.append_nil,
          DeviceModeManager.setHasWiFiCredentials_config,
          DeviceModeManager.setHasWiFiCredentials_nvs,
          DeviceModeManager.setHasWiFiCredentials_trace, mode_key_after_flag_write]
        first
          | exact ⟨by rw [g1], by rw [g2], g3⟩
          | exact ⟨by rw [k1], by rw [k2], k3⟩
  | SWITCH_MODE =>
    simp only
    split_ifs
    · simp
    · simp
    · cases w.deviceModeManager with
      | none => simp
      | some m =>
        simp only [ScheduleRestart, WiFi_disconnect]
        split_ifs <;> simp
  | WIPE_WIFI_CREDS =>
    obtain ⟨h1, h2, h3⟩ := wipe_loop_frame w.config.networks w
    obtain ⟨_, g2, _⟩ := wipe_loop w.config.networks w
    simp only [g2]
    cases w.deviceModeManager with
    | none => exact ⟨h1, by rw [h2], h3⟩
    | some m =>
      simp only [ScheduleRestart, emit_config, emit_nvs, notifications_emit,
        notifications_cons, notifications_nil, notifications_append, List.append_nil,
        DeviceModeManager.setHasWiFiCredentials_config,
        DeviceModeManager.setHasWiFiCredentials_nvs,
        DeviceModeManager.setHasWiFiCredentials_trace, mode_key_after_flag_write]
      exact ⟨h1, by rw [h2], h3⟩

theorem foldl_handleCommand_frame (commandMap : CommandMap) (cmds : List Json) (w : World) :
    (cmds.foldl (fun w c => handleCommand commandMap c w) w).config.deviceMode =
        w.config.deviceMode ∧
    Nvs.get MODE_KEY (cmds.foldl (fun w c => handleCommand commandMap c w) w).nvs =
        Nvs.get MODE_KEY w.nvs ∧
    notifications (cmds.foldl (fun w c => handleCommand commandMap c w) w).trace =
        notifications w.trace := by
  induction cmds generalizing w with
  | nil => simp
  | cons c rest ih =>
    obtain ⟨h1, h2, h3⟩ := handleCommand_frame commandMap c w
    obtain ⟨g1, g2, g3⟩ := ih (handleCommand commandMap c w)
    simp only [List.foldl_cons]
    exact ⟨by rw [g1, h1], by rw [g2, h2], by rw [g3, h3]⟩

theorem length_ne_zero_of_ne_empty {h : String} (hne : h ≠ "") : h.length ≠ 0 := by
  intro h0
  apply hne
  cases h with
  | mk data =>
    have : data = [] := List.length_eq_zero.mp h0
    subst this
    rfl

/-- C18: a `SET_MDNS` command whose `data.hostname` is a non-empty string `h` sets
`mdns.hostname` to `h` and `mdns.service` to `openiristracker` and changes nothing else:
the other sections, the Mode Manager, the flash and the trace (no notification, no
restart) are as before. -/
theorem C18_set_mdns_sets_hostname_only (commandMap : CommandMap) (command : Json)
    (cmdName h : String) (w : World)
    (hcmd : command.get "command" = .str cmdName)
    (hmap : commandMap cmdName = some .SET_MDNS)
    (hobj : (command.get "data").isObject = true)
    (hhost : (command.get "data").get "hostname" = .str h)
    (hne : h ≠ "") (hc : IsCString h) :
    handleCommand commandMap command w =
      { w with config := { w.config with mdns := ⟨h, "openiristracker"⟩ } } := by
  have hlen : strlen h ≠ 0 := by
    unfold strlen
    rw [c_str_of_isCString hc]
    exact length_ne_zero_of_ne_empty hne
  unfold handleCommand
  simp [getCommandType_of_map commandMap command cmdName _ hcmd hmap, hasDataField, hobj,
    hhost, Json.isString, Json.asString, hlen, setMDNSConfig]

/-- Witness of C18: the hostname `tracker2` on the booted device. -/
theorem C18_witness :
    handleCommand specCommandMap sampleSetMdns sampleBooted =
      { sampleBooted with
        config := { sampleBooted.config with mdns := ⟨"tracker2", "openiristracker"⟩ } } :=
  C18_set_mdns_sets_hostname_only specCommandMap sampleSetMdns "SET_MDNS" "tracker2"
    sampleBooted rfl rfl rfl rfl (by decide) (by decide)

/-- C19: a command whose `command` member is absent, not a string, or a name that the
table does not know, and a `PING` command, change nothing: configuration, Mode Manager,
flash and WiFi state are as before, and no notification, radio disconnect or restart
is added to the trace. -/
theorem C19_unknown_and_ping_change_nothing (commandMap : CommandMap) (command : Json)
    (w : World)
    (hkind : (command.get "command").isString = false ∨
      ∃ s, command.get "command" = .str s ∧
        (commandMap s = none ∨ commandMap s = some .PING)) :
    (handleCommand commandMap command w).config = w.config ∧
    (handleCommand commandMap command w).deviceModeManager = w.deviceModeManager ∧
    (handleCommand commandMap command w).nvs = w.nvs ∧
    (handleCommand commandMap command w)._started = w._started ∧
    (handleCommand commandMap command w).wifiState = w.wifiState ∧
    notifications (handleCommand commandMap command w).trace = notifications w.trace ∧
    disconnects (handleCommand commandMap command w).trace = disconnects w.trace ∧
    restarts (handleCommand commandMap command w).trace = restarts w.trace := by
  have htype : getCommandType commandMap command = .None ∨
      getCommandType commandMap command = .PING := by
    rcases hkind with h | ⟨s, hs, hm | hm⟩
    · left; simp [getCommandType, h]
    · left; simp [getCommandType, hs, Json.isString, Json.asString, hm]
    · right; simp [getCommandType, hs, Json.isString, Json.asString, hm]
  unfold handleCommand
  rcases htype with h | h
  · simp [h]
  · simp [h, Serial_println]

/-- Witness of C19: a command without name, an unknown name, and `PING`. -/
theorem C19_witness :
    (handleCommand specCommandMap (.obj [("data", .obj [])]) sampleBooted).config
        = sampleBooted.config ∧
      (handleCommand specCommandMap (.obj [("command", .str "REBOOT")]) sampleBooted).nvs
        = sampleBooted.nvs ∧
      restarts (handleCommand specCommandMap (.obj [("command", .str "PING")])
        sampleBooted).trace = restarts sampleBooted.trace :=
  ⟨(C19_unknown_and_ping_change_nothing specCommandMap (.obj [("data", .obj [])]) sampleBooted
      (Or.inl rfl)).1,
   (C19_unknown_and_ping_change_nothing specCommandMap (.obj [("command", .str "REBOOT")])
      sampleBooted (Or.inr ⟨"REBOOT", rfl, Or.inl rfl⟩)).2.2.1,
   (C19_unknown_and_ping_change_nothing specCommandMap (.obj [("command", .str "PING")])
      sampleBooted (Or.inr ⟨"PING", rfl, Or.inr rfl⟩)).2.2.2.2.2.2.2⟩

/-- C20 (as amended): after the first `load()`, when the mode key of the flash is
absent or holds another type, or holds one of the integers 0 to 3 of the enumeration,
the mode is USB, WIFI or AP (a stored AUTO is resolved); an integer outside 0 to 3
under the mode key is cast without a check and is the mode after `load()`. -/
theorem C20_mode_after_load (b : BuildFlags) (w : World) (hfirst : w._already_loaded = false) :
    ((∀ v, Nvs.get MODE_KEY w.nvs ≠ some (.i32 v)) →
      (load b w).config.deviceMode.mode = DeviceMode.WIFI_MODE ∨
      (load b w).config.deviceMode.mode = DeviceMode.AP_MODE) ∧
    (∀ v, Nvs.get MODE_KEY w.nvs = some (.i32 v) → 0 ≤ v ∧ v ≤ 3 →
      (load b w).config.deviceMode.mode = DeviceMode.USB_MODE ∨
      (load b w).config.deviceMode.mode = DeviceMode.WIFI_MODE ∨
      (load b w).config.deviceMode.mode = DeviceMode.AP_MODE) ∧
    (∀ v, Nvs.get MODE_KEY w.nvs = some (.i32 v) → v < 0 ∨ 3 < v →
      (load b w).config.deviceMode.mode = ⟨v⟩) := by
  rw [load_deviceMode b w hfirst]
  simp only [getBool, getInt, if_true]
  refine ⟨?_, ?_, ?_⟩
  · intro hno
    have : (match Nvs.get MODE_KEY w.nvs with
        | some (.i32 v) => v
        | _ => 3) = 3 := by
      split
      · rename_i v hv
        exact absurd hv (hno v)
      · rfl
    simp only [this]
    simp only [DeviceMode.AUTO_MODE, if_true]
    split_ifs <;> simp
  · intro v hv hrange
    simp only [hv]
    have : v = 0 ∨ v = 1 ∨ v = 2 ∨ v = 3 := by omega
    rcases this with rfl | rfl | rfl | rfl
    · left
      have : (⟨0⟩ : DeviceMode) ≠ DeviceMode.AUTO_MODE := by decide
      simp only [this, if_false]
      rfl
    · right; left
      have : (⟨1⟩ : DeviceMode) ≠ DeviceMode.AUTO_MODE := by decide
      simp only [this, if_false]
      rfl
    · right; right
      have : (⟨2⟩ : DeviceMode) ≠ DeviceMode.AUTO_MODE := by decide
      simp only [this, if_false]
      rfl
    · simp only [DeviceMode.AUTO_MODE, if_true]
      split_ifs <;> simp
  · intro v hv hout
    simp only [hv]
    have : (⟨v⟩ : DeviceMode) ≠ DeviceMode.AUTO_MODE := by
      intro h
      have : v = 3 := by simpa [DeviceMode.AUTO_MODE] using h
      omega
    simp [this]

/-- Witness of C20: an empty flash, and a flash whose mode entry is AUTO. -/
theorem C20_witness :
    ((load sampleFlags sampleBlank).config.deviceMode.mode = DeviceMode.WIFI_MODE ∨
      (load sampleFlags sampleBlank).config.deviceMode.mode = DeviceMode.AP_MODE) ∧
    ((load sampleFlags (ProjectConfig_new "openiris" "openiristracker" sampleFlashAuto)
        ).config.deviceMode.mode = DeviceMode.USB_MODE ∨
      (load sampleFlags (ProjectConfig_new "openiris" "openiristracker" sampleFlashAuto)
        ).config.deviceMode.mode = DeviceMode.WIFI_MODE ∨
      (load sampleFlags (ProjectConfig_new "openiris" "openiristracker" sampleFlashAuto)
        ).config.deviceMode.mode = DeviceMode.AP_MODE) :=
  ⟨(C20_mode_after_load sampleFlags sampleBlank rfl).1 (fun v h => by cases h),
   (C20_mode_after_load sampleFlags
      (ProjectConfig_new "openiris" "openiristracker" sampleFlashAuto) rfl).2.1 3 rfl
      (by decide)⟩

/-- Counterexample to C20 as stated: over a flash whose mode entry is the integer 7 the
first `load()` leaves the mode 7, which is none of USB, WIFI, AP. -/
theorem C20_counterexample :
    (load sampleFlags (ProjectConfig_new "openiris" "openiristracker" sampleFlashMode7)
      ).config.deviceMode.mode = ⟨7⟩ ∧
    (⟨7⟩ : DeviceMode) ≠ DeviceMode.USB_MODE ∧ (⟨7⟩ : DeviceMode) ≠ DeviceMode.WIFI_MODE ∧
    (⟨7⟩ : DeviceMode) ≠ DeviceMode.AP_MODE ∧ (⟨7⟩ : DeviceMode) ≠ DeviceMode.AUTO_MODE := by
  decide

/-! ## Mode requests and malformed commands -/

/-- The Mode Manager after a well-formed `SWITCH_MODE` command. -/
theorem switch_mode_manager (commandMap : CommandMap) (command : Json) (cmdName : String)
    (v : Int) (w : World) (m : DeviceModeManager)
    (hcmd : command.get "command" = .str cmdName)
    (hmap : commandMap cmdName = some .SWITCH_MODE)
    (hobj : (command.get "data").isObject = true)
    (hmode : (command.get "data").get "mode" = .int v)
    (hint : -2147483648 ≤ v ∧ v ≤ 2147483647)
    (hmgr : w.deviceModeManager = some m) :
    (handleCommand commandMap command w).deviceModeManager =
      some { m with currentMode := ⟨v⟩ } := by
  unfold handleCommand
  simp only [getCommandType_of_map commandMap command cmdName _ hcmd hmap, hasDataField, hobj,
    hmode, Json.isInt, Json.asInt, hmgr, DeviceModeManager.getMode, DeviceModeManager.setMode]
  have hdec : decide (-2147483648 ≤ v ∧ v ≤ 2147483647) = true := by simpa using hint
  simp only [hdec]
  by_cases h1 : (⟨v⟩ : DeviceMode) = DeviceMode.USB_MODE ∧
      (m.currentMode = DeviceMode.WIFI_MODE ∨ m.currentMode = DeviceMode.AP_MODE)
  · by_cases h2 : w.wifiState = WiFiState_e.WiFiState_Connecting
    · simp [h1, h2, WiFi_disconnect, ScheduleRestart]
    · simp [h1, h2, WiFi_disconnect, ScheduleRestart]
  · have h3 : ¬ ((⟨v⟩ : DeviceMode) = DeviceMode.USB_MODE ∧
        (m.currentMode = DeviceMode.WIFI_MODE ∨ m.currentMode = DeviceMode.AP_MODE) ∧
        w.wifiState = WiFiState_e.WiFiState_Connecting) := fun h => h1 ⟨h.1, h.2.1⟩
    simp [h1, h3, WiFi_disconnect, ScheduleRestart]

/-- C21 (as amended): with the Mode Manager in place, a `SWITCH_MODE` command whose
`data.mode` is the integer `v` makes the cast of `v` the current mode, without a check:
the mode is USB, WIFI or AP when `v` is 0, 1 or 2, and an integer outside 0 to 3 is not
rejected but becomes the current mode.  What becomes of a requested AUTO is left
out. -/
theorem C21_switch_mode_casts_unchecked (commandMap : CommandMap) (command : Json)
    (cmdName : String) (v : Int) (w : World) (m : DeviceModeManager)
    (hcmd : command.get "command" = .str cmdName)
    (hmap : commandMap cmdName = some .SWITCH_MODE)
    (hobj : (command.get "data").isObject = true)
    (hmode : (command.get "data").get "mode" = .int v)
    (hint : -2147483648 ≤ v ∧ v ≤ 2147483647)
    (hmgr : w.deviceModeManager = some m) :
    (handleCommand commandMap command w).deviceModeManager =
        some { m with currentMode := ⟨v⟩ } ∧
      (v = 0 → (handleCommand commandMap command w).deviceModeManager =
        some { m with currentMode := DeviceMode.USB_MODE }) ∧
      (v = 1 → (handleCommand commandMap command w).deviceModeManager =
        some { m with currentMode := DeviceMode.WIFI_MODE }) ∧
      (v = 2 → (handleCommand commandMap command w).deviceModeManager =
        some { m with currentMode := DeviceMode.AP_MODE }) ∧
      (v < 0 ∨ 3 < v →
        (⟨v⟩ : DeviceMode) ≠ DeviceMode.USB_MODE ∧ (⟨v⟩ : DeviceMode) ≠ DeviceMode.WIFI_MODE ∧
        (⟨v⟩ : DeviceMode) ≠ DeviceMode.AP_MODE ∧ (⟨v⟩ : DeviceMode) ≠ DeviceMode.AUTO_MODE) := by
  have h := switch_mode_manager commandMap command cmdName v w m hcmd hmap hobj hmode hint hmgr
  refine ⟨h, ?_, ?_, ?_, ?_⟩
  · intro hv; subst hv; exact h
  · intro hv; subst hv; exact h
  · intro hv; subst hv; exact h
  · intro hv
    simp only [DeviceMode.USB_MODE, DeviceMode.WIFI_MODE, DeviceMode.AP_MODE,
      DeviceMode.AUTO_MODE, ne_eq, DeviceMode.mk.injEq]
    omega

/-- Witness of C21: a switch to AP on the device in WIFI mode. -/
theorem C21_witness :
    (handleCommand specCommandMap (sampleSwitchMode 2) sampleFull).deviceModeManager =
      some ⟨DeviceMode.AP_MODE, true⟩ :=
  (C21_switch_mode_casts_unchecked specCommandMap (sampleSwitchMode 2) "SWITCH_MODE" 2
    sampleFull ⟨DeviceMode.WIFI_MODE, true⟩ rfl rfl rfl rfl (by decide) rfl).2.2.2.1 rfl

/-- Counterexample to C21 as stated: on the device in WIFI mode a `SWITCH_MODE` with
`data.mode` 7 leaves the Mode Manager in mode 7, and one with `data.mode` 3 leaves it
in AUTO. -/
theorem C21_counterexample :
    sampleFull.deviceModeManager = some ⟨DeviceMode.WIFI_MODE, true⟩ ∧
    (handleCommand specCommandMap (sampleSwitchMode 7) sampleFull).deviceModeManager =
      some ⟨⟨7⟩, true⟩ ∧
    (handleCommand specCommandMap (sampleSwitchMode 3) sampleFull).deviceModeManager =
      some ⟨DeviceMode.AUTO_MODE, true⟩ := by
  decide

/-- C24: a `SET_WIFI` command without data object, or whose `data.ssid` or `data.password`
is not a string, and a `SWITCH_MODE` command without data object, or whose `data.mode` is
not an integer, are dropped: `handleCommand` returns the device as it was (networks,
credentials flag and mode unchanged, no radio disconnect, no restart). -/
theorem C24_malformed_commands_dropped (commandMap : CommandMap) (command : Json)
    (cmdName : String) (w : World)
    (hcmd : command.get "command" = .str cmdName)
    (hbad :
      (commandMap cmdName = some .SET_WIFI ∧
        ((command.get "data").isObject = false ∨
          ((command.get "data").get "ssid").isString = false ∨
          ((command.get "data").get "password").isString = false)) ∨
      (commandMap cmdName = some .SWITCH_MODE ∧
        ((command.get "data").isObject = false ∨
          ((command.get "data").get "mode").isInt = false))) :
    handleCommand commandMap command w = w := by
  unfold handleCommand
  rcases hbad with ⟨hmap, h⟩ | ⟨hmap, h⟩
  · simp only [getCommandType_of_map commandMap command cmdName _ hcmd hmap, hasDataField]
    rcases h with h | h | h <;> simp [h]
  · simp only [getCommandType_of_map commandMap command cmdName _ hcmd hmap, hasDataField]
    rcases h with h | h <;> simp [h]

/-- Witness of C24: a `SET_WIFI` without password and a `SWITCH_MODE` with a string mode. -/
theorem C24_witness :
    handleCommand specCommandMap sampleBadSetWifi sampleFull = sampleFull ∧
      handleCommand specCommandMap sampleBadSwitchMode sampleFull = sampleFull :=
  ⟨C24_malformed_commands_dropped specCommandMap sampleBadSetWifi "SET_WIFI" sampleFull rfl
      (Or.inl ⟨rfl, Or.inr (Or.inr rfl)⟩),
   C24_malformed_commands_dropped specCommandMap sampleBadSwitchMode "SWITCH_MODE" sampleFull
      rfl (Or.inr ⟨rfl, Or.inr rfl⟩)⟩

/-- C27: on a store with three networks none of which has the name of the command
(`main` unless `data.network_name` is a string), and with the Mode Manager in place, a
well-formed `SET_WIFI` command leaves the networks as they were and still sets the
credentials flag of the Mode Manager, sets its mode to WIFI and schedules one restart:
the flag is set although the submitted ssid and password are not stored. -/
theorem C27_set_wifi_at_capacity (commandMap : CommandMap) (command : Json)
    (cmdName x y : String) (w : World) (m : DeviceModeManager)
    (hcmd : command.get "command" = .str cmdName)
    (hmap : commandMap cmdName = some .SET_WIFI)
    (hobj : (command.get "data").isObject = true)
    (hssid : (command.get "data").get "ssid" = .str x)
    (hpass : (command.get "data").get "password" = .str y)
    (hmgr : w.deviceModeManager = some m)
    (hfull : w.config.networks.length = 3)
    (hnew : networkNameOf (command.get "data") ∉ names w.config.networks) :
    (handleCommand commandMap command w).config.networks = w.config.networks ∧
      (handleCommand commandMap command w).deviceModeManager =
        some ⟨DeviceMode.WIFI_MODE, true⟩ ∧
      restarts (handleCommand commandMap command w).trace = restarts w.trace ++ [2000] := by
  rw [handleCommand_set_wifi commandMap command cmdName x y w hcmd hmap hobj hssid hpass, hmgr]
  have hnone := (setWifiConfigLoop_none_iff (networkNameOf (command.get "data")) x y
    (0 % 256) (0 % 256) w.config.networks).mpr hnew
  refine ⟨?_, ?_, ?_⟩
  · simp only [ScheduleRestart, emit_config, setWifiConfig_networks,
      DeviceModeManager.setHasWiFiCredentials_config]
    simp [upsert, newEntry, hnone, hfull]
  · simp [ScheduleRestart]
  · simp [ScheduleRestart]

/-- Witness of C27: the command of the spec on the device with three networks. -/
theorem C27_witness :
    (handleCommand specCommandMap sampleSetWifi sampleFull).config.networks =
        sampleFull.config.networks ∧
      (handleCommand specCommandMap sampleSetWifi sampleFull).deviceModeManager =
        some ⟨DeviceMode.WIFI_MODE, true⟩ ∧
      restarts (handleCommand specCommandMap sampleSetWifi sampleFull).trace =
        restarts sampleFull.trace ++ [2000] :=
  C27_set_wifi_at_capacity specCommandMap sampleSetWifi "SET_WIFI" "x" "y" sampleFull
    ⟨DeviceMode.WIFI_MODE, true⟩ rfl rfl rfl rfl rfl rfl rfl (by decide)

/-! ## The adhoc flag of the networks -/

theorem loadNetworksLoop_adhoc (r i : Nat) (k : NetKeys) (w : World)
    (h : ∀ n ∈ w.config.networks, n.adhoc = false) :
    ∀ n ∈ (loadNetworksLoop r i k w).config.networks, n.adhoc = false := by
  induction r generalizing i k w with
  | zero => exact h
  | succ r ih =>
    simp only [loadNetworksLoop]
    apply ih
    intro n hn
    simp only [List.mem_append, List.mem_singleton] at hn
    rcases hn with hn | rfl
    · exact h n hn
    · rfl

theorem load_networks_adhoc (b : BuildFlags) (w : World)
    (h : ∀ n ∈ w.config.networks, n.adhoc = false) :
    ∀ n ∈ (load b w).config.networks, n.adhoc = false := by
  rw [load_eq_phases]
  split_ifs
  · exact h
  · have : ∀ x : World, (loadTail b x).config.networks = x.config.networks := by
      intro x
      simp only [loadTail, notifyAll, emit_config]
      split_ifs <;> rfl
    rw [this]
    apply loadNetworksLoop_adhoc
    simpa using h

theorem mem_setWifiConfigLoop_adhoc (n s p : String) (c pw : Nat) (l l' : List WiFiConfig_t)
    (h : setWifiConfigLoop n s p c pw l = some l') (hl : ∀ x ∈ l, x.adhoc = false) :
    ∀ x ∈ l', x.adhoc = false := by
  induction l generalizing l' with
  | nil => simp [setWifiConfigLoop] at h
  | cons it rest ih =>
    unfold setWifiConfigLoop at h
    by_cases hn : it.name = n
    · simp only [hn, if_true, Option.some.injEq] at h
      subst h
      intro x hx
      simp only [List.mem_cons] at hx
      rcases hx with rfl | hx
      · rfl
      · exact hl x (List.mem_cons_of_mem _ hx)
    · simp only [hn, if_false, Option.map_eq_some'] at h
      obtain ⟨l0, hl0, rfl⟩ := h
      intro x hx
      simp only [List.mem_cons] at hx
      rcases hx with rfl | hx
      · exact hl _ (List.mem_cons_self _ _)
      · exact ih l0 hl0 (fun y hy => hl y (List.mem_cons_of_mem _ hy)) x hx

theorem upsert_adhoc (n s p : String) (c pw : Nat) (l : List WiFiConfig_t)
    (hl : ∀ x ∈ l, x.adhoc = false) :
    ∀ x ∈ upsert (newEntry n s p c pw) l, x.adhoc = false := by
  unfold upsert
  cases h : setWifiConfigLoop (newEntry n s p c pw).name (newEntry n s p c pw).ssid
      (newEntry n s p c pw).password (newEntry n s p c pw).channel
      (newEntry n s p c pw).power l with
  | some l' => exact mem_setWifiConfigLoop_adhoc _ _ _ _ _ _ _ h hl
  | none =>
    simp only
    split_ifs
    · intro x hx
      simp only [List.mem_append, List.mem_singleton] at hx
      rcases hx with hx | rfl
      · exact hl x hx
      · rfl
    · exact hl

/-- No setter stores a network with the adhoc flag set. -/
theorem SetterCall.run_adhoc (c : SetterCall) (w : World)
    (h : ∀ n ∈ w.config.networks, n.adhoc = false) :
    ∀ n ∈ (c.run w).config.networks, n.adhoc = false := by
  cases c with
  | deviceConfig l p port sn =>
    cases sn <;> simpa [SetterCall.run, setDeviceConfig, notifyAll] using h
  | mdnsConfig hn s sn => cases sn <;> simpa [SetterCall.run, setMDNSConfig, notifyAll] using h
  | cameraConfig v f hr q b sn =>
    cases sn <;> simpa [SetterCall.run, setCameraConfig, notifyAll] using h
  | wifiConfig n s p c pw a sn =>
    simp only [SetterCall.run, setWifiConfig_networks]
    exact upsert_adhoc n s p c pw _ h
  | apWifiConfig s p c a sn =>
    cases sn <;>
      simpa [SetterCall.run, setAPWifiConfig, notifyAll, wifiStateManager_setState,
        WiFi_disconnect] using h
  | wifiTxPower p sn => cases sn <;> simpa [SetterCall.run, setWiFiTxPower, notifyAll] using h
  | deleteWifi n sn =>
    simp only [SetterCall.run, deleteWifiConfig_networks, deleteWifiConfigLoop_eq_filter]
    intro x hx
    exact h x (List.mem_of_mem_filter hx)
  | deviceMode m sn =>
    cases sn <;> simpa [SetterCall.run, setDeviceMode, notifyAll, putInt] using h
  | hasWiFiCredentials hc sn =>
    cases sn <;> simpa [SetterCall.run, setHasWiFiCredentials, notifyAll, putBool] using h

theorem runSetters_adhoc (calls : List SetterCall) (w : World)
    (h : ∀ n ∈ w.config.networks, n.adhoc = false) :
    ∀ n ∈ (runSetters calls w).config.networks, n.adhoc = false := by
  induction calls generalizing w with
  | nil => exact h
  | cons c rest ih =>
    simp only [runSetters, List.foldl_cons] at ih ⊢
    exact ih (c.run w) (SetterCall.run_adhoc c w h)

/-- C23: on a new store, over any flash, after the first `load()` and any sequence of
setter calls (`setWifiConfig` and `deleteWifiConfig` with any arguments among them),
every entry of the networks sequence has the adhoc flag false. -/
theorem C23_networks_adhoc_false (b : BuildFlags) (name mdnsName : String) (flash : Nvs)
    (calls : List SetterCall) :
    ∀ n ∈ (runSetters calls (load b (ProjectConfig_new name mdnsName flash))).config.networks,
      n.adhoc = false :=
  runSetters_adhoc calls _ (load_networks_adhoc b _ (by simp [ProjectConfig_new]))

/-- Witness of C23: after the first load over empty storage, the call that sets `lab`
with the adhoc argument true leaves an entry `lab` whose flag is false. -/
theorem C23_witness :
    (⟨"lab", "bench", "pw3", 1, 8, false⟩ : WiFiConfig_t) ∈
        (runSetters sampleAdhocCalls
          (load sampleFlags (ProjectConfig_new "openiris" "openiristracker" []))).config.networks ∧
      (⟨"lab", "bench", "pw3", 1, 8, false⟩ : WiFiConfig_t).adhoc = false :=
  ⟨by decide,
    C23_networks_adhoc_false sampleFlags "openiris" "openiristracker" [] sampleAdhocCalls
      ⟨"lab", "bench", "pw3", 1, 8, false⟩ (by decide)⟩

/-! ## `reset` -/

/-- C25 (as amended): on a store on which `load()` has completed, `reset()` leaves the
configuration as it is and returns the result of the storage clear (true, with the
flash emptied, when the flash handle is open; false, with the flash untouched, when it
is closed); a re-run of `load()` after it finds the guard set and returns at once, so
the configuration is still the one from before `reset()`. -/
theorem C25_reset_then_load (b : BuildFlags) (w : World) (hloaded : w._already_loaded = true) :
    (reset w).2.config = w.config ∧
    (reset w).1 = w._started ∧
    (reset w).2.nvs = (if w._started then [] else w.nvs) ∧
    load b (reset w).2 = (reset w).2 ∧
    (load b (reset w).2).config = w.config := by
  have hcfg : (reset w).2.config = w.config := by
    unfold reset Preferences.clear
    split_ifs <;> rfl
  have hl : (reset w).2._already_loaded = true := by
    unfold reset Preferences.clear
    split_ifs <;> simpa using hloaded
  have hload := load_of_already_loaded b (reset w).2 hl
  refine ⟨hcfg, ?_, ?_, hload, by rw [hload, hcfg]⟩
  · unfold reset Preferences.clear
    split_ifs with h <;> simp [h]
  · unfold reset Preferences.clear
    split_ifs with h <;> simp

/-- Witness of C25: the booted device after its hostname was changed. -/
theorem C25_witness :
    (reset sampleRenamed).2.config = sampleRenamed.config ∧
    (reset sampleRenamed).1 = sampleRenamed._started ∧
    (reset sampleRenamed).2.nvs = (if sampleRenamed._started then [] else sampleRenamed.nvs) ∧
    load sampleFlags (reset sampleRenamed).2 = (reset sampleRenamed).2 ∧
    (load sampleFlags (reset sampleRenamed).2).config = sampleRenamed.config :=
  C25_reset_then_load sampleFlags sampleRenamed rfl

/-- Counterexample to C25 as stated: on the booted device whose hostname was set to
`tracker2`, `reset()` followed by `load()` leaves the hostname `tracker2`, while `load()` on a
new store over empty storage gives `openiristracker`. -/
theorem C25_counterexample :
    sampleRenamed._already_loaded = true ∧
    (load sampleFlags (reset sampleRenamed).2).config.mdns.hostname = "tracker2" ∧
    (load sampleFlags sampleBlank).config.mdns.hostname = "openiristracker" ∧
    (load sampleFlags (reset sampleRenamed).2).config ≠ (load sampleFlags sampleBlank).config := by
  decide

/-! ## Defaults of `load` -/

/-- C22 (failing input): `load()` on a new store over entirely empty storage.  The mDNS
service name ends empty and the channel of the access point ends 0, while `initConfig`
populated `openiristracker` and 1; the other members end with the defaults. -/
theorem C22_load_on_empty_storage :
    (initConfig sampleFlags sampleBlank).config.mdns.service = "openiristracker" ∧
    (initConfig sampleFlags sampleBlank).config.ap_network.channel = 1 ∧
    (load sampleFlags sampleBlank).config =
      { device := ⟨"openiris", "12345678", 3232⟩
        camera := ⟨0, 0, 4, 7, 2⟩
        networks := []
        ap_network := ⟨"", "", 0, false⟩
        mdns := ⟨"openiristracker", ""⟩
        txpower := ⟨52⟩
        deviceMode := ⟨DeviceMode.AP_MODE, false⟩ } := by
  decide

/-! ## The writes of the saves, in order -/

theorem put_trace_of_started (key : String) (v : NvsValue) (w : World)
    (h : w._started = true) :
    (Preferences.put key v w).trace = w.trace ++ [.nvsWrite key v] := by
  simp [Preferences.put, h]

@[simp] theorem writeEvents_nil : writeEvents [] = [] := rfl

@[simp] theorem writeEvents_cons (r : String × NvsValue) (rs : List (String × NvsValue)) :
    writeEvents (r :: rs) = Event.nvsWrite r.1 r.2 :: writeEvents rs := rfl

@[simp] theorem writeEvents_append (a b : List (String × NvsValue)) :
    writeEvents (a ++ b) = writeEvents a ++ writeEvents b := by
  simp [writeEvents]

/-- With the flash handle open, the loop of `wifiConfigSave` writes network `i` under the
keys of round `i`. -/
theorem wifiConfigSaveLoop_trace (l : List WiFiConfig_t) (i : Nat) (w : World)
    (h : w._started = true) :
    (wifiConfigSaveLoop i (keysBefore i) l w).trace = w.trace ++ writeEvents (netRecords i l) := by
  induction l generalizing i w with
  | nil => simp [wifiConfigSaveLoop, netRecords]
  | cons n rest ih =>
    simp only [wifiConfigSaveLoop, keysBefore_append]
    have hk : keysAt i = keysBefore (i + 1) := rfl
    rw [hk, ih (i + 1) _ (by simp [putString, putUInt, h])]
    simp [putString, putUInt, put_trace_of_started, h, netRecords, netRecord, ← hk]

theorem wifiConfigSave_trace (w : World) (h : w._started = true) :
    (wifiConfigSave w).trace = w.trace ++ writeEvents (wifiRecords w.config) := by
  have hk : NetKeys.init = keysBefore 0 := rfl
  simp only [wifiConfigSave]
  simp only [putString, putUInt, putInt, put_trace_of_started, h, put_started,
    wifiConfigSaveLoop_started, put_config, wifiConfigSaveLoop_config]
  rw [hk, wifiConfigSaveLoop_trace _ 0 _ (by simp [h])]
  simp [put_trace_of_started, h, wifiRecords]

theorem save_trace (w : World) (h : w._started = true) :
    (save w).trace = w.trace ++ writeEvents (saveRecords w.config) ++ [.nvsClose] := by
  simp only [save, Preferences.end_, deviceConfigSave, mdnsConfigSave, cameraConfigSave,
    wifiTxPowerConfigSave, deviceModeConfigSave, putString, putInt, putBool]
  simp [put_trace_of_started, wifiConfigSave_trace, h, saveRecords]

@[simp] theorem wifiConfigSaveLoop_wifiState (i : Nat) (k : NetKeys) (l : List WiFiConfig_t)
    (w : World) : (wifiConfigSaveLoop i k l w).wifiState = w.wifiState := by
  induction l generalizing i k w with
  | nil => rfl
  | cons n rest ih => simp [wifiConfigSaveLoop, ih, putString, putUInt]

@[simp] theorem wifiConfigSave_wifiState (w : World) :
    (wifiConfigSave w).wifiState = w.wifiState := by
  simp [wifiConfigSave, putString, putInt, putUInt]

theorem wifiConfigSave_closed (w : World) (hclosed : w._started = false) :
    wifiConfigSave w = w := by
  simp [wifiConfigSave, putString, putInt, putUInt, put_closed, wifiConfigSaveLoop_closed,
    hclosed]

/-- The events of one save of the wifi section: the writes with the handle open, none with
the handle closed. -/
theorem wifiConfigSave_trace_cases (w : World) :
    (wifiConfigSave w).trace =
      w.trace ++ (if w._started then writeEvents (wifiRecords w.config) else []) := by
  cases h : w._started
  · simp [wifiConfigSave_closed, h]
  · simp [wifiConfigSave_trace, h]

/-- The tail of `setWifiConfig` with notification: the state call, the writes, the
notification. -/
theorem setWifiConfig_tail (st : WiFiState_e) (w : World) :
    (notifyAll .networksConfigUpdated (wifiConfigSave (wifiStateManager_setState st w))).trace =
        w.trace ++ [.wifiSetState st] ++
          (if w._started then writeEvents (wifiRecords w.config) else []) ++
          [.notify .networksConfigUpdated] ∧
      (notifyAll .networksConfigUpdated
        (wifiConfigSave (wifiStateManager_setState st w))).wifiState = st ∧
      (notifyAll .networksConfigUpdated
        (wifiConfigSave (wifiStateManager_setState st w))).config = w.config := by
  refine ⟨?_, ?_, ?_⟩
  · simp [notifyAll, wifiConfigSave_trace_cases, wifiStateManager_setState]
  · simp [notifyAll, wifiStateManager_setState]
  · simp [notifyAll, wifiStateManager_setState]

/-- The effects of `setWifiConfig` with notification, in order: at most the serial line
of the append path, the call that sets the WiFi state, the writes of the wifi section
(with the flash handle open), the notification. -/
theorem setWifiConfig_order (n s p : String) (c pw : Nat) (a : Bool) (w : World) :
    ∃ prints : List Event,
      (∀ e ∈ prints, ∃ t, e = Event.serialPrintln t) ∧
      (n ∈ names w.config.networks → prints = []) ∧
      (setWifiConfig n s p c pw a true w).trace =
        w.trace ++ prints ++
          [.wifiSetState (if n ∈ names w.config.networks then WiFiState_e.WiFiState_Disconnected
            else WiFiState_e.WiFiState_None)] ++
          (if w._started then
            writeEvents (wifiRecords (setWifiConfig n s p c pw a true w).config) else []) ++
          [.notify .networksConfigUpdated] ∧
      (setWifiConfig n s p c pw a true w).wifiState =
        (if n ∈ names w.config.networks then WiFiState_e.WiFiState_Disconnected
          else WiFiState_e.WiFiState_None) := by
  by_cases hin : n ∈ names w.config.networks
  · have hsome : ∃ nets, setWifiConfigLoop n s p (c % 256) (pw % 256) w.config.networks =
        some nets := by
      cases hl : setWifiConfigLoop n s p (c % 256) (pw % 256) w.config.networks with
      | none => exact absurd ((setWifiConfigLoop_none_iff _ _ _ _ _ _).1 hl) (by simpa using hin)
      | some nets => exact ⟨nets, rfl⟩
    obtain ⟨nets, hl⟩ := hsome
    have heq : setWifiConfig n s p c pw a true w =
        notifyAll .networksConfigUpdated (wifiConfigSave
          (wifiStateManager_setState .WiFiState_Disconnected
            { w with config := { w.config with networks := nets } })) := by
      simp [setWifiConfig, hl]
    obtain ⟨t1, t2, t3⟩ := setWifiConfig_tail .WiFiState_Disconnected
      { w with config := { w.config with networks := nets } }
    refine ⟨[], by simp, fun _ => rfl, ?_, ?_⟩
    · rw [heq, t3, t1]; simp [hin]
    · rw [heq, t2]; simp [hin]
  · have hl := (setWifiConfigLoop_none_iff n s p (c % 256) (pw % 256) w.config.networks).2 hin
    obtain ⟨w1, prints, heq, hpr, htr, hst⟩ : ∃ (w1 : World) (prints : List Event),
        setWifiConfig n s p c pw a true w =
          notifyAll .networksConfigUpdated (wifiConfigSave
            (wifiStateManager_setState .WiFiState_None w1)) ∧
        (∀ e ∈ prints, ∃ t, e = Event.serialPrintln t) ∧
        w1.trace = w.trace ++ prints ∧ w1._started = w._started := by
      simp only [setWifiConfig, hl, if_true]
      by_cases hz : w.config.networks.length = 0
      · refine ⟨_, [.serialPrintln "No networks, We're adding a new network"], rfl, ?_, ?_, ?_⟩
        · simp
        · simp [hz, Serial_println]
        · simp [hz, Serial_println]
      · by_cases h3 : w.config.networks.length < 3
        · have hp : w.config.networks.length > 0 := Nat.pos_of_ne_zero hz
          refine ⟨_, [.serialPrintln "We're adding a new network"], rfl, ?_, ?_, ?_⟩
          · simp
          · simp [hz, h3, hp, Serial_println]
          · simp [hz, h3, hp, Serial_println]
        · refine ⟨_, [], rfl, ?_, ?_, ?_⟩
          · simp
          · simp [hz, h3]
          · simp [hz, h3]
    obtain ⟨t1, t2, t3⟩ := setWifiConfig_tail .WiFiState_None w1
    refine ⟨prints, hpr, fun h => absurd h hin, ?_, ?_⟩
    · rw [heq, t3, t1, htr, hst]; simp [hin]
    · rw [heq, t2]; simp [hin]

/-- C26 (amended): a `setWifiConfig` call with notification appends to the trace, in this
order, at most the serial line of the append path, one call that sets the WiFi state, the
writes of the wifi section (with the flash handle open) and one `networksConfigUpdated`
notification.  The state that is set is `WiFiState_Disconnected` when an entry of that
name was present (the update path) and `WiFiState_None` otherwise (the append path). -/
theorem C26_setWifiConfig_order (n s p : String) (c pw : Nat) (a : Bool) (w : World) :
    ∃ prints : List Event,
      (∀ e ∈ prints, ∃ t, e = Event.serialPrintln t) ∧
      (n ∈ names w.config.networks → prints = []) ∧
      (setWifiConfig n s p c pw a true w).trace =
        w.trace ++ prints ++
          [.wifiSetState (if n ∈ names w.config.networks then WiFiState_e.WiFiState_Disconnected
            else WiFiState_e.WiFiState_None)] ++
          (if w._started then
            writeEvents (wifiRecords (setWifiConfig n s p c pw a true w).config) else []) ++
          [.notify .networksConfigUpdated] ∧
      (setWifiConfig n s p c pw a true w).wifiState =
        (if n ∈ names w.config.networks then WiFiState_e.WiFiState_Disconnected
          else WiFiState_e.WiFiState_None) ∧
      notifications (setWifiConfig n s p c pw a true w).trace =
        notifications w.trace ++ [.networksConfigUpdated] := by
  have hnote : notifications (setWifiConfig n s p c pw a true w).trace =
      notifications w.trace ++ [.networksConfigUpdated] := by
    obtain ⟨st, w1, h1, -, -, h4⟩ := setWifiConfig_notify_shape n s p c pw a w
    rw [h1]
    simp [notifyAll, wifiStateManager_setState, notifications_emit, h4]
  obtain ⟨prints, h1, h2, h3, h4⟩ := setWifiConfig_order n s p c pw a w
  exact ⟨prints, h1, h2, h3, h4, hnote⟩

/-- C26 (witness): the order on the device with two networks, for a third name. -/
theorem C26_witness :
    ∃ prints : List Event,
      (∀ e ∈ prints, ∃ t, e = Event.serialPrintln t) ∧
      ("lab" ∈ names sampleTwo.config.networks → prints = []) ∧
      (setWifiConfig "lab" "bench" "pw3" 1 8 false true sampleTwo).trace =
        sampleTwo.trace ++ prints ++
          [.wifiSetState (if "lab" ∈ names sampleTwo.config.networks then
            WiFiState_e.WiFiState_Disconnected else WiFiState_e.WiFiState_None)] ++
          (if sampleTwo._started then
            writeEvents (wifiRecords
              (setWifiConfig "lab" "bench" "pw3" 1 8 false true sampleTwo).config) else []) ++
          [.notify .networksConfigUpdated] ∧
      (setWifiConfig "lab" "bench" "pw3" 1 8 false true sampleTwo).wifiState =
        (if "lab" ∈ names sampleTwo.config.networks then WiFiState_e.WiFiState_Disconnected
          else WiFiState_e.WiFiState_None) ∧
      notifications (setWifiConfig "lab" "bench" "pw3" 1 8 false true sampleTwo).trace =
        notifications sampleTwo.trace ++ [.networksConfigUpdated] :=
  C26_setWifiConfig_order "lab" "bench" "pw3" 1 8 false sampleTwo

/-- C26 (counterexample): on the device with the networks `office` and `main`, the call
for the new name `lab` with notification takes the append path; the one state call in
its trace sets `WiFiState_None`, and the state is `WiFiState_None` afterwards, not
`WiFiState_Disconnected`.  The call for the present name `main` sets
`WiFiState_Disconnected`. -/
theorem C26_counterexample :
    "lab" ∉ names sampleTwo.config.networks ∧
    (setWifiConfig "lab" "bench" "pw3" 1 8 false true sampleTwo).trace.filter
        (fun e => match e with
          | .wifiSetState _ => true
          | _ => false) =
      [.wifiSetState .WiFiState_None] ∧
    (setWifiConfig "lab" "bench" "pw3" 1 8 false true sampleTwo).wifiState =
      .WiFiState_None ∧
    (setWifiConfig "lab" "bench" "pw3" 1 8 false true sampleTwo).wifiState ≠
      .WiFiState_Disconnected ∧
    (setWifiConfig "main" "home" "secret" 0 0 false true sampleTwo).wifiState =
      .WiFiState_Disconnected := by decide

/-! ## The keys of the networks -/

theorem netRecords_keys (l : List WiFiConfig_t) (i : Nat) :
    (netRecords i l).map Prod.fst = networkKeysFrom i l.length := by
  induction l generalizing i with
  | nil => rfl
  | cons n rest ih => simp [netRecords, networkKeysFrom, netRecord, NetKeys.list, ih]

theorem readNetwork_congr (k : NetKeys) (w x : World) (hs : x._started = w._started)
    (hn : x.nvs = w.nvs) : readNetwork k x = readNetwork k w := by
  simp [readNetwork, getString, getUInt, hs, hn]

theorem readNetworksFrom_congr (r i : Nat) (w x : World) (hs : x._started = w._started)
    (hn : x.nvs = w.nvs) : readNetworksFrom i r x = readNetworksFrom i r w := by
  induction r generalizing i with
  | zero => rfl
  | succ r ih => simp [readNetworksFrom, ih, readNetwork_congr _ w x hs hn]

/-- The loop of `load` reads network `i` under the keys of round `i`. -/
theorem loadNetworksLoop_reads (r i : Nat) (w : World) :
    (loadNetworksLoop r i (keysBefore i) w).config.networks =
      w.config.networks ++ readNetworksFrom i r w := by
  induction r generalizing i w with
  | zero => simp [loadNetworksLoop, readNetworksFrom]
  | succ r ih =>
    simp only [loadNetworksLoop, keysBefore_append]
    have hk : keysAt i = keysBefore (i + 1) := rfl
    rw [hk, ih (i + 1)]
    rw [readNetworksFrom_congr r (i + 1) w]
    · simp [readNetworksFrom, readNetwork, ← hk]
    · rfl
    · rfl

/-- The keys of up to three networks and of the other sections are pairwise distinct. -/
theorem networkKeys_nodup (n : Nat) (h : n ≤ 3) : (networkKeys n ++ sectionKeys).Nodup := by
  interval_cases n <;> decide

theorem saveRecords_keys (c : TrackerConfig_t) :
    (saveRecords c).map Prod.fst =
      ["OTAPassword", "OTALogin", "OTAPort", "hostname", "service", "vflip", "href",
        "framesize", "quality", "brightness", "networkCount"] ++
      networkKeys c.networks.length ++
      ["apSSID", "apPass", "apChannel", "txpower", MODE_KEY, HAS_WIFI_CREDS_KEY] := by
  simp [saveRecords, wifiRecords, netRecords_keys, networkKeys]

theorem saveRecords_keys_nodup (c : TrackerConfig_t) (h : c.networks.length ≤ 3) :
    ((saveRecords c).map Prod.fst).Nodup := by
  rw [saveRecords_keys]
  generalize c.networks.length = n at h
  interval_cases n <;> decide

/-- C28: with the flash handle open and at most three networks, the loop of
`wifiConfigSave` writes network `i` under the five keys of round `i`, and the loop of
`load` reads network `i` under the same five keys; for three networks these are the keys
`name0` … `txpower012`.  The per-network keys are pairwise distinct and differ from the
keys of the other sections, and the keys of the records that `save()` writes are pairwise
distinct. -/
theorem C28_network_keys (w : World) (hopen : w._started = true)
    (hsize : w.config.networks.length ≤ 3) :
    (wifiConfigSaveLoop 0 NetKeys.init w.config.networks w).trace =
      w.trace ++ writeEvents (netRecords 0 w.config.networks) ∧
    (netRecords 0 w.config.networks).map Prod.fst = networkKeys w.config.networks.length ∧
    (∀ (r : Nat) (x : World), (loadNetworksLoop r 0 NetKeys.init x).config.networks =
      x.config.networks ++ readNetworksFrom 0 r x) ∧
    networkKeys 3 =
      ["name0", "ssid0", "pass0", "channel0", "txpower0",
       "name01", "ssid01", "pass01", "channel01", "txpower01",
       "name012", "ssid012", "pass012", "channel012", "txpower012"] ∧
    (networkKeys w.config.networks.length ++ sectionKeys).Nodup ∧
    (save w).trace = w.trace ++ writeEvents (saveRecords w.config) ++ [.nvsClose] ∧
    ((saveRecords w.config).map Prod.fst).Nodup :=
  ⟨wifiConfigSaveLoop_trace _ 0 w hopen, netRecords_keys _ 0,
    fun r x => loadNetworksLoop_reads r 0 x, by decide, networkKeys_nodup _ hsize,
    save_trace w hopen, saveRecords_keys_nodup _ hsize⟩

/-- C28 (witness): the keys on the device with three networks. -/
theorem C28_witness :
    sampleFull._started = true ∧ sampleFull.config.networks.length ≤ 3 ∧
    (wifiConfigSaveLoop 0 NetKeys.init sampleFull.config.networks sampleFull).trace =
      sampleFull.trace ++ writeEvents (netRecords 0 sampleFull.config.networks) ∧
    (netRecords 0 sampleFull.config.networks).map Prod.fst =
      networkKeys sampleFull.config.networks.length ∧
    (∀ (r : Nat) (x : World), (loadNetworksLoop r 0 NetKeys.init x).config.networks =
      x.config.networks ++ readNetworksFrom 0 r x) ∧
    networkKeys 3 =
      ["name0", "ssid0", "pass0", "channel0", "txpower0",
       "name01", "ssid01", "pass01", "channel01", "txpower01",
       "name012", "ssid012", "pass012", "channel012", "txpower012"] ∧
    (networkKeys sampleFull.config.networks.length ++ sectionKeys).Nodup ∧
    (save sampleFull).trace =
      sampleFull.trace ++ writeEvents (saveRecords sampleFull.config) ++ [.nvsClose] ∧
    ((saveRecords sampleFull.config).map Prod.fst).Nodup :=
  ⟨rfl, by decide, C28_network_keys sampleFull rfl (by decide)⟩

/-! ## Setters with notification, in order -/

/-- C13 (as amended): with `shouldNotify = true` every per-section setter puts the given
values in its section of the configuration and sends its notification exactly once, as
the last effect of the call (`setWifiConfig` stores its entry when the sequence has room
or holds the name).  `setDeviceConfig`, `setMDNSConfig`, `setCameraConfig` and
`setWiFiTxPower` have no other effect: they write nothing to flash.  `setWifiConfig`,
`setAPWifiConfig` and `deleteWifiConfig` save the wifi section before they notify, and
`setDeviceMode` and `setHasWiFiCredentials` put their key before they notify: with the
flash handle open the writes stand in the trace before the notification, and with it
closed there is no write.  With the handle open, the flash then holds the key of the
mode or of the flag, and, with at most three networks, the wifi section. -/
theorem C13_setters_with_notification (w : World) :
    (∀ (l p : String) (port : Int),
      (setDeviceConfig l p port true w).config.device = ⟨l, p, port⟩ ∧
      (setDeviceConfig l p port true w).trace = w.trace ++ [.notify .deviceConfigUpdated] ∧
      (setDeviceConfig l p port true w).nvs = w.nvs) ∧
    (∀ (h s : String),
      (setMDNSConfig h s true w).config.mdns = ⟨h, s⟩ ∧
      (setMDNSConfig h s true w).trace = w.trace ++ [.notify .mdnsConfigUpdated] ∧
      (setMDNSConfig h s true w).nvs = w.nvs) ∧
    (∀ (vflip framesize href quality brightness : Nat),
      (setCameraConfig vflip framesize href quality brightness true w).config.camera =
        ⟨vflip % 256, href % 256, framesize % 256, quality % 256, brightness % 256⟩ ∧
      (setCameraConfig vflip framesize href quality brightness true w).trace =
        w.trace ++ [.notify .cameraConfigUpdated] ∧
      (setCameraConfig vflip framesize href quality brightness true w).nvs = w.nvs) ∧
    (∀ (power : Nat),
      (setWiFiTxPower power true w).config.txpower = ⟨power % 256⟩ ∧
      (setWiFiTxPower power true w).trace = w.trace ++ [.notify .wifiTxPowerUpdated] ∧
      (setWiFiTxPower power true w).nvs = w.nvs) ∧
    (∀ (n s p : String) (c pw : Nat) (a : Bool),
      (w.config.networks.length < 3 ∨ n ∈ names w.config.networks →
        newEntry n s p c pw ∈ (setWifiConfig n s p c pw a true w).config.networks) ∧
      (∃ (prints : List Event) (st : WiFiState_e),
        (∀ e ∈ prints, ∃ t, e = Event.serialPrintln t) ∧
        (setWifiConfig n s p c pw a true w).trace =
          w.trace ++ prints ++ [.wifiSetState st] ++
            (if w._started then
              writeEvents (wifiRecords (setWifiConfig n s p c pw a true w).config) else []) ++
            [.notify .networksConfigUpdated]) ∧
      (w._started = true → w.config.networks.length ≤ 3 →
        HoldsWifi (setWifiConfig n s p c pw a true w).nvs
          (setWifiConfig n s p c pw a true w).config)) ∧
    (∀ (s p : String) (c : Nat) (a : Bool),
      (setAPWifiConfig s p c a true w).config.ap_network = ⟨s, p, c % 256, a⟩ ∧
      (setAPWifiConfig s p c a true w).trace =
        w.trace ++ [.wifiSetState .WiFiState_None, .wifiDisconnect false] ++
          (if w._started then
            writeEvents (wifiRecords (setAPWifiConfig s p c a true w).config) else []) ++
          [.notify .networksConfigUpdated] ∧
      (w._started = true → w.config.networks.length ≤ 3 →
        HoldsWifi (setAPWifiConfig s p c a true w).nvs
          (setAPWifiConfig s p c a true w).config)) ∧
    (∀ (n : String),
      (deleteWifiConfig n true w).config.networks =
        w.config.networks.filter (fun x => !decide (x.name = n)) ∧
      (deleteWifiConfig n true w).trace =
        w.trace ++
          (if w.config.networks.length = 0 then
            [.serialPrintln "No networks, nothing to delete"] else []) ++
          (if w._started then
            writeEvents (wifiRecords (deleteWifiConfig n true w).config) else []) ++
          [.notify .networksConfigUpdated] ∧
      (w._started = true → w.config.networks.length ≤ 3 →
        HoldsWifi (deleteWifiConfig n true w).nvs (deleteWifiConfig n true w).config)) ∧
    (∀ (m : DeviceMode),
      (setDeviceMode m true w).config.deviceMode.mode = m ∧
      (setDeviceMode m true w).trace =
        w.trace ++ (if w._started then [.nvsWrite MODE_KEY (.i32 m.val)] else []) ++
          [.notify .deviceModeUpdated] ∧
      (w._started = true →
        Nvs.get MODE_KEY (setDeviceMode m true w).nvs = some (.i32 m.val))) ∧
    (∀ (h : Bool),
      (setHasWiFiCredentials h true w).config.deviceMode.hasWiFiCredentials = h ∧
      (setHasWiFiCredentials h true w).trace =
        w.trace ++ (if w._started then [.nvsWrite HAS_WIFI_CREDS_KEY (.flag h)] else []) ++
          [.notify .deviceModeUpdated] ∧
      (w._started = true →
        Nvs.get HAS_WIFI_CREDS_KEY (setHasWiFiCredentials h true w).nvs = some (.flag h))) := by
  refine ⟨?_, ?_, ?_, ?_, ?_, ?_, ?_, ?_, ?_⟩
  · intro l p port
    simp [setDeviceConfig, notifyAll]
  · intro h s
    simp [setMDNSConfig, notifyAll]
  · intro v f h q b
    simp [setCameraConfig, notifyAll]
  · intro power
    simp [setWiFiTxPower, notifyAll]
  · intro n s p c pw a
    refine ⟨fun hroom => ?_, ?_, fun hopen hsize => ?_⟩
    · rw [setWifiConfig_networks]
      exact mem_upsert n s p c pw _ hroom
    · obtain ⟨prints, hpr, -, htr, -⟩ := setWifiConfig_order n s p c pw a w
      exact ⟨prints, _, hpr, htr⟩
    · obtain ⟨st, w1, heq, hs, hn, ht⟩ := setWifiConfig_notify_shape n s p c pw a w
      rw [heq]
      apply holdsWifi_after_save
      · simp [wifiStateManager_setState, hs, hopen]
      · simp only [wifiStateManager_setState, emit_config, hn]
        exact upsert_length_le _ _ hsize
  · intro s p c a
    refine ⟨?_, ?_, fun hopen hsize => ?_⟩
    · simp [setAPWifiConfig, notifyAll, wifiStateManager_setState, WiFi_disconnect]
    · simp [setAPWifiConfig, notifyAll, wifiStateManager_setState, WiFi_disconnect,
        wifiConfigSave_trace_cases]
    · simp only [setAPWifiConfig, if_true]
      apply holdsWifi_after_save
      · simp [wifiStateManager_setState, WiFi_disconnect, hopen]
      · simpa [wifiStateManager_setState, WiFi_disconnect] using hsize
  · intro n
    refine ⟨?_, ?_, fun hopen hsize => ?_⟩
    · rw [deleteWifiConfig_networks, deleteWifiConfigLoop_eq_filter]
    · simp only [deleteWifiConfig, if_true]
      split_ifs <;> simp_all [notifyAll, Serial_println, wifiConfigSave_trace_cases]
    · simp only [deleteWifiConfig, if_true]
      apply holdsWifi_after_save
      · split_ifs <;> simp [Serial_println, hopen]
      · split_ifs <;>
          simp only [Serial_println, emit_config] <;>
          exact le_trans (deleteWifiConfigLoop_length_le _ _) hsize
  · intro m
    refine ⟨?_, ?_, fun hopen => ?_⟩
    · simp [setDeviceMode, notifyAll, putInt]
    · cases hs : w._started <;> simp [setDeviceMode, notifyAll, putInt, Preferences.put, hs]
    · simp [setDeviceMode, notifyAll, putInt, put_nvs_of_started, hopen]
  · intro h
    refine ⟨?_, ?_, fun hopen => ?_⟩
    · simp [setHasWiFiCredentials, notifyAll, putBool]
    · cases hs : w._started <;>
        simp [setHasWiFiCredentials, notifyAll, putBool, Preferences.put, hs]
    · simp [setHasWiFiCredentials, notifyAll, putBool, put_nvs_of_started, hopen]

/-- Witness of C13: `setDeviceConfig`, `setWifiConfig`, `setAPWifiConfig` and `setDeviceMode`
with notification on the device with two networks, whose flash handle is open. -/
theorem C13_witness :
    sampleTwo._started = true ∧ sampleTwo.config.networks.length ≤ 3 ∧
    ((setDeviceConfig "admin" "hunter2" 8266 true sampleTwo).config.device
        = ⟨"admin", "hunter2", 8266⟩ ∧
      (setDeviceConfig "admin" "hunter2" 8266 true sampleTwo).trace =
        sampleTwo.trace ++ [.notify .deviceConfigUpdated] ∧
      (setDeviceConfig "admin" "hunter2" 8266 true sampleTwo).nvs = sampleTwo.nvs) ∧
    HoldsWifi (setWifiConfig "lab" "bench" "pw3" 1 8 false true sampleTwo).nvs
      (setWifiConfig "lab" "bench" "pw3" 1 8 false true sampleTwo).config ∧
    ((setAPWifiConfig "iris" "pw" 6 false true sampleTwo).config.ap_network =
        ⟨"iris", "pw", 6 % 256, false⟩ ∧
      (setAPWifiConfig "iris" "pw" 6 false true sampleTwo).trace =
        sampleTwo.trace ++ [.wifiSetState .WiFiState_None, .wifiDisconnect false] ++
          (if sampleTwo._started then
            writeEvents (wifiRecords (setAPWifiConfig "iris" "pw" 6 false true sampleTwo).config)
            else []) ++
          [.notify .networksConfigUpdated] ∧
      HoldsWifi (setAPWifiConfig "iris" "pw" 6 false true sampleTwo).nvs
        (setAPWifiConfig "iris" "pw" 6 false true sampleTwo).config) ∧
    ((setDeviceMode DeviceMode.USB_MODE true sampleTwo).config.deviceMode.mode
        = DeviceMode.USB_MODE ∧
      (setDeviceMode DeviceMode.USB_MODE true sampleTwo).trace =
        sampleTwo.trace ++
          (if sampleTwo._started then [.nvsWrite MODE_KEY (.i32 DeviceMode.USB_MODE.val)]
            else []) ++
          [.notify .deviceModeUpdated] ∧
      Nvs.get MODE_KEY (setDeviceMode DeviceMode.USB_MODE true sampleTwo).nvs
        = some (.i32 DeviceMode.USB_MODE.val)) :=
  have h := C13_setters_with_notification sampleTwo
  ⟨rfl, by decide, h.1 "admin" "hunter2" 8266,
   (h.2.2.2.2.1 "lab" "bench" "pw3" 1 8 false).2.2 rfl (by decide),
   ⟨(h.2.2.2.2.2.1 "iris" "pw" 6 false).1, (h.2.2.2.2.2.1 "iris" "pw" 6 false).2.1,
     (h.2.2.2.2.2.1 "iris" "pw" 6 false).2.2 rfl (by decide)⟩,
   ⟨(h.2.2.2.2.2.2.2.1 DeviceMode.USB_MODE).1, (h.2.2.2.2.2.2.2.1 DeviceMode.USB_MODE).2.1,
     (h.2.2.2.2.2.2.2.1 DeviceMode.USB_MODE).2.2 rfl⟩⟩

/-- Counterexample to C13 as stated: on the booted device, whose flash handle is open,
`setDeviceConfig` and `setWiFiTxPower` with notification change the configuration
and leave the flash without an entry for the keys of their sections. -/
theorem C13_counterexample :
    sampleBooted._started = true ∧
    (setDeviceConfig "admin" "hunter2" 8266 true sampleBooted).config.device.OTALogin
      = "admin" ∧
    Nvs.get "OTALogin" (setDeviceConfig "admin" "hunter2" 8266 true sampleBooted).nvs = none ∧
    (setWiFiTxPower 20 true sampleBooted).config.txpower.power = 20 ∧
    Nvs.get "txpower" (setWiFiTxPower 20 true sampleBooted).nvs = none := by
  decide

end OpenIris
